import Mathlib

/-!
# SimLAB: the `BulletWorld` wrapper (`src/bulletInterface/bulletWorld.h`)

A shallow embedding of the `BulletWorld` class: the four id-indexed entity
tables, the joint builders, the raycast-vehicle controller and the `SpeedSim`
rollout, followed by theorems about them.

Conventions of the embedding.

* `double` and `btScalar` values are exact rationals (`Scalar`); rounding is
  not modelled.  Conversion of a scalar to `int` truncates toward zero, as in
  C++ (`truncToInt`).
* `int` counters, ids and buffer indices are unbounded integers: tables and
  buffers are assumed to stay below `2^31` entries.  An id arrives as a
  `double` and is used as an `int` key; it is taken here as the integer key.
* A pointer to a native Bullet object is an address (`Nat`); the state of the
  object behind each address is kept in the dynamics world
  (`btDiscreteDynamicsWorld.body`, `.vehicle`, `.joint`).  A joint builder
  creates its joint as a local object and registers the address of that
  local: the object stands at the next unused address while the builder runs
  and is gone when the builder returns, the registered address staying behind.
  The lifetime of other objects is not modelled.
* A `double*` input array is the function `i ↦ p[i]`.
* A call that throws (`std::map::at` on an absent key) or that dereferences
  the null handle of an entry default-inserted by `operator[]` yields a
  `Fault`; a call that completes yields its return value and the next world.
  A joint builder that throws yields, with the `Fault`, the world in which the
  exception leaves it.
* The Bullet solver, Bullet's normalisation of angular limits and the shape
  factories of `bulletShapes/` are external: they are the fields of `Engine`.
-/

namespace SimLAB

/-- The scalar type of the wrapper (`double`, `btScalar`). -/
abbrev Scalar := ℚ

/-- Conversion of a scalar to `int`: truncation toward zero. -/
def truncToInt (q : Scalar) : Int := Int.tdiv q.num (q.den : Int)

/-- Outcomes other than normal completion. -/
inductive Fault where
  /-- `std::out_of_range` thrown by `std::map::at` or `std::vector::at`. -/
  | out_of_range : Fault
  /-- Undefined behaviour: a null or dangling handle is dereferenced, or a
  write lands outside its buffer. -/
  | undefined : Fault
  /-- The iteration budget given to an unbounded loop ran out. -/
  | out_of_fuel : Fault
deriving DecidableEq, Repr

/-! ## Bullet value types -/

/-- `btVector3`. -/
structure btVector3 where
  x : Scalar
  y : Scalar
  z : Scalar
deriving DecidableEq, Inhabited

/-- `v[i]` for `i = 0, 1, 2`. -/
def btVector3.get (v : btVector3) (i : Nat) : Scalar :=
  match i with
  | 0 => v.x
  | 1 => v.y
  | _ => v.z

/-- `v.setZ(z)`. -/
def btVector3.setZ (v : btVector3) (z : Scalar) : btVector3 := { v with z := z }

/-- `-v`. -/
def btVector3.neg (v : btVector3) : btVector3 := ⟨-v.x, -v.y, -v.z⟩

/-- `a + b`. -/
def btVector3.add (a b : btVector3) : btVector3 := ⟨a.x + b.x, a.y + b.y, a.z + b.z⟩

/-- `btMatrix3x3`, stored by rows: `m[i]` is row `i` and `m[i][j]` its entry
in column `j`. -/
structure btMatrix3x3 where
  row0 : btVector3
  row1 : btVector3
  row2 : btVector3
deriving DecidableEq, Inhabited

/-- `btMatrix3x3(xx, xy, xz, yx, yy, yz, zx, zy, zz)`: the nine-argument
constructor takes the entries row by row. -/
def btMatrix3x3.ofRows (xx xy xz yx yy yz zx zy zz : Scalar) : btMatrix3x3 :=
  ⟨⟨xx, xy, xz⟩, ⟨yx, yy, yz⟩, ⟨zx, zy, zz⟩⟩

/-- `m[i]`: row `i`. -/
def btMatrix3x3.row (m : btMatrix3x3) (i : Nat) : btVector3 :=
  match i with
  | 0 => m.row0
  | 1 => m.row1
  | _ => m.row2

/-- `m[i][j]`. -/
def btMatrix3x3.el (m : btMatrix3x3) (i j : Nat) : Scalar := (m.row i).get j

/-- `btQuaternion(x, y, z, w)`. -/
structure btQuaternion where
  x : Scalar
  y : Scalar
  z : Scalar
  w : Scalar
deriving DecidableEq, Inhabited

/-- `btTransform(basis, origin)`. -/
structure btTransform where
  m_basis : btMatrix3x3
  m_origin : btVector3
deriving DecidableEq, Inhabited

/-! ## Bullet objects -/

/-- The part of a `btRigidBody` the wrapper reads or writes. -/
structure btRigidBody where
  m_worldTransform : btTransform
  m_linearVelocity : btVector3
  m_angularVelocity : btVector3
  m_totalTorque : btVector3
deriving DecidableEq, Inhabited

/-- `body.setCenterOfMassTransform(xform)`. -/
def btRigidBody.setCenterOfMassTransform (b : btRigidBody) (xform : btTransform) : btRigidBody :=
  { b with m_worldTransform := xform }

/-- `body.setLinearVelocity(v)`. -/
def btRigidBody.setLinearVelocity (b : btRigidBody) (v : btVector3) : btRigidBody :=
  { b with m_linearVelocity := v }

/-- `body.setAngularVelocity(v)`. -/
def btRigidBody.setAngularVelocity (b : btRigidBody) (v : btVector3) : btRigidBody :=
  { b with m_angularVelocity := v }

/-- `body.applyTorque(t)`: the torque is added to the accumulated torque. -/
def btRigidBody.applyTorque (b : btRigidBody) (t : btVector3) : btRigidBody :=
  { b with m_totalTorque := b.m_totalTorque.add t }

/-- The part of a `btWheelInfo` the wrapper reads or writes. -/
structure btWheelInfo where
  m_steering : Scalar
  m_engineForce : Scalar
  m_wheelsRadius : Scalar
  m_suspensionRestLength1 : Scalar
  m_suspensionLength : Scalar
  m_suspensionRelativeVelocity : Scalar
  m_clippedInvContactDotSuspension : Scalar
  m_contactNormalWS : btVector3
  m_wheelDirectionWS : btVector3
  m_chassisConnectionPointCS : btVector3
  m_worldTransform : btTransform
deriving DecidableEq, Inhabited

/-- One wheel's share of `btRaycastVehicle::resetSuspension`. -/
def btWheelInfo.resetSuspension (wh : btWheelInfo) : btWheelInfo :=
  { wh with
    m_suspensionLength := wh.m_suspensionRestLength1
    m_suspensionRelativeVelocity := 0
    m_contactNormalWS := wh.m_wheelDirectionWS.neg
    m_clippedInvContactDotSuspension := 1 }

/-- A `btRaycastVehicle`: the address of its chassis body and its wheels.
Wheel `i` is `m_wheelInfo i`; `numWheels` is what `getNumWheels()` returns. -/
structure btRaycastVehicle where
  m_chassisBody : Nat
  m_wheelInfo : Nat → btWheelInfo
  numWheels : Nat
deriving Inhabited

/-- `vehicle.setSteeringValue(steering, wheel)`. -/
def btRaycastVehicle.setSteeringValue (v : btRaycastVehicle) (steering : Scalar) (wheel : Nat) :
    btRaycastVehicle :=
  { v with
    m_wheelInfo :=
      Function.update v.m_wheelInfo wheel { v.m_wheelInfo wheel with m_steering := steering } }

/-- `vehicle.applyEngineForce(force, wheel)`. -/
def btRaycastVehicle.applyEngineForce (v : btRaycastVehicle) (force : Scalar) (wheel : Nat) :
    btRaycastVehicle :=
  { v with
    m_wheelInfo :=
      Function.update v.m_wheelInfo wheel { v.m_wheelInfo wheel with m_engineForce := force } }

/-- `vehicle.getSteeringValue(wheel)`. -/
def btRaycastVehicle.getSteeringValue (v : btRaycastVehicle) (wheel : Nat) : Scalar :=
  (v.m_wheelInfo wheel).m_steering

/-- `vehicle.resetSuspension()`. -/
def btRaycastVehicle.resetSuspension (v : btRaycastVehicle) : btRaycastVehicle :=
  { v with
    m_wheelInfo := fun i =>
      if i < v.numWheels then (v.m_wheelInfo i).resetSuspension else v.m_wheelInfo i }

/-- `btPoint2PointConstraint`: one or two bodies and the local pivots. -/
structure btPoint2PointConstraint where
  m_rbA : Nat
  m_rbB : Option Nat
  m_pivotInA : btVector3
  m_pivotInB : Option btVector3
deriving DecidableEq, Inhabited

/-- `btHingeConstraint`, pivot and axis form.  `m_limit` is what `setLimit`
was last given (low, high, softness, bias factor, relaxation factor) and is
`none` while the joint is as its constructor left it. -/
structure btHingeConstraint where
  m_rbA : Nat
  m_rbB : Option Nat
  m_pivotInA : btVector3
  m_pivotInB : Option btVector3
  m_axisInA : btVector3
  m_axisInB : Option btVector3
  m_useReferenceFrameA : Bool
  m_limit : Option (Scalar × Scalar × Scalar × Scalar × Scalar)
deriving DecidableEq, Inhabited

/-- `hinge.setLimit(low, high, softness, biasFactor, relaxationFactor)`: the
joint records the five values it is given. -/
def btHingeConstraint.setLimit (h : btHingeConstraint)
    (low high softness biasFactor relaxationFactor : Scalar) : btHingeConstraint :=
  { h with m_limit := some (low, high, softness, biasFactor, relaxationFactor) }

/-- `btHinge2Constraint`: the steering limits and, per degree of freedom, the
spring switch, stiffness and damping.  A limit, stiffness or damping that was
never set is `none` (the constructor's default). -/
structure btHinge2Constraint where
  m_rbA : Nat
  m_rbB : Nat
  m_anchor : btVector3
  m_axis1 : btVector3
  m_axis2 : btVector3
  m_upperLimit : Option Scalar
  m_lowerLimit : Option Scalar
  m_springEnabled : Nat → Bool
  m_springStiffness : Nat → Option Scalar
  m_springDamping : Nat → Option Scalar
deriving Inhabited

/-- `btHinge2Constraint(rbA, rbB, anchor, axis1, axis2)`. -/
def btHinge2Constraint.new (rbA rbB : Nat) (anchor axis1 axis2 : btVector3) :
    btHinge2Constraint :=
  { m_rbA := rbA, m_rbB := rbB, m_anchor := anchor, m_axis1 := axis1, m_axis2 := axis2
    m_upperLimit := none, m_lowerLimit := none
    m_springEnabled := fun _ => false
    m_springStiffness := fun _ => none
    m_springDamping := fun _ => none }

/-- `hinge2.setUpperLimit(ang1max)`: Bullet stores, as the upper steering
limit, the angle as its `btNormalizeAngle` returns it. -/
def btHinge2Constraint.setUpperLimit (h : btHinge2Constraint)
    (btNormalizeAngle : Scalar → Scalar) (ang1max : Scalar) : btHinge2Constraint :=
  { h with m_upperLimit := some (btNormalizeAngle ang1max) }

/-- `hinge2.setLowerLimit(ang1min)`: Bullet stores, as the lower steering
limit, the angle as its `btNormalizeAngle` returns it. -/
def btHinge2Constraint.setLowerLimit (h : btHinge2Constraint)
    (btNormalizeAngle : Scalar → Scalar) (ang1min : Scalar) : btHinge2Constraint :=
  { h with m_lowerLimit := some (btNormalizeAngle ang1min) }

/-- `hinge2.enableSpring(index, onOff)`. -/
def btHinge2Constraint.enableSpring (h : btHinge2Constraint) (index : Nat) (onOff : Bool) :
    btHinge2Constraint :=
  { h with m_springEnabled := Function.update h.m_springEnabled index onOff }

/-- `hinge2.setStiffness(index, stiffness)`. -/
def btHinge2Constraint.setStiffness (h : btHinge2Constraint) (index : Nat) (stiffness : Scalar) :
    btHinge2Constraint :=
  { h with m_springStiffness := Function.update h.m_springStiffness index (some stiffness) }

/-- `hinge2.setDamping(index, damping)`. -/
def btHinge2Constraint.setDamping (h : btHinge2Constraint) (index : Nat) (damping : Scalar) :
    btHinge2Constraint :=
  { h with m_springDamping := Function.update h.m_springDamping index (some damping) }

/-- `btGeneric6DofConstraint(rbA, frameInA, useLinearReferenceFrameA)`, the
frame kept as the quaternion and origin it was built from, with the four
limit vectors (`none` until set). -/
structure btGeneric6DofConstraint where
  m_rbA : Nat
  m_frameRotation : btQuaternion
  m_frameOrigin : btVector3
  m_useLinearReferenceFrameA : Bool
  m_linearLowerLimit : Option btVector3
  m_linearUpperLimit : Option btVector3
  m_angularLowerLimit : Option btVector3
  m_angularUpperLimit : Option btVector3
deriving DecidableEq, Inhabited

/-- `sixdof.setLinearLowerLimit(v)`: the vector is stored as given. -/
def btGeneric6DofConstraint.setLinearLowerLimit (c : btGeneric6DofConstraint) (v : btVector3) :
    btGeneric6DofConstraint :=
  { c with m_linearLowerLimit := some v }

/-- `sixdof.setLinearUpperLimit(v)`: the vector is stored as given. -/
def btGeneric6DofConstraint.setLinearUpperLimit (c : btGeneric6DofConstraint) (v : btVector3) :
    btGeneric6DofConstraint :=
  { c with m_linearUpperLimit := some v }

/-- `sixdof.setAngularLowerLimit(v)`: Bullet stores each component as its
`btNormalizeAngle` returns it. -/
def btGeneric6DofConstraint.setAngularLowerLimit (c : btGeneric6DofConstraint)
    (btNormalizeAngle : Scalar → Scalar) (v : btVector3) : btGeneric6DofConstraint :=
  { c with
    m_angularLowerLimit :=
      some ⟨btNormalizeAngle v.x, btNormalizeAngle v.y, btNormalizeAngle v.z⟩ }

/-- `sixdof.setAngularUpperLimit(v)`: Bullet stores each component as its
`btNormalizeAngle` returns it. -/
def btGeneric6DofConstraint.setAngularUpperLimit (c : btGeneric6DofConstraint)
    (btNormalizeAngle : Scalar → Scalar) (v : btVector3) : btGeneric6DofConstraint :=
  { c with
    m_angularUpperLimit :=
      some ⟨btNormalizeAngle v.x, btNormalizeAngle v.y, btNormalizeAngle v.z⟩ }

/-- `btTypedConstraint`: the joints the wrapper builds. -/
inductive btTypedConstraint where
  | point2point (c : btPoint2PointConstraint)
  | hinge (c : btHingeConstraint)
  | hinge2 (c : btHinge2Constraint)
  | generic6Dof (c : btGeneric6DofConstraint)
deriving Inhabited

/-! ## The entity tables -/

/-- `std::map<int, α>`, as the list of its entries.  A table built from the
empty one by `assign` holds each key once. -/
structure Table (α : Type) where
  entries : List (Int × α)

/-- The empty map. -/
def Table.empty {α : Type} : Table α := ⟨[]⟩

/-- `t.size()`. -/
def Table.size {α : Type} (t : Table α) : Nat := t.entries.length

/-- Lookup in a list of entries. -/
def Table.lookup {α : Type} : List (Int × α) → Int → Option α
  | [], _ => none
  | (k', v) :: rest, k => if k' = k then some v else Table.lookup rest k

/-- The entry under key `k`, if there is one (`t.find(k)`). -/
def Table.at? {α : Type} (t : Table α) (k : Int) : Option α := Table.lookup t.entries k

/-- Insertion or replacement in a list of entries. -/
def Table.store {α : Type} : List (Int × α) → Int → α → List (Int × α)
  | [], k, v => [(k, v)]
  | (k', v') :: rest, k, v =>
    if k' = k then (k, v) :: rest else (k', v') :: Table.store rest k v

/-- `t[k] = v`: the entry under `k` is replaced, or added when `k` is new. -/
def Table.assign {α : Type} (t : Table α) (k : Int) (v : α) : Table α :=
  ⟨Table.store t.entries k v⟩

/-- `Shape_Entity`: the three handles of a shape. -/
structure Shape_Entity where
  rigidbody_ : Nat
  shape_ : Nat
  motionstate_ : Nat
deriving DecidableEq, Inhabited

/-- `Vehicle_Entity`: the handles of a raycast vehicle. -/
structure Vehicle_Entity where
  rigidbody_ : Nat
  shape_ : Nat
  motionstate_ : Nat
  vehicle_ : Nat
deriving DecidableEq, Inhabited

/-- The discriminator tag of a compound. -/
inductive Compounds where
  | VEHICLE : Compounds
deriving DecidableEq, Inhabited

/-- `Compound_Entity`: the caller's two id arrays and the tag, which stays
unset unless the type string is `"Vehicle"`. -/
structure Compound_Entity where
  shapeid_ : Nat → Scalar
  constraintid_ : Nat → Scalar
  type_ : Option Compounds
deriving Inhabited

/-! ## The dynamics world and the external collaborators -/

/-- `btDiscreteDynamicsWorld`, as far as the wrapper observes it: the state of
the object behind each address and the two registration lists.  `joint a` is
`none` where no joint object stands: a handle to such an address dangles. -/
structure btDiscreteDynamicsWorld where
  m_gravity : btVector3
  body : Nat → btRigidBody
  vehicle : Nat → btRaycastVehicle
  joint : Nat → Option btTypedConstraint
  m_collisionObjects : List Nat
  m_constraints : List Nat
deriving Inhabited

/-- `world.setGravity(g)`. -/
def btDiscreteDynamicsWorld.setGravity (d : btDiscreteDynamicsWorld) (g : btVector3) :
    btDiscreteDynamicsWorld :=
  { d with m_gravity := g }

/-- `world.addRigidBody(body)`. -/
def btDiscreteDynamicsWorld.addRigidBody (d : btDiscreteDynamicsWorld) (body : Nat) :
    btDiscreteDynamicsWorld :=
  { d with m_collisionObjects := d.m_collisionObjects ++ [body] }

/-- `world.addConstraint(constraint)`. -/
def btDiscreteDynamicsWorld.addConstraint (d : btDiscreteDynamicsWorld) (constraint : Nat) :
    btDiscreteDynamicsWorld :=
  { d with m_constraints := d.m_constraints ++ [constraint] }

/-- The rigid body at `addr` becomes `b`. -/
def btDiscreteDynamicsWorld.setBody (d : btDiscreteDynamicsWorld) (addr : Nat) (b : btRigidBody) :
    btDiscreteDynamicsWorld :=
  { d with body := Function.update d.body addr b }

/-- The raycast vehicle at `addr` becomes `v`. -/
def btDiscreteDynamicsWorld.setVehicle (d : btDiscreteDynamicsWorld) (addr : Nat)
    (v : btRaycastVehicle) : btDiscreteDynamicsWorld :=
  { d with vehicle := Function.update d.vehicle addr v }

/-- The joint object at `addr` becomes `c`; with `none` the object that stood
there is gone. -/
def btDiscreteDynamicsWorld.setJoint (d : btDiscreteDynamicsWorld) (addr : Nat)
    (c : Option btTypedConstraint) : btDiscreteDynamicsWorld :=
  { d with joint := Function.update d.joint addr c }

/-- `vehicle->getChassisWorldTransform()`: the centre-of-mass transform of the
vehicle's chassis body. -/
def btDiscreteDynamicsWorld.getChassisWorldTransform (d : btDiscreteDynamicsWorld)
    (Vehicle : Nat) : btTransform :=
  (d.body (d.vehicle Vehicle).m_chassisBody).m_worldTransform

/-- What a shape factory (`bullet_cube`, `bullet_sphere`, `bullet_cylinder`,
`bullet_heightmap`) hands to `AddShapeToWorld`: the rigid body it built. -/
structure bullet_shape where
  body : btRigidBody
deriving DecidableEq, Inhabited

/-- What the `bullet_vehicle` factory builds: the chassis body and the wheels
of the raycast vehicle mounted on it. -/
structure bullet_vehicle where
  chassis : btRigidBody
  wheels : Nat → btWheelInfo
  numWheels : Nat
deriving Inhabited

/-- The external collaborators: the shape factories of `bulletShapes/` and the
Bullet calls whose result depends on the solver. -/
structure Engine where
  /-- `bullet_cube(x_length, y_length, z_length, dMass, dRestitution, position, rotation)`. -/
  bullet_cube : Scalar → Scalar → Scalar → Scalar → Scalar → (Nat → Scalar) → (Nat → Scalar) →
    bullet_shape
  /-- `bullet_sphere(radius, dMass, dRestitution, position, rotation)`. -/
  bullet_sphere : Scalar → Scalar → Scalar → (Nat → Scalar) → (Nat → Scalar) → bullet_shape
  /-- `bullet_cylinder(radius, height, dMass, dRestitution, position, rotation)`. -/
  bullet_cylinder : Scalar → Scalar → Scalar → Scalar → (Nat → Scalar) → (Nat → Scalar) →
    bullet_shape
  /-- `bullet_heightmap(row_count, col_count, grad, min_ht, max_ht, X, Y, Z, normal)`. -/
  bullet_heightmap : Int → Int → Scalar → Scalar → Scalar → (Nat → Scalar) → (Nat → Scalar) →
    (Nat → Scalar) → (Nat → Scalar) → bullet_shape
  /-- `bullet_vehicle(parameters, position, rotation, world)`. -/
  new_vehicle : (Nat → Scalar) → (Nat → Scalar) → (Nat → Scalar) → bullet_vehicle
  /-- `world.stepSimulation(timeStep, maxSubSteps)`. -/
  stepSimulation : btDiscreteDynamicsWorld → Scalar → Int → btDiscreteDynamicsWorld
  /-- `vehicle->rayCast(vehicle->getWheelInfo(i))` for the vehicle at an
  address: the depth (`-1` when nothing is hit) and the world with the wheel's
  raycast data refreshed. -/
  rayCast : btDiscreteDynamicsWorld → Nat → Nat → Scalar × btDiscreteDynamicsWorld
  /-- `world.rayTest(from, to, callback)` with a closest-hit callback: the hit
  point, if any. -/
  rayTest : btDiscreteDynamicsWorld → btVector3 → btVector3 → Option btVector3
  /-- `vehicle->updateWheelTransform(i, interpolated)` for the vehicle at an
  address. -/
  updateWheelTransform : btDiscreteDynamicsWorld → Nat → Nat → Bool → btDiscreteDynamicsWorld
  /-- `btNormalizeAngle(angle)`, which Bullet applies to an angular limit
  before it stores it: the angle brought into the half turn around zero. -/
  btNormalizeAngle : Scalar → Scalar

/-! ## The `BulletWorld` class -/

/-- The data members of `BulletWorld`.  `heap_top` stands for the allocator
(the next unused address) and `step_count` counts the `stepSimulation` calls
made so far; neither is a member of the class. -/
structure BulletWorld where
  compounds_ : Table Compound_Entity
  constraints_ : Table Nat
  shapes_ : Table Shape_Entity
  vehicles_ : Table Vehicle_Entity
  dynamics_world_ : btDiscreteDynamicsWorld
  timestep_ : Scalar
  gravity_ : Scalar
  max_sub_steps_ : Int
  heap_top : Nat
  step_count : Nat

/-- `BulletWorld()`: the Bullet settings and an empty world with gravity
along `z`. -/
def BulletWorld.new : BulletWorld :=
  { compounds_ := Table.empty
    constraints_ := Table.empty
    shapes_ := Table.empty
    vehicles_ := Table.empty
    dynamics_world_ :=
      { m_gravity := ⟨0, 0, -98 / 10⟩
        body := fun _ => default
        vehicle := fun _ => default
        joint := fun _ => none
        m_collisionObjects := []
        m_constraints := [] }
    timestep_ := 1 / 30
    gravity_ := -98 / 10
    max_sub_steps_ := 10
    heap_top := 0
    step_count := 0 }

/-! ### Adding objects -/

/-- `AddShapeToWorld(shape)`. -/
def AddShapeToWorld (w : BulletWorld) (shape : bullet_shape) : Int × BulletWorld :=
  let pShape := w.heap_top
  let pMotionState := w.heap_top + 1
  let body := w.heap_top + 2
  let dyn := (w.dynamics_world_.setBody body shape.body).addRigidBody body
  let pEntity : Shape_Entity := { rigidbody_ := body, shape_ := pShape, motionstate_ := pMotionState }
  let id : Int := w.shapes_.size
  (id, { w with
    shapes_ := w.shapes_.assign id pEntity
    dynamics_world_ := dyn
    heap_top := w.heap_top + 3 })

/-- `AddCube(x_length, y_length, z_length, dMass, dRestitution, position, rotation)`. -/
def AddCube (E : Engine) (w : BulletWorld) (x_length y_length z_length dMass dRestitution : Scalar)
    (position rotation : Nat → Scalar) : Int × BulletWorld :=
  AddShapeToWorld w (E.bullet_cube x_length y_length z_length dMass dRestitution position rotation)

/-- `AddSphere(radius, dMass, dRestitution, position, rotation)`. -/
def AddSphere (E : Engine) (w : BulletWorld) (radius dMass dRestitution : Scalar)
    (position rotation : Nat → Scalar) : Int × BulletWorld :=
  AddShapeToWorld w (E.bullet_sphere radius dMass dRestitution position rotation)

/-- `AddCylinder(radius, height, dMass, dRestitution, position, rotation)`. -/
def AddCylinder (E : Engine) (w : BulletWorld) (radius height dMass dRestitution : Scalar)
    (position rotation : Nat → Scalar) : Int × BulletWorld :=
  AddShapeToWorld w (E.bullet_cylinder radius height dMass dRestitution position rotation)

/-- `AddTerrain(row_count, col_count, grad, min_ht, max_ht, X, Y, Z, normal)`. -/
def AddTerrain (E : Engine) (w : BulletWorld) (row_count col_count : Int)
    (grad min_ht max_ht : Scalar) (X Y Z normal : Nat → Scalar) : Int × BulletWorld :=
  AddShapeToWorld w (E.bullet_heightmap row_count col_count grad min_ht max_ht X Y Z normal)

/-- `AddCompound(Shape_ids, Con_ids, CompoundType)`. -/
def AddCompound (w : BulletWorld) (Shape_ids Con_ids : Nat → Scalar) (CompoundType : String) :
    Int × BulletWorld :=
  let pCompound : Compound_Entity :=
    { shapeid_ := Shape_ids
      constraintid_ := Con_ids
      type_ := if CompoundType = "Vehicle" then some Compounds.VEHICLE else none }
  let id : Int := w.compounds_.size
  (id, { w with compounds_ := w.compounds_.assign id pCompound })

/-- `AddRaycastVehicle(parameters, position, rotation)`. -/
def AddRaycastVehicle (E : Engine) (w : BulletWorld) (parameters position rotation : Nat → Scalar) :
    Int × BulletWorld :=
  let btRayVehicle := E.new_vehicle parameters position rotation
  let pShape := w.heap_top
  let pMotionState := w.heap_top + 1
  let body := w.heap_top + 2
  let vehicle := w.heap_top + 3
  let dyn := (w.dynamics_world_.setBody body btRayVehicle.chassis).setVehicle vehicle
    { m_chassisBody := body
      m_wheelInfo := btRayVehicle.wheels
      numWheels := btRayVehicle.numWheels }
  let pEntity : Vehicle_Entity :=
    { rigidbody_ := body, shape_ := pShape, motionstate_ := pMotionState, vehicle_ := vehicle }
  let id : Int := w.vehicles_.size
  (id, { w with
    vehicles_ := w.vehicles_.assign id pEntity
    dynamics_world_ := dyn
    heap_top := w.heap_top + 4 })

/-! ### Running the simulation -/

/-- `StepSimulation()`. -/
def StepSimulation (E : Engine) (w : BulletWorld) : BulletWorld :=
  { w with
    dynamics_world_ := E.stepSimulation w.dynamics_world_ w.timestep_ w.max_sub_steps_
    step_count := w.step_count + 1 }

/-! ### Compound methods -/

/-- The Hinge2 joint behind a constraint handle, as `static_cast` expects it:
`none` when the handle dangles or the object is a joint of another kind. -/
def btDiscreteDynamicsWorld.hinge2At (d : btDiscreteDynamicsWorld) (addr : Nat) :
    Option btHinge2Constraint :=
  match d.joint addr with
  | some (btTypedConstraint.hinge2 c) => some c
  | _ => none

/-- Both steering limits of the Hinge2 joint at `addr` are set to one angle
(`setUpperLimit` then `setLowerLimit`). -/
def steerHinge2 (E : Engine) (d : btDiscreteDynamicsWorld) (addr : Nat)
    (steering_angle : Scalar) : Except Fault btDiscreteDynamicsWorld :=
  match d.hinge2At addr with
  | none => .error Fault.undefined
  | some c =>
    .ok (d.setJoint addr
      (some (btTypedConstraint.hinge2
        ((c.setUpperLimit E.btNormalizeAngle steering_angle).setLowerLimit E.btNormalizeAngle
          steering_angle))))

/-- `CommandVehicle(id, steering_angle, force)`. -/
def CommandVehicle (E : Engine) (w : BulletWorld) (id : Int) (steering_angle force : Scalar) :
    Except Fault BulletWorld :=
  match w.compounds_.at? id with
  | none => .error Fault.undefined
  | some Vehicle =>
    let Shape_ids := Vehicle.shapeid_
    let Con_ids := Vehicle.constraintid_
    match w.constraints_.at? (truncToInt (Con_ids 0)) with
    | none => .error Fault.out_of_range
    | some wheel_fl =>
      match w.constraints_.at? (truncToInt (Con_ids 1)) with
      | none => .error Fault.out_of_range
      | some wheel_fr =>
        match w.shapes_.at? (truncToInt (Shape_ids 3)) with
        | none => .error Fault.out_of_range
        | some wheel_bl =>
          match w.shapes_.at? (truncToInt (Shape_ids 4)) with
          | none => .error Fault.out_of_range
          | some wheel_br =>
            match steerHinge2 E w.dynamics_world_ wheel_fl steering_angle with
            | .error f => .error f
            | .ok d1 =>
              match steerHinge2 E d1 wheel_fr steering_angle with
              | .error f => .error f
              | .ok d2 =>
                let torque : btVector3 := ⟨0, 0, force⟩
                let d3 := d2.setBody wheel_bl.rigidbody_
                  ((d2.body wheel_bl.rigidbody_).applyTorque torque)
                let d4 := d3.setBody wheel_br.rigidbody_
                  ((d3.body wheel_br.rigidbody_).applyTorque torque)
                .ok { w with dynamics_world_ := d4 }

/-! ### Raycast vehicle methods -/

/-- `CommandRaycastVehicle(id, steering_angle, force)`. -/
def CommandRaycastVehicle (w : BulletWorld) (id : Int) (steering_angle force : Scalar) :
    Except Fault BulletWorld :=
  match w.vehicles_.at? id with
  | none => .error Fault.undefined
  | some e =>
    let Vehicle := w.dynamics_world_.vehicle e.vehicle_
    let Vehicle := Vehicle.setSteeringValue steering_angle 0
    let Vehicle := Vehicle.setSteeringValue steering_angle 1
    let Vehicle := Vehicle.applyEngineForce force 2
    let Vehicle := Vehicle.applyEngineForce force 3
    .ok { w with dynamics_world_ := w.dynamics_world_.setVehicle e.vehicle_ Vehicle }

/-- One pass of the loop of `OnTheGround`: `hit = hit + rayCast(wheel i)`,
the sum being a scalar that is stored back into the `int`. -/
def OnTheGround_step (E : Engine) (Vehicle : Nat) (acc : Int × btDiscreteDynamicsWorld)
    (i : Nat) : Int × btDiscreteDynamicsWorld :=
  let r := E.rayCast acc.2 Vehicle i
  (truncToInt ((acc.1 : Scalar) + r.1), r.2)

/-- `OnTheGround(id)`. -/
def OnTheGround (E : Engine) (w : BulletWorld) (id : Int) : Except Fault (Int × BulletWorld) :=
  match w.vehicles_.at? id with
  | none => .error Fault.undefined
  | some e =>
    let r := (List.range 4).foldl (OnTheGround_step E e.vehicle_) (0, w.dynamics_world_)
    let OnGround : Int := if r.1 = 0 then 1 else 0
    .ok (OnGround, { w with dynamics_world_ := r.2 })

/-- `GetRaycastMotionState(id)`: the nine values of the returned array. -/
def GetRaycastMotionState (E : Engine) (w : BulletWorld) (id : Int) :
    Except Fault (List Scalar × BulletWorld) :=
  match w.vehicles_.at? id with
  | none => .error Fault.undefined
  | some e =>
    let Vehicle := w.dynamics_world_.vehicle e.vehicle_
    let VehicleBody := w.dynamics_world_.body e.rigidbody_
    let wheel := Vehicle.m_wheelInfo 2
    match OnTheGround E w id with
    | .error f => .error f
    | .ok (on_, w1) =>
      .ok ([Vehicle.getSteeringValue 0, wheel.m_engineForce,
            VehicleBody.m_linearVelocity.get 0, VehicleBody.m_linearVelocity.get 1,
            VehicleBody.m_linearVelocity.get 2,
            VehicleBody.m_angularVelocity.get 0, VehicleBody.m_angularVelocity.get 1,
            VehicleBody.m_angularVelocity.get 2, (on_ : Scalar)], w1)

/-- The inner loop of the lift phase of `RaycastToGround`: the wheels are
raycast in turn and the loop breaks at the first contact. -/
def RaycastToGround_wheels (E : Engine) (Vehicle : Nat) :
    List Nat → Scalar → btDiscreteDynamicsWorld → Scalar × btDiscreteDynamicsWorld
  | [], hit, d => (hit, d)
  | i :: rest, _, d =>
    let r := E.rayCast d Vehicle i
    if r.1 ≠ -1 then r else RaycastToGround_wheels E Vehicle rest r.1 r.2

/-- The lift loop of `RaycastToGround`, `while (hit == -1 && count < 20)`,
run for at most `fuel` passes: the candidate point and the world it leaves. -/
def RaycastToGround_lift (E : Engine) (e : Vehicle_Entity) (rot : btMatrix3x3) :
    Nat → Scalar → Scalar → btVector3 → btDiscreteDynamicsWorld →
      Except Fault (btVector3 × btDiscreteDynamicsWorld)
  | 0, hit, count, hitpoint, d =>
    if hit = -1 ∧ count < 20 then .error Fault.out_of_fuel else .ok (hitpoint, d)
  | fuel + 1, hit, count, hitpoint, d =>
    if hit = -1 ∧ count < 20 then
      let r := RaycastToGround_wheels E e.vehicle_ [0, 1, 2, 3] hit d
      let hitpoint := hitpoint.setZ (hitpoint.get 2 + 1 / 10)
      let bullet_move : btTransform := ⟨rot, hitpoint⟩
      let d := r.2.setBody e.rigidbody_
        ((r.2.body e.rigidbody_).setCenterOfMassTransform bullet_move)
      if r.1 ≠ -1 then .ok (hitpoint, d)
      else
        let count := count + 1
        if count = 20 then .ok (hitpoint, d)
        else RaycastToGround_lift E e rot fuel r.1 count hitpoint d
    else .ok (hitpoint, d)

/-- The settle loop of `RaycastToGround`, `while (on == 0)`, run for at most
`fuel` passes: the last chassis origin read and the world it leaves. -/
def RaycastToGround_settle (E : Engine) (id : Int) (Vehicle : Nat) :
    Nat → Int → btVector3 → BulletWorld → Except Fault (btVector3 × BulletWorld)
  | 0, on_, VehiclePose, w => if on_ = 0 then .error Fault.out_of_fuel else .ok (VehiclePose, w)
  | fuel + 1, on_, VehiclePose, w =>
    if on_ = 0 then
      match OnTheGround E w id with
      | .error f => .error f
      | .ok (on_, w1) =>
        let w2 := StepSimulation E w1
        let VehiclePose := (w2.dynamics_world_.getChassisWorldTransform Vehicle).m_origin
        RaycastToGround_settle E id Vehicle fuel on_ VehiclePose w2
    else .ok (VehiclePose, w)

/-- `RaycastToGround(id, x, y)`, its two loops given `fuel` passes each: the
three values of the returned array. -/
def RaycastToGround (E : Engine) (fuel : Nat) (w : BulletWorld) (id : Int) (x y : Scalar) :
    Except Fault (List Scalar × BulletWorld) :=
  match w.vehicles_.at? id with
  | none => .error Fault.undefined
  | some e =>
    let Vehicle := e.vehicle_
    let point : btVector3 := ⟨x + 50, y + 50, -100⟩
    let rot := (w.dynamics_world_.getChassisWorldTransform Vehicle).m_basis
    let bullet_trans : btTransform := ⟨rot, point⟩
    let d := w.dynamics_world_.setBody e.rigidbody_
      ((w.dynamics_world_.body e.rigidbody_).setCenterOfMassTransform bullet_trans)
    let ray_start : btVector3 := ⟨x, y, 100⟩
    let ray_end : btVector3 := ⟨x, y, -100⟩
    let ray_callback := E.rayTest d ray_start ray_end
    let hitpoint := (d.getChassisWorldTransform Vehicle).m_origin
    let hitpoint :=
      match ray_callback with
      | some m_hitPointWorld =>
        let radius := ((d.vehicle Vehicle).m_wheelInfo 2).m_wheelsRadius
        m_hitPointWorld.setZ (m_hitPointWorld.get 2 + 3 * radius)
      | none => hitpoint
    let bullet_move : btTransform := ⟨rot, hitpoint⟩
    let d := d.setBody e.rigidbody_ ((d.body e.rigidbody_).setCenterOfMassTransform bullet_move)
    match RaycastToGround_lift E e rot fuel (-1) 0 hitpoint d with
    | .error f => .error f
    | .ok (_, d) =>
      let VehiclePose := (d.getChassisWorldTransform Vehicle).m_origin
      match RaycastToGround_settle E id Vehicle fuel 0 VehiclePose
          { w with dynamics_world_ := d } with
      | .error f => .error f
      | .ok (VehiclePose, w1) =>
        .ok ([VehiclePose.get 0, VehiclePose.get 1, VehiclePose.get 2], w1)

/-- `SetVehicleVels(id, lin_vel, ang_vel)`. -/
def SetVehicleVels (w : BulletWorld) (id : Int) (lin_vel ang_vel : Nat → Scalar) :
    Except Fault BulletWorld :=
  match w.vehicles_.at? id with
  | none => .error Fault.undefined
  | some e =>
    let Lin : btVector3 := ⟨lin_vel 0, lin_vel 1, lin_vel 2⟩
    let Ang : btVector3 := ⟨ang_vel 0, ang_vel 1, ang_vel 2⟩
    let d := w.dynamics_world_
    let d := d.setBody e.rigidbody_
      (((d.body e.rigidbody_).setLinearVelocity Lin).setAngularVelocity Ang)
    let d := d.setVehicle e.vehicle_ (d.vehicle e.vehicle_).resetSuspension
    .ok { w with dynamics_world_ := d }

/-- `ResetVehicle(id, start_pose, start_rot)`. -/
def ResetVehicle (w : BulletWorld) (id : Int) (start_pose start_rot : Nat → Scalar) :
    Except Fault BulletWorld :=
  match w.vehicles_.at? id with
  | none => .error Fault.undefined
  | some e =>
    let rot := btMatrix3x3.ofRows (start_rot 0) (start_rot 3) (start_rot 6)
      (start_rot 1) (start_rot 4) (start_rot 7)
      (start_rot 2) (start_rot 5) (start_rot 8)
    let pose : btVector3 := ⟨start_pose 0, start_pose 1, start_pose 2⟩
    let bullet_trans : btTransform := ⟨rot, pose⟩
    let d := w.dynamics_world_
    .ok { w with
      dynamics_world_ :=
        d.setBody e.rigidbody_ ((d.body e.rigidbody_).setCenterOfMassTransform bullet_trans) }

/-! ### The rollout -/

/-- A freshly allocated `double` array: its length, the value in each slot
(`none` while the slot has never been written) and, for the record, the
indices written so far, oldest first. -/
structure Buffer where
  size : Nat
  cells : Nat → Option Scalar
  written : List Nat

/-- The array `new double[n]`. -/
def Buffer.new (n : Nat) : Buffer := { size := n, cells := fun _ => none, written := [] }

/-- The array after `states[k] = v`. -/
def Buffer.put (b : Buffer) (k : Nat) (v : Scalar) : Buffer :=
  { b with cells := Function.update b.cells k (some v), written := b.written ++ [k] }

/-- The assignment `states[k] = v`; a write outside the array is undefined. -/
def Buffer.write (b : Buffer) (k : Nat) (v : Scalar) : Except Fault Buffer :=
  if k < b.size then .ok (b.put k v) else .error Fault.undefined

/-- A run of assignments, first to last. -/
def Buffer.writes (b : Buffer) : List (Nat × Scalar) → Except Fault Buffer
  | [] => .ok b
  | (k, v) :: rest =>
    match b.write k v with
    | .error f => .error f
    | .ok b1 => b1.writes rest

/-- The array after a run of assignments, first to last. -/
def Buffer.puts (b : Buffer) : List (Nat × Scalar) → Buffer
  | [] => b
  | (k, v) :: rest => (b.put k v).puts rest

/-- The world right after the command and the simulation step of pass `i` of
the loop of `SpeedSim`. -/
def SpeedSim_advance (E : Engine) (id : Int) (forces steering_angles : Nat → Scalar) (i : Nat)
    (w : BulletWorld) : Except Fault BulletWorld :=
  match CommandRaycastVehicle w id (steering_angles i) (forces i) with
  | .error f => .error f
  | .ok w1 => .ok (StepSimulation E w1)

/-- The assignments `states[3*i] = VehiclePose[0]` to `states[3*i+2]` that
every pass makes. -/
def SpeedSim_position (i : Nat) (VehiclePose : btVector3) : List (Nat × Scalar) :=
  [(3 * i, VehiclePose.get 0), (3 * i + 1, VehiclePose.get 1), (3 * i + 2, VehiclePose.get 2)]

/-- The assignments `states[3*i+3]` to `states[3*i+14]` of the last pass. -/
def SpeedSim_pose (i : Nat) (VehiclePose : btVector3) (VehicleRot : btMatrix3x3) :
    List (Nat × Scalar) :=
  [(3 * i + 3, VehiclePose.get 0), (3 * i + 4, VehiclePose.get 1), (3 * i + 5, VehiclePose.get 2),
   (3 * i + 6, VehicleRot.el 0 0), (3 * i + 7, VehicleRot.el 1 0), (3 * i + 8, VehicleRot.el 2 0),
   (3 * i + 9, VehicleRot.el 0 1), (3 * i + 10, VehicleRot.el 1 1),
   (3 * i + 11, VehicleRot.el 2 1),
   (3 * i + 12, VehicleRot.el 0 2), (3 * i + 13, VehicleRot.el 1 2),
   (3 * i + 14, VehicleRot.el 2 2)]

/-- The assignments `states[3*i+15] = motionstate[2]` to
`states[3*i+21] = motionstate[8]` of the last pass. -/
def SpeedSim_motion (i : Nat) (motionstate : List Scalar) : List (Nat × Scalar) :=
  [(3 * i + 15, motionstate.getD 2 0), (3 * i + 16, motionstate.getD 3 0),
   (3 * i + 17, motionstate.getD 4 0), (3 * i + 18, motionstate.getD 5 0),
   (3 * i + 19, motionstate.getD 6 0), (3 * i + 20, motionstate.getD 7 0),
   (3 * i + 21, motionstate.getD 8 0)]

/-- Pass `i` of the loop of `SpeedSim`. -/
def SpeedSim_body (E : Engine) (id : Int) (Vehicle : Nat) (forces steering_angles : Nat → Scalar)
    (command_length : Nat) (i : Nat) (s : BulletWorld × Buffer) :
    Except Fault (BulletWorld × Buffer) :=
  match SpeedSim_advance E id forces steering_angles i s.1 with
  | .error f => .error f
  | .ok w2 =>
    let VehiclePose := (w2.dynamics_world_.getChassisWorldTransform Vehicle).m_origin
    match s.2.writes (SpeedSim_position i VehiclePose) with
    | .error f => .error f
    | .ok states =>
      if (i : Int) = (command_length : Int) - 1 then
        let VehiclePose := (w2.dynamics_world_.getChassisWorldTransform Vehicle).m_origin
        let VehicleRot := (w2.dynamics_world_.getChassisWorldTransform Vehicle).m_basis
        match states.writes (SpeedSim_pose i VehiclePose VehicleRot) with
        | .error f => .error f
        | .ok states =>
          match GetRaycastMotionState E w2 id with
          | .error f => .error f
          | .ok (motionstate, w3) =>
            match states.writes (SpeedSim_motion i motionstate) with
            | .error f => .error f
            | .ok states => .ok (w3, states)
      else .ok (w2, states)

/-- The first `k` passes (`i = 0, ..., k - 1`) of
`for (int i = 0; i < command_length; i++)`. -/
def SpeedSim_loop (E : Engine) (id : Int) (Vehicle : Nat) (forces steering_angles : Nat → Scalar)
    (command_length : Nat) : Nat → BulletWorld × Buffer → Except Fault (BulletWorld × Buffer)
  | 0, s => .ok s
  | k + 1, s =>
    match SpeedSim_loop E id Vehicle forces steering_angles command_length k s with
    | .error f => .error f
    | .ok s1 => SpeedSim_body E id Vehicle forces steering_angles command_length k s1

/-- `SpeedSim(id, start_pose, start_rot, start_lin_vel, start_ang_vel, forces,
steering_angles, command_length)` for an integer `command_length`: the
returned array and the world the call leaves. -/
def SpeedSim (E : Engine) (w : BulletWorld) (id : Int)
    (start_pose start_rot start_lin_vel start_ang_vel forces steering_angles : Nat → Scalar)
    (command_length : Nat) : Except Fault (Buffer × BulletWorld) :=
  let state_size := command_length * 3 + 22
  let states := Buffer.new state_size
  match w.vehicles_.at? id with
  | none => .error Fault.undefined
  | some e =>
    let Vehicle := e.vehicle_
    match ResetVehicle w id start_pose start_rot with
    | .error f => .error f
    | .ok w1 =>
      match SetVehicleVels w1 id start_lin_vel start_ang_vel with
      | .error f => .error f
      | .ok w2 =>
        match SpeedSim_loop E id Vehicle forces steering_angles command_length command_length
            (w2, states) with
        | .error f => .error f
        | .ok (w3, states) =>
          match ResetVehicle w3 id start_pose start_rot with
          | .error f => .error f
          | .ok w4 =>
            match SetVehicleVels w4 id start_lin_vel start_ang_vel with
            | .error f => .error f
            | .ok w5 =>
              match CommandRaycastVehicle w5 id 0 0 with
              | .error f => .error f
              | .ok w6 => .ok (states, w6)

/-- The world and the array after the first `k` passes of the loop of
`SpeedSim`. -/
def SpeedSim_after (E : Engine) (w : BulletWorld) (id : Int)
    (start_pose start_rot start_lin_vel start_ang_vel forces steering_angles : Nat → Scalar)
    (command_length k : Nat) : Except Fault (BulletWorld × Buffer) :=
  match w.vehicles_.at? id with
  | none => .error Fault.undefined
  | some e =>
    match ResetVehicle w id start_pose start_rot with
    | .error f => .error f
    | .ok w1 =>
      match SetVehicleVels w1 id start_lin_vel start_ang_vel with
      | .error f => .error f
      | .ok w2 =>
        SpeedSim_loop E id e.vehicle_ forces steering_angles command_length k
          (w2, Buffer.new (command_length * 3 + 22))

/-- The world right after the simulation step of pass `i` of `SpeedSim`: the
state the chassis is in "after step `i`". -/
def SpeedSim_stepped (E : Engine) (w : BulletWorld) (id : Int)
    (start_pose start_rot start_lin_vel start_ang_vel forces steering_angles : Nat → Scalar)
    (command_length i : Nat) : Except Fault BulletWorld :=
  match SpeedSim_after E w id start_pose start_rot start_lin_vel start_ang_vel forces
      steering_angles command_length i with
  | .error f => .error f
  | .ok s => SpeedSim_advance E id forces steering_angles i s.1

/-! ### Constraint methods -/

/-- `AddConstraintToWorld(constraint)`, `constraint` being the address of the
joint object the reference is bound to: the address is entered under the next
id and registered with the dynamics world. -/
def AddConstraintToWorld (w : BulletWorld) (constraint : Nat) : Int × BulletWorld :=
  let id : Int := w.constraints_.size
  (id, { w with
    constraints_ := w.constraints_.assign id constraint
    dynamics_world_ := w.dynamics_world_.addConstraint constraint })

/-- `AddConstraintToWorld(constraint)` called from outside the class on a
joint object of the caller's that outlives the call: the object stands at a
fresh address. -/
def AddConstraintToWorld_heap (w : BulletWorld) (constraint : btTypedConstraint) :
    Int × BulletWorld :=
  let addr := w.heap_top
  AddConstraintToWorld
    { w with
      dynamics_world_ := w.dynamics_world_.setJoint addr (some constraint)
      heap_top := w.heap_top + 1 } addr

/-- `AddConstraintToWorld(constraint)` as a joint builder calls it, on its
local object `constraint`: the local stands at the next unused address, and
this address is what is entered and registered.  The result is the state in
which the call returns to the builder, whose local still stands. -/
def AddConstraintToWorld_stack (w : BulletWorld) (constraint : btTypedConstraint) :
    Int × BulletWorld :=
  let addr := w.heap_top
  AddConstraintToWorld
    { w with dynamics_world_ := w.dynamics_world_.setJoint addr (some constraint) } addr

/-- The return of a joint builder from the state `r`: the id is handed back
and the builder's local joint object, which stood at `addr`, is destroyed. -/
def leaveBuilder (addr : Nat) (r : Int × BulletWorld) : Int × BulletWorld :=
  (r.1, { r.2 with dynamics_world_ := r.2.dynamics_world_.setJoint addr none })

/-- The body of `PointToPoint_one(id_A, pivot_in_A)` up to the value of its
`return` expression: the state in which `AddConstraintToWorld(constraint)` has
returned and the local `constraint` still stands. -/
def PointToPoint_one_body (w : BulletWorld) (id_A : Int) (pivot_in_A : Nat → Scalar) :
    Except (Fault × BulletWorld) (Int × BulletWorld) :=
  match w.shapes_.at? id_A with
  | none => .error (Fault.out_of_range, w)
  | some Shape_A =>
    let pivot_A : btVector3 := ⟨pivot_in_A 0, pivot_in_A 1, pivot_in_A 2⟩
    let constraint : btPoint2PointConstraint :=
      { m_rbA := Shape_A.rigidbody_, m_rbB := none, m_pivotInA := pivot_A, m_pivotInB := none }
    .ok (AddConstraintToWorld_stack w (btTypedConstraint.point2point constraint))

/-- `PointToPoint_one(id_A, pivot_in_A)`. -/
def PointToPoint_one (w : BulletWorld) (id_A : Int) (pivot_in_A : Nat → Scalar) :
    Except (Fault × BulletWorld) (Int × BulletWorld) :=
  (PointToPoint_one_body w id_A pivot_in_A).map (leaveBuilder w.heap_top)

/-- The body of `PointToPoint_two(id_A, id_B, pivot_in_A, pivot_in_B)` up to
the value of its `return` expression, the local `constraint` still standing. -/
def PointToPoint_two_body (w : BulletWorld) (id_A id_B : Int)
    (pivot_in_A pivot_in_B : Nat → Scalar) : Except (Fault × BulletWorld) (Int × BulletWorld) :=
  match w.shapes_.at? id_A with
  | none => .error (Fault.out_of_range, w)
  | some Shape_A =>
    match w.shapes_.at? id_B with
    | none => .error (Fault.out_of_range, w)
    | some Shape_B =>
      let pivot_A : btVector3 := ⟨pivot_in_A 0, pivot_in_A 1, pivot_in_A 2⟩
      let pivot_B : btVector3 := ⟨pivot_in_B 0, pivot_in_B 1, pivot_in_B 2⟩
      let constraint : btPoint2PointConstraint :=
        { m_rbA := Shape_A.rigidbody_, m_rbB := some Shape_B.rigidbody_
          m_pivotInA := pivot_A, m_pivotInB := some pivot_B }
      .ok (AddConstraintToWorld_stack w (btTypedConstraint.point2point constraint))

/-- `PointToPoint_two(id_A, id_B, pivot_in_A, pivot_in_B)`. -/
def PointToPoint_two (w : BulletWorld) (id_A id_B : Int) (pivot_in_A pivot_in_B : Nat → Scalar) :
    Except (Fault × BulletWorld) (Int × BulletWorld) :=
  (PointToPoint_two_body w id_A id_B pivot_in_A pivot_in_B).map (leaveBuilder w.heap_top)

/-- `Hinge_one_transform(id_A, transform_A, limits)`: no joint is built. -/
def Hinge_one_transform (w : BulletWorld) (id_A : Int) (_transform_A _limits : Nat → Scalar) :
    Except (Fault × BulletWorld) (Int × BulletWorld) :=
  match w.shapes_.at? id_A with
  | none => .error (Fault.out_of_range, w)
  | some _ => .ok (0, w)

/-- `Hinge_two_transform(id_A, id_B, transform_A, transform_B, limits)`: no
joint is built. -/
def Hinge_two_transform (w : BulletWorld) (id_A id_B : Int)
    (_transform_A _transform_B _limits : Nat → Scalar) :
    Except (Fault × BulletWorld) (Int × BulletWorld) :=
  match w.shapes_.at? id_A with
  | none => .error (Fault.out_of_range, w)
  | some _ =>
    match w.shapes_.at? id_B with
    | none => .error (Fault.out_of_range, w)
    | some _ => .ok (0, w)

/-- The body of `Hinge_one_pivot(id_A, pivot_in_A, axis_in_A, limits)` up to
the value of its `return` expression, the local `Hinge` still standing. -/
def Hinge_one_pivot_body (w : BulletWorld) (id_A : Int)
    (pivot_in_A axis_in_A limits : Nat → Scalar) :
    Except (Fault × BulletWorld) (Int × BulletWorld) :=
  match w.shapes_.at? id_A with
  | none => .error (Fault.out_of_range, w)
  | some Shape_A =>
    let pivot_A : btVector3 := ⟨pivot_in_A 0, pivot_in_A 1, pivot_in_A 2⟩
    let axis_A : btVector3 := ⟨axis_in_A 0, axis_in_A 1, axis_in_A 2⟩
    let Hinge : btHingeConstraint :=
      { m_rbA := Shape_A.rigidbody_, m_rbB := none
        m_pivotInA := pivot_A, m_pivotInB := none
        m_axisInA := axis_A, m_axisInB := none
        m_useReferenceFrameA := true, m_limit := none }
    let Hinge := Hinge.setLimit (limits 0) (limits 1) (limits 2) (limits 3) (limits 4)
    .ok (AddConstraintToWorld_stack w (btTypedConstraint.hinge Hinge))

/-- `Hinge_one_pivot(id_A, pivot_in_A, axis_in_A, limits)`. -/
def Hinge_one_pivot (w : BulletWorld) (id_A : Int) (pivot_in_A axis_in_A limits : Nat → Scalar) :
    Except (Fault × BulletWorld) (Int × BulletWorld) :=
  (Hinge_one_pivot_body w id_A pivot_in_A axis_in_A limits).map (leaveBuilder w.heap_top)

/-- The body of `Hinge_two_pivot(id_A, id_B, pivot_in_A, pivot_in_B,
axis_in_A, axis_in_B, limits)` up to the value of its `return` expression,
the local `Hinge` still standing. -/
def Hinge_two_pivot_body (w : BulletWorld) (id_A id_B : Int)
    (pivot_in_A pivot_in_B axis_in_A axis_in_B limits : Nat → Scalar) :
    Except (Fault × BulletWorld) (Int × BulletWorld) :=
  match w.shapes_.at? id_A with
  | none => .error (Fault.out_of_range, w)
  | some Shape_A =>
    match w.shapes_.at? id_B with
    | none => .error (Fault.out_of_range, w)
    | some Shape_B =>
      let pivot_A : btVector3 := ⟨pivot_in_A 0, pivot_in_A 1, pivot_in_A 2⟩
      let axis_A : btVector3 := ⟨axis_in_A 0, axis_in_A 1, axis_in_A 2⟩
      let pivot_B : btVector3 := ⟨pivot_in_B 0, pivot_in_B 1, pivot_in_B 2⟩
      let axis_B : btVector3 := ⟨axis_in_B 0, axis_in_B 1, axis_in_B 2⟩
      let Hinge : btHingeConstraint :=
        { m_rbA := Shape_A.rigidbody_, m_rbB := some Shape_B.rigidbody_
          m_pivotInA := pivot_A, m_pivotInB := some pivot_B
          m_axisInA := axis_A, m_axisInB := some axis_B
          m_useReferenceFrameA := true, m_limit := none }
      let Hinge := Hinge.setLimit (limits 0) (limits 1) (limits 2) (limits 3) (limits 4)
      .ok (AddConstraintToWorld_stack w (btTypedConstraint.hinge Hinge))

/-- `Hinge_two_pivot(id_A, id_B, pivot_in_A, pivot_in_B, axis_in_A, axis_in_B, limits)`. -/
def Hinge_two_pivot (w : BulletWorld) (id_A id_B : Int)
    (pivot_in_A pivot_in_B axis_in_A axis_in_B limits : Nat → Scalar) :
    Except (Fault × BulletWorld) (Int × BulletWorld) :=
  (Hinge_two_pivot_body w id_A id_B pivot_in_A pivot_in_B axis_in_A axis_in_B limits).map
    (leaveBuilder w.heap_top)

/-- The body of `Hinge2(id_A, id_B, Anchor, Axis_1, Axis_2, damping,
stiffness, steering_angle)` up to the value of its `return` expression, the
local `Hinge2` still standing. -/
def Hinge2_body (E : Engine) (w : BulletWorld) (id_A id_B : Int)
    (Anchor Axis_1 Axis_2 : Nat → Scalar) (damping stiffness steering_angle : Scalar) :
    Except (Fault × BulletWorld) (Int × BulletWorld) :=
  match w.shapes_.at? id_A with
  | none => .error (Fault.out_of_range, w)
  | some Shape_A =>
    match w.shapes_.at? id_B with
    | none => .error (Fault.out_of_range, w)
    | some Shape_B =>
      let btAnchor : btVector3 := ⟨Anchor 0, Anchor 1, Anchor 2⟩
      let btAxis_1 : btVector3 := ⟨Axis_1 0, Axis_1 1, Axis_1 2⟩
      let btAxis_2 : btVector3 := ⟨Axis_2 0, Axis_2 1, Axis_2 2⟩
      let Hinge2 := btHinge2Constraint.new Shape_A.rigidbody_ Shape_B.rigidbody_
        btAnchor btAxis_1 btAxis_2
      let Hinge2 := Hinge2.setUpperLimit E.btNormalizeAngle steering_angle
      let Hinge2 := Hinge2.setLowerLimit E.btNormalizeAngle steering_angle
      let Hinge2 := Hinge2.enableSpring 3 true
      let Hinge2 := Hinge2.setStiffness 3 stiffness
      let Hinge2 := Hinge2.setDamping 3 damping
      .ok (AddConstraintToWorld_stack w (btTypedConstraint.hinge2 Hinge2))

/-- `Hinge2(id_A, id_B, Anchor, Axis_1, Axis_2, damping, stiffness, steering_angle)`. -/
def Hinge2 (E : Engine) (w : BulletWorld) (id_A id_B : Int) (Anchor Axis_1 Axis_2 : Nat → Scalar)
    (damping stiffness steering_angle : Scalar) :
    Except (Fault × BulletWorld) (Int × BulletWorld) :=
  (Hinge2_body E w id_A id_B Anchor Axis_1 Axis_2 damping stiffness steering_angle).map
    (leaveBuilder w.heap_top)

/-- The body of `SixDOF_one(id_A, transform_A, limits)` up to the value of its
`return` expression, the local `SixDOF` still standing. -/
def SixDOF_one_body (E : Engine) (w : BulletWorld) (id_A : Int)
    (transform_A limits : Nat → Scalar) : Except (Fault × BulletWorld) (Int × BulletWorld) :=
  match w.shapes_.at? id_A with
  | none => .error (Fault.out_of_range, w)
  | some Shape_A =>
    let quat_A : btQuaternion := ⟨transform_A 3, transform_A 4, transform_A 5, transform_A 6⟩
    let pos_A : btVector3 := ⟨transform_A 0, transform_A 1, transform_A 2⟩
    let SixDOF : btGeneric6DofConstraint :=
      { m_rbA := Shape_A.rigidbody_, m_frameRotation := quat_A, m_frameOrigin := pos_A
        m_useLinearReferenceFrameA := true
        m_linearLowerLimit := none, m_linearUpperLimit := none
        m_angularLowerLimit := none, m_angularUpperLimit := none }
    let max_lin_limits : btVector3 := ⟨limits 0, limits 1, limits 2⟩
    let min_lin_limits : btVector3 := ⟨limits 3, limits 4, limits 5⟩
    let max_ang_limits : btVector3 := ⟨limits 6, limits 7, limits 8⟩
    let min_ang_limits : btVector3 := ⟨limits 9, limits 10, limits 11⟩
    let SixDOF := SixDOF.setLinearLowerLimit min_lin_limits
    let SixDOF := SixDOF.setLinearUpperLimit max_lin_limits
    let SixDOF := SixDOF.setAngularLowerLimit E.btNormalizeAngle min_ang_limits
    let SixDOF := SixDOF.setAngularUpperLimit E.btNormalizeAngle max_ang_limits
    .ok (AddConstraintToWorld_stack w (btTypedConstraint.generic6Dof SixDOF))

/-- `SixDOF_one(id_A, transform_A, limits)`. -/
def SixDOF_one (E : Engine) (w : BulletWorld) (id_A : Int) (transform_A limits : Nat → Scalar) :
    Except (Fault × BulletWorld) (Int × BulletWorld) :=
  (SixDOF_one_body E w id_A transform_A limits).map (leaveBuilder w.heap_top)

/-! ### Getters for object poses -/

/-- The twelve values of a pose: the position, then the rotation column by
column. -/
def poseValues (t : btTransform) : List Scalar :=
  let rotation := t.m_basis
  let position := t.m_origin
  [position.get 0, position.get 1, position.get 2,
   rotation.el 0 0, rotation.el 1 0, rotation.el 2 0,
   rotation.el 0 1, rotation.el 1 1, rotation.el 2 1,
   rotation.el 0 2, rotation.el 1 2, rotation.el 2 2]

/-- `GetShapeTransform(id)`. -/
def GetShapeTransform (w : BulletWorld) (id : Int) : Except Fault (List Scalar) :=
  match w.shapes_.at? id with
  | none => .error Fault.out_of_range
  | some entity => .ok (poseValues (w.dynamics_world_.body entity.rigidbody_).m_worldTransform)

/-- `GetConstraintTransform(id)`: the anchor of the joint, which is taken to
be a Hinge2 joint. -/
def GetConstraintTransform (w : BulletWorld) (id : Int) : Except Fault (List Scalar) :=
  match w.constraints_.at? id with
  | none => .error Fault.out_of_range
  | some constraint =>
    match w.dynamics_world_.hinge2At constraint with
    | none => .error Fault.undefined
    | some c => .ok [c.m_anchor.get 0, c.m_anchor.get 1, c.m_anchor.get 2]

/-- The wheel loop of `GetVehiclePoses`, from wheel `i` on and for at most
`fuel` passes: each wheel's transform is refreshed, then read and appended. -/
def GetVehiclePoses_wheels (E : Engine) (Vehicle : Nat) :
    Nat → Nat → List btTransform → btDiscreteDynamicsWorld →
      Except Fault (List btTransform × btDiscreteDynamicsWorld)
  | 0, i, VehiclePoses, d =>
    if i < (d.vehicle Vehicle).numWheels then .error Fault.out_of_fuel else .ok (VehiclePoses, d)
  | fuel + 1, i, VehiclePoses, d =>
    if i < (d.vehicle Vehicle).numWheels then
      let d1 := E.updateWheelTransform d Vehicle i false
      let WheelPose := ((d1.vehicle Vehicle).m_wheelInfo i).m_worldTransform
      GetVehiclePoses_wheels E Vehicle fuel (i + 1) (VehiclePoses ++ [WheelPose]) d1
    else .ok (VehiclePoses, d)

/-- `GetVehiclePoses(Vehicle)`, its loop given `fuel` passes. -/
def GetVehiclePoses (E : Engine) (fuel : Nat) (d : btDiscreteDynamicsWorld)
    (Vehicle : Vehicle_Entity) : Except Fault (List btTransform × btDiscreteDynamicsWorld) :=
  let VehiclePose := d.getChassisWorldTransform Vehicle.vehicle_
  GetVehiclePoses_wheels E Vehicle.vehicle_ fuel 0 [VehiclePose] d

/-- The loop of `GetVehicleTransform` over the transforms `i = 0, ..., 4`,
each fetched with `Transforms.at(i)`. -/
def GetVehicleTransform_pack (Transforms : List btTransform) :
    List Nat → Except Fault (List Scalar)
  | [] => .ok []
  | i :: rest =>
    match Transforms.get? i with
    | none => .error Fault.out_of_range
    | some t =>
      match GetVehicleTransform_pack Transforms rest with
      | .error f => .error f
      | .ok pose => .ok (poseValues t ++ pose)

/-- `GetVehicleTransform(id)`, the wheel loop given `fuel` passes: the values
of the returned array. -/
def GetVehicleTransform (E : Engine) (fuel : Nat) (w : BulletWorld) (id : Int) :
    Except Fault (List Scalar × BulletWorld) :=
  match w.vehicles_.at? id with
  | none => .error Fault.out_of_range
  | some Vehicle =>
    match GetVehiclePoses E fuel w.dynamics_world_ Vehicle with
    | .error f => .error f
    | .ok (Transforms, d) =>
      match GetVehicleTransform_pack Transforms [0, 1, 2, 3, 4] with
      | .error f => .error f
      | .ok pose => .ok (pose, { w with dynamics_world_ := d })

/-! ## The public interface as a transition system -/

/-- A call of a public method of `BulletWorld`, with its arguments.
`AddConstraintToWorld` is called from outside on a joint object of the
caller's that outlives the call. -/
inductive Call where
  | AddShapeToWorld (shape : bullet_shape)
  | AddCube (x_length y_length z_length dMass dRestitution : Scalar)
      (position rotation : Nat → Scalar)
  | AddSphere (radius dMass dRestitution : Scalar) (position rotation : Nat → Scalar)
  | AddCylinder (radius height dMass dRestitution : Scalar) (position rotation : Nat → Scalar)
  | AddTerrain (row_count col_count : Int) (grad min_ht max_ht : Scalar)
      (X Y Z normal : Nat → Scalar)
  | AddCompound (Shape_ids Con_ids : Nat → Scalar) (CompoundType : String)
  | AddRaycastVehicle (parameters position rotation : Nat → Scalar)
  | StepSimulation
  | CommandVehicle (id : Int) (steering_angle force : Scalar)
  | CommandRaycastVehicle (id : Int) (steering_angle force : Scalar)
  | GetRaycastMotionState (id : Int)
  | RaycastToGround (id : Int) (x y : Scalar)
  | OnTheGround (id : Int)
  | SetVehicleVels (id : Int) (lin_vel ang_vel : Nat → Scalar)
  | ResetVehicle (id : Int) (start_pose start_rot : Nat → Scalar)
  | SpeedSim (id : Int)
      (start_pose start_rot start_lin_vel start_ang_vel forces steering_angles : Nat → Scalar)
      (command_length : Nat)
  | AddConstraintToWorld (constraint : btTypedConstraint)
  | PointToPoint_one (id_A : Int) (pivot_in_A : Nat → Scalar)
  | PointToPoint_two (id_A id_B : Int) (pivot_in_A pivot_in_B : Nat → Scalar)
  | Hinge_one_transform (id_A : Int) (transform_A limits : Nat → Scalar)
  | Hinge_two_transform (id_A id_B : Int) (transform_A transform_B limits : Nat → Scalar)
  | Hinge_one_pivot (id_A : Int) (pivot_in_A axis_in_A limits : Nat → Scalar)
  | Hinge_two_pivot (id_A id_B : Int)
      (pivot_in_A pivot_in_B axis_in_A axis_in_B limits : Nat → Scalar)
  | Hinge2 (id_A id_B : Int) (Anchor Axis_1 Axis_2 : Nat → Scalar)
      (damping stiffness steering_angle : Scalar)
  | SixDOF_one (id_A : Int) (transform_A limits : Nat → Scalar)
  | GetShapeTransform (id : Int)
  | GetConstraintTransform (id : Int)
  | GetVehiclePoses (Vehicle : Vehicle_Entity)
  | GetVehicleTransform (id : Int)

/-- The world a call leaves when it completes (its return value dropped);
loops without a bound of their own get `fuel` passes.  A call that throws has
no successor world here. -/
def Call.run (E : Engine) (fuel : Nat) (w : BulletWorld) : Call → Except Fault BulletWorld
  | .AddShapeToWorld shape => .ok (SimLAB.AddShapeToWorld w shape).2
  | .AddCube x_length y_length z_length dMass dRestitution position rotation =>
    .ok (SimLAB.AddCube E w x_length y_length z_length dMass dRestitution position rotation).2
  | .AddSphere radius dMass dRestitution position rotation =>
    .ok (SimLAB.AddSphere E w radius dMass dRestitution position rotation).2
  | .AddCylinder radius height dMass dRestitution position rotation =>
    .ok (SimLAB.AddCylinder E w radius height dMass dRestitution position rotation).2
  | .AddTerrain row_count col_count grad min_ht max_ht X Y Z normal =>
    .ok (SimLAB.AddTerrain E w row_count col_count grad min_ht max_ht X Y Z normal).2
  | .AddCompound Shape_ids Con_ids CompoundType =>
    .ok (SimLAB.AddCompound w Shape_ids Con_ids CompoundType).2
  | .AddRaycastVehicle parameters position rotation =>
    .ok (SimLAB.AddRaycastVehicle E w parameters position rotation).2
  | .StepSimulation => .ok (SimLAB.StepSimulation E w)
  | .CommandVehicle id steering_angle force => SimLAB.CommandVehicle E w id steering_angle force
  | .CommandRaycastVehicle id steering_angle force =>
    SimLAB.CommandRaycastVehicle w id steering_angle force
  | .GetRaycastMotionState id => (SimLAB.GetRaycastMotionState E w id).map Prod.snd
  | .RaycastToGround id x y => (SimLAB.RaycastToGround E fuel w id x y).map Prod.snd
  | .OnTheGround id => (SimLAB.OnTheGround E w id).map Prod.snd
  | .SetVehicleVels id lin_vel ang_vel => SimLAB.SetVehicleVels w id lin_vel ang_vel
  | .ResetVehicle id start_pose start_rot => SimLAB.ResetVehicle w id start_pose start_rot
  | .SpeedSim id start_pose start_rot start_lin_vel start_ang_vel forces steering_angles
      command_length =>
    (SimLAB.SpeedSim E w id start_pose start_rot start_lin_vel start_ang_vel forces steering_angles
      command_length).map Prod.snd
  | .AddConstraintToWorld constraint => .ok (SimLAB.AddConstraintToWorld_heap w constraint).2
  | .PointToPoint_one id_A pivot_in_A =>
    ((SimLAB.PointToPoint_one w id_A pivot_in_A).mapError Prod.fst).map Prod.snd
  | .PointToPoint_two id_A id_B pivot_in_A pivot_in_B =>
    ((SimLAB.PointToPoint_two w id_A id_B pivot_in_A pivot_in_B).mapError Prod.fst).map Prod.snd
  | .Hinge_one_transform id_A transform_A limits =>
    ((SimLAB.Hinge_one_transform w id_A transform_A limits).mapError Prod.fst).map Prod.snd
  | .Hinge_two_transform id_A id_B transform_A transform_B limits =>
    ((SimLAB.Hinge_two_transform w id_A id_B transform_A transform_B limits).mapError
      Prod.fst).map Prod.snd
  | .Hinge_one_pivot id_A pivot_in_A axis_in_A limits =>
    ((SimLAB.Hinge_one_pivot w id_A pivot_in_A axis_in_A limits).mapError Prod.fst).map Prod.snd
  | .Hinge_two_pivot id_A id_B pivot_in_A pivot_in_B axis_in_A axis_in_B limits =>
    ((SimLAB.Hinge_two_pivot w id_A id_B pivot_in_A pivot_in_B axis_in_A axis_in_B
      limits).mapError Prod.fst).map Prod.snd
  | .Hinge2 id_A id_B Anchor Axis_1 Axis_2 damping stiffness steering_angle =>
    ((SimLAB.Hinge2 E w id_A id_B Anchor Axis_1 Axis_2 damping stiffness
      steering_angle).mapError Prod.fst).map Prod.snd
  | .SixDOF_one id_A transform_A limits =>
    ((SimLAB.SixDOF_one E w id_A transform_A limits).mapError Prod.fst).map Prod.snd
  | .GetShapeTransform id => (SimLAB.GetShapeTransform w id).map (fun _ => w)
  | .GetConstraintTransform id => (SimLAB.GetConstraintTransform w id).map (fun _ => w)
  | .GetVehiclePoses Vehicle =>
    (SimLAB.GetVehiclePoses E fuel w.dynamics_world_ Vehicle).map
      (fun r => { w with dynamics_world_ := r.2 })
  | .GetVehicleTransform id => (SimLAB.GetVehicleTransform E fuel w id).map Prod.snd

/-- The worlds that a run of public calls leads to from `w`. -/
inductive Steps (E : Engine) (w : BulletWorld) : BulletWorld → Prop where
  | refl : Steps E w w
  | call {w1 w2 : BulletWorld} (c : Call) (fuel : Nat) :
      Steps E w w1 → Call.run E fuel w1 c = .ok w2 → Steps E w w2

/-- The worlds that a run of public calls leads to from a freshly constructed
`BulletWorld`. -/
def Reachable (E : Engine) (w : BulletWorld) : Prop := Steps E BulletWorld.new w

/-- The keys of a table are exactly `0, ..., size - 1`. -/
def Table.Dense {α : Type} (t : Table α) : Prop :=
  ∀ k : Int, (t.at? k).isSome ↔ 0 ≤ k ∧ k < t.size

/-- What a call may do to a table: leave it as it is, or enter one value under
the key `size`. -/
def Table.Grows {α : Type} (t t1 : Table α) : Prop :=
  t1 = t ∨ ∃ v : α, t1 = t.assign t.size v

/-- The four tables of `w1` are those of `w`. -/
def BulletWorld.SameTables (w w1 : BulletWorld) : Prop :=
  w1.compounds_ = w.compounds_ ∧ w1.constraints_ = w.constraints_ ∧
    w1.shapes_ = w.shapes_ ∧ w1.vehicles_ = w.vehicles_

/-- The chassis body of the vehicle entity `e` (`vehicles_[id].rigidbody_`)
stands at the pose `start_pose`, `start_rot`, read back in the convention of
the interface (position, then the rotation column by column), and moves with
the velocities `lin_vel` and `ang_vel`. -/
def BulletWorld.ChassisAt (w : BulletWorld) (e : Vehicle_Entity)
    (start_pose start_rot lin_vel ang_vel : Nat → Scalar) : Prop :=
  poseValues (w.dynamics_world_.body e.rigidbody_).m_worldTransform =
      [start_pose 0, start_pose 1, start_pose 2,
       start_rot 0, start_rot 1, start_rot 2, start_rot 3, start_rot 4, start_rot 5,
       start_rot 6, start_rot 7, start_rot 8] ∧
    (w.dynamics_world_.body e.rigidbody_).m_linearVelocity =
      ⟨lin_vel 0, lin_vel 1, lin_vel 2⟩ ∧
    (w.dynamics_world_.body e.rigidbody_).m_angularVelocity =
      ⟨ang_vel 0, ang_vel 1, ang_vel 2⟩

/-- The vehicle of the entity `e` is under the neutral command: the steering
value of wheels 0 and 1 and the engine force of wheels 2 and 3 are zero. -/
def BulletWorld.Neutral (w : BulletWorld) (e : Vehicle_Entity) : Prop :=
  ((w.dynamics_world_.vehicle e.vehicle_).m_wheelInfo 0).m_steering = 0 ∧
    ((w.dynamics_world_.vehicle e.vehicle_).m_wheelInfo 1).m_steering = 0 ∧
    ((w.dynamics_world_.vehicle e.vehicle_).m_wheelInfo 2).m_engineForce = 0 ∧
    ((w.dynamics_world_.vehicle e.vehicle_).m_wheelInfo 3).m_engineForce = 0

/-- Apart from the chassis body and the raycast vehicle of the entity `e`,
the world `w1` is in the state of `w`: the same tables, settings and step
count, the same state of every other rigid body, of every other vehicle and
of every joint, the same registration lists and gravity. -/
def BulletWorld.SameOutside (w w1 : BulletWorld) (e : Vehicle_Entity) : Prop :=
  w.SameTables w1 ∧ w1.step_count = w.step_count ∧ w1.heap_top = w.heap_top ∧
    w1.timestep_ = w.timestep_ ∧ w1.gravity_ = w.gravity_ ∧
    w1.max_sub_steps_ = w.max_sub_steps_ ∧
    (∀ a, a ≠ e.rigidbody_ → w1.dynamics_world_.body a = w.dynamics_world_.body a) ∧
    (∀ a, a ≠ e.vehicle_ → w1.dynamics_world_.vehicle a = w.dynamics_world_.vehicle a) ∧
    w1.dynamics_world_.joint = w.dynamics_world_.joint ∧
    w1.dynamics_world_.m_collisionObjects = w.dynamics_world_.m_collisionObjects ∧
    w1.dynamics_world_.m_constraints = w.dynamics_world_.m_constraints ∧
    w1.dynamics_world_.m_gravity = w.dynamics_world_.m_gravity

/-- Successive shape additions, one `AddShapeToWorld` call per shape of the
list (each of `AddCube`, `AddSphere`, `AddCylinder` and `AddTerrain` is such a
call): the ids returned, in order, and the world left. -/
def AddShapes (w : BulletWorld) : List bullet_shape → List Int × BulletWorld
  | [] => ([], w)
  | shape :: rest =>
    let r := AddShapeToWorld w shape
    let r1 := AddShapes r.2 rest
    (r.1 :: r1.1, r1.2)

/-! ## A small solver for worked examples

Bodies fall freely; the ground is the plane `z = 0`; a wheel's ray starts at
its connection point, carried by the chassis without rotation, and reaches
down by the suspension rest length plus the wheel radius. -/

/-- A pose array filled with zeros. -/
def demoZeros : Nat → Scalar := fun _ => 0

/-- The identity rotation, column by column. -/
def demoRotation : Nat → Scalar := fun i => if i = 0 ∨ i = 4 ∨ i = 8 then 1 else 0

/-- The array holding `a, b, c` in its first three slots. -/
def demoTriple (a b c : Scalar) : Nat → Scalar := fun i =>
  match i with
  | 0 => a
  | 1 => b
  | 2 => c
  | _ => 0

/-- A body at rest at `position` with orientation `rotation`. -/
def demoBody (position rotation : Nat → Scalar) : btRigidBody :=
  { m_worldTransform :=
      { m_basis := btMatrix3x3.ofRows (rotation 0) (rotation 3) (rotation 6)
          (rotation 1) (rotation 4) (rotation 7)
          (rotation 2) (rotation 5) (rotation 8)
        m_origin := ⟨position 0, position 1, position 2⟩ }
    m_linearVelocity := ⟨0, 0, 0⟩
    m_angularVelocity := ⟨0, 0, 0⟩
    m_totalTorque := ⟨0, 0, 0⟩ }

/-- A wheel of radius `radius` and rest length `rest` mounted `height` above
the chassis origin. -/
def demoWheel (radius rest height : Scalar) : btWheelInfo :=
  { m_steering := 0
    m_engineForce := 0
    m_wheelsRadius := radius
    m_suspensionRestLength1 := rest
    m_suspensionLength := rest
    m_suspensionRelativeVelocity := 0
    m_clippedInvContactDotSuspension := 1
    m_contactNormalWS := ⟨0, 0, 1⟩
    m_wheelDirectionWS := ⟨0, 0, -1⟩
    m_chassisConnectionPointCS := ⟨0, 0, height⟩
    m_worldTransform := default }

/-- One free-fall step of a body over the time `dt` under gravity `g`. -/
def demoFall (g : btVector3) (dt : Scalar) (b : btRigidBody) : btRigidBody :=
  let v : btVector3 :=
    ⟨b.m_linearVelocity.x + g.x * dt, b.m_linearVelocity.y + g.y * dt,
      b.m_linearVelocity.z + g.z * dt⟩
  let o := b.m_worldTransform.m_origin
  { b with
    m_linearVelocity := v
    m_worldTransform :=
      { m_basis := b.m_worldTransform.m_basis
        m_origin := ⟨o.x + v.x * dt, o.y + v.y * dt, o.z + v.z * dt⟩ } }

/-- The depth a wheel's ray reports over the ground plane: the height of the
ray's start when the ground is within reach, and `-1` otherwise. -/
def demoDepth (d : btDiscreteDynamicsWorld) (Vehicle i : Nat) : Scalar :=
  let v := d.vehicle Vehicle
  let wheel := v.m_wheelInfo i
  let h := (d.body v.m_chassisBody).m_worldTransform.m_origin.z + wheel.m_chassisConnectionPointCS.z
  let raylen := wheel.m_suspensionRestLength1 + wheel.m_wheelsRadius
  if 0 ≤ h ∧ h ≤ raylen then h else -1

/-- `SIMD_PI` at double precision, to sixteen digits. -/
def SIMD_PI : Scalar := 3141592653589793 / 1000000000000000

/-- Bullet's `btNormalizeAngle`: `btFmod(angle, 2π)`, then one turn is added
below `-π` and taken off above `π`; exact arithmetic in place of rounding. -/
def demoNormalizeAngle (angleInRadians : Scalar) : Scalar :=
  let SIMD_2_PI := 2 * SIMD_PI
  let angleInRadians :=
    angleInRadians - (truncToInt (angleInRadians / SIMD_2_PI) : Scalar) * SIMD_2_PI
  if angleInRadians < -SIMD_PI then angleInRadians + SIMD_2_PI
  else if angleInRadians > SIMD_PI then angleInRadians - SIMD_2_PI
  else angleInRadians

/-- The example solver.  A vehicle is built from `parameters`: the wheel
radius, the suspension rest length, and the mounting height of each of its
four wheels. -/
def demoEngine : Engine :=
  { bullet_cube := fun _ _ _ _ _ position rotation => ⟨demoBody position rotation⟩
    bullet_sphere := fun _ _ _ position rotation => ⟨demoBody position rotation⟩
    bullet_cylinder := fun _ _ _ _ position rotation => ⟨demoBody position rotation⟩
    bullet_heightmap := fun _ _ _ _ _ _ _ _ _ => ⟨demoBody demoZeros demoRotation⟩
    new_vehicle := fun parameters position rotation =>
      { chassis := demoBody position rotation
        wheels := fun i => demoWheel (parameters 0) (parameters 1) (parameters (2 + i))
        numWheels := 4 }
    stepSimulation := fun d timeStep _ =>
      { d with body := fun a => demoFall d.m_gravity timeStep (d.body a) }
    rayCast := fun d Vehicle i => (demoDepth d Vehicle i, d)
    rayTest := fun _ ray_start _ => some ⟨ray_start.x, ray_start.y, 0⟩
    updateWheelTransform := fun d _ _ _ => d
    btNormalizeAngle := demoNormalizeAngle }

/-- The parameters of a vehicle with wheel radius and rest length `1/2` whose
wheels are mounted at the heights `h0, h1, h2, h3`. -/
def demoParameters (h0 h1 h2 h3 : Scalar) : Nat → Scalar := fun i =>
  match i with
  | 0 => 1 / 2
  | 1 => 1 / 2
  | 2 => h0
  | 3 => h1
  | 4 => h2
  | 5 => h3
  | _ => 0

/-- A scene built through the interface: a sphere (shape 0) ten units up and a
vehicle (vehicle 0) standing half a unit above the ground on its four wheels. -/
def demoScene : BulletWorld :=
  (AddRaycastVehicle demoEngine
    (AddSphere demoEngine BulletWorld.new 1 1 0 (demoTriple 0 0 10) demoRotation).2
    (demoParameters 0 0 0 0) (demoTriple 0 0 (1 / 2)) demoRotation).2

/-- The parameters of a vehicle with wheel radius and rest length `1`, so that
a wheel's ray reaches two units down, its wheels mounted level with the
chassis origin. -/
def tallParameters : Nat → Scalar := fun i =>
  match i with
  | 0 => 1
  | 1 => 1
  | _ => 0

/-- A scene with such a vehicle standing `3/2` above the ground: every wheel's
ray hits the ground, at depth `3/2`. -/
def tallScene : BulletWorld :=
  (AddRaycastVehicle demoEngine BulletWorld.new tallParameters (demoTriple 0 0 (3 / 2))
    demoRotation).2

/-- The same scene with wheel 0 of the vehicle mounted five units higher, out
of reach of the ground, as over a ledge. -/
def ledgeScene : BulletWorld :=
  (AddRaycastVehicle demoEngine
    (AddSphere demoEngine BulletWorld.new 1 1 0 (demoTriple 0 0 10) demoRotation).2
    (demoParameters 5 0 0 0) (demoTriple 0 0 (1 / 2)) demoRotation).2

/-- A rollout of vehicle 0 of the example scene over `N` commands, each with
steering value 5 and engine force 7, from the pose it stands in and with the
linear velocity `(1, 2, 3)`. -/
def demoRollout (N : Nat) : Except Fault (Buffer × BulletWorld) :=
  SpeedSim demoEngine demoScene 0 (demoTriple 0 0 (1 / 2)) demoRotation (demoTriple 1 2 3)
    demoZeros (fun _ => 7) (fun _ => 5) N

/-- The motion-state readout in that rollout right after the simulation step
of pass `i`. -/
def demoMotionState (N i : Nat) : Except Fault (List Scalar) :=
  match SpeedSim_stepped demoEngine demoScene 0 (demoTriple 0 0 (1 / 2)) demoRotation
      (demoTriple 1 2 3) demoZeros (fun _ => 7) (fun _ => 5) N i with
  | .error f => .error f
  | .ok w => (GetRaycastMotionState demoEngine w 0).map Prod.fst

/-- The example scene with a second shape, a cube (shape 1). -/
def jointScene : BulletWorld :=
  (AddCube demoEngine demoScene 1 1 1 1 0 (demoTriple 2 0 10) demoRotation).2

/-! ## Predicates and read-backs used by the theorems on joints and poses -/

/-- The result `r` of a call made in the world `w` has entered one joint: the
id returned is the former size of the constraint table, the table has one
entry more, every former entry is still there, the new entry is the only new
key, and the handle stored under the id is the one constraint appended to the
constraint list of the dynamics world; the shape table is as it was. -/
def BulletWorld.EntersJoint (w : BulletWorld) (r : Int × BulletWorld) : Prop :=
  r.1 = (w.constraints_.size : Int) ∧
    r.2.constraints_.size = w.constraints_.size + 1 ∧
    (∀ k v, w.constraints_.at? k = some v → r.2.constraints_.at? k = some v) ∧
    (∀ k, (r.2.constraints_.at? k).isSome → k = r.1 ∨ (w.constraints_.at? k).isSome) ∧
    r.2.shapes_ = w.shapes_ ∧
    ∃ addr, r.2.constraints_.at? r.1 = some addr ∧
      r.2.dynamics_world_.m_constraints = w.dynamics_world_.m_constraints ++ [addr]

/-- The joint object behind the handle that the constraint table holds under
`id`: `none` when there is no such entry or when the handle dangles. -/
def BulletWorld.jointOf (w : BulletWorld) (id : Int) : Option btTypedConstraint :=
  (w.constraints_.at? id).bind w.dynamics_world_.joint

/-- The twelve configured limit values of a six-DOF joint read back in the
order of the wrapper's `limits` array: linear upper, linear lower, angular
upper, angular lower (`getLinearUpperLimit` and its three siblings); `none`
while one of the four is as the constructor left it. -/
def btGeneric6DofConstraint.limits (c : btGeneric6DofConstraint) : Option (List Scalar) :=
  match c.m_linearUpperLimit, c.m_linearLowerLimit, c.m_angularUpperLimit,
    c.m_angularLowerLimit with
  | some lu, some ll, some au, some al =>
    some [lu.x, lu.y, lu.z, ll.x, ll.y, ll.z, au.x, au.y, au.z, al.x, al.y, al.z]
  | _, _, _, _ => none

/-- The steering limits, upper then lower, that a joint reports when it is a
Hinge2 joint. -/
def btTypedConstraint.steeringLimits : btTypedConstraint → Option (Option Scalar × Option Scalar)
  | .hinge2 c => some (c.m_upperLimit, c.m_lowerLimit)
  | _ => none

/-- The twelve limit values that a joint reports when it is a six-DOF joint
with its four limits set. -/
def btTypedConstraint.sixDofLimits : btTypedConstraint → Option (List Scalar)
  | .generic6Dof c => c.limits
  | _ => none

/-- The dynamics world after the wheel loop of `GetVehiclePoses` has refreshed
the transforms of wheels `0, ..., i - 1` of the vehicle at `Vehicle`, in this
order. -/
def GetVehiclePoses_refreshed (E : Engine) (Vehicle : Nat) (d : btDiscreteDynamicsWorld) :
    Nat → btDiscreteDynamicsWorld
  | 0 => d
  | i + 1 => E.updateWheelTransform (GetVehiclePoses_refreshed E Vehicle d i) Vehicle i false

/-- The engine keeps the number of wheels of the vehicle at `Vehicle` when it
refreshes a wheel transform. -/
def Engine.KeepsWheels (E : Engine) (Vehicle : Nat) : Prop :=
  ∀ d i, ((E.updateWheelTransform d Vehicle i false).vehicle Vehicle).numWheels =
    (d.vehicle Vehicle).numWheels

/-! ## The phases of `RaycastToGround` -/

/-- The first phase of `RaycastToGround(id, x, y)` for the vehicle entity `e`,
up to and including the move that follows "Now move our car!": the chassis
rotation read at entry, the candidate point, and the dynamics world with the
chassis placed at that point. -/
def RaycastToGround_candidate (E : Engine) (w : BulletWorld) (e : Vehicle_Entity)
    (x y : Scalar) : btMatrix3x3 × btVector3 × btDiscreteDynamicsWorld :=
  let Vehicle := e.vehicle_
  let point : btVector3 := ⟨x + 50, y + 50, -100⟩
  let rot := (w.dynamics_world_.getChassisWorldTransform Vehicle).m_basis
  let bullet_trans : btTransform := ⟨rot, point⟩
  let d := w.dynamics_world_.setBody e.rigidbody_
    ((w.dynamics_world_.body e.rigidbody_).setCenterOfMassTransform bullet_trans)
  let ray_start : btVector3 := ⟨x, y, 100⟩
  let ray_end : btVector3 := ⟨x, y, -100⟩
  let ray_callback := E.rayTest d ray_start ray_end
  let hitpoint := (d.getChassisWorldTransform Vehicle).m_origin
  let hitpoint :=
    match ray_callback with
    | some m_hitPointWorld =>
      let radius := ((d.vehicle Vehicle).m_wheelInfo 2).m_wheelsRadius
      m_hitPointWorld.setZ (m_hitPointWorld.get 2 + 3 * radius)
    | none => hitpoint
  let bullet_move : btTransform := ⟨rot, hitpoint⟩
  (rot, hitpoint,
    d.setBody e.rigidbody_ ((d.body e.rigidbody_).setCenterOfMassTransform bullet_move))

/-- One pass of the settle loop of `RaycastToGround`: `on = OnTheGround(id)`,
then `StepSimulation()`. -/
def RaycastToGround_pass (E : Engine) (id : Int) (w : BulletWorld) :
    Except Fault (Int × BulletWorld) :=
  match OnTheGround E w id with
  | .error f => .error f
  | .ok (on_, w1) => .ok (on_, StepSimulation E w1)

/-- The world after `k` passes of the settle loop, whatever `on` was. -/
def RaycastToGround_passes (E : Engine) (id : Int) : Nat → BulletWorld → Except Fault BulletWorld
  | 0, w => .ok w
  | k + 1, w =>
    match RaycastToGround_pass E id w with
    | .error f => .error f
    | .ok (_, w1) => RaycastToGround_passes E id k w1

/-- What `OnTheGround(id)` returns in the world reached after `k` passes of
the settle loop. -/
def RaycastToGround_contact (E : Engine) (id : Int) (k : Nat) (w : BulletWorld) : Option Int :=
  match RaycastToGround_passes E id k w with
  | .error _ => none
  | .ok wk => (OnTheGround E wk id).toOption.map Prod.fst

/-- The example scene with the wheels of the vehicle mounted at the height `h`
relative to the chassis origin and the chassis standing at the height `z`. -/
def lowScene (h z : Scalar) : BulletWorld :=
  (AddRaycastVehicle demoEngine
    (AddSphere demoEngine BulletWorld.new 1 1 0 (demoTriple 0 0 10) demoRotation).2
    (demoParameters h h h h) (demoTriple 0 0 z) demoRotation).2

/-! # Theorems -/

/-! ## Tables -/

theorem Table.lookup_store {α : Type} (l : List (Int × α)) (k k1 : Int) (v : α) :
    Table.lookup (Table.store l k v) k1 = if k = k1 then some v else Table.lookup l k1 := by
  induction l with
  | nil => simp [Table.store, Table.lookup]
  | cons p rest ih =>
    obtain ⟨k2, v2⟩ := p
    by_cases h : k2 = k
    · subst h
      by_cases h1 : k2 = k1 <;> simp [Table.store, Table.lookup, h1]
    · by_cases h1 : k2 = k1
      · subst h1
        have h2 : ¬ k = k2 := fun e => h e.symm
        simp [Table.store, Table.lookup, h, h2]
      · simp [Table.store, Table.lookup, h, h1, ih]

theorem Table.at?_assign {α : Type} (t : Table α) (k k1 : Int) (v : α) :
    (t.assign k v).at? k1 = if k = k1 then some v else t.at? k1 := by
  simp [Table.assign, Table.at?, Table.lookup_store]

theorem Table.store_length {α : Type} (l : List (Int × α)) (k : Int) (v : α)
    (h : Table.lookup l k = none) : (Table.store l k v).length = l.length + 1 := by
  induction l with
  | nil => simp [Table.store]
  | cons p rest ih =>
    obtain ⟨k2, v2⟩ := p
    by_cases h1 : k2 = k
    · simp [Table.lookup, h1] at h
    · simp [Table.lookup, h1] at h
      simp [Table.store, h1, ih h]

theorem Table.Dense.at?_size {α : Type} {t : Table α} (h : t.Dense) :
    t.at? (t.size : Int) = none := by
  have h1 := h (t.size : Int)
  cases hk : t.at? (t.size : Int) with
  | none => rfl
  | some v =>
    rw [hk] at h1
    simp at h1

theorem Table.Dense.size_assign {α : Type} {t : Table α} (h : t.Dense) (v : α) :
    (t.assign (t.size : Int) v).size = t.size + 1 := by
  have h1 := h.at?_size
  simp only [Table.assign, Table.size, Table.at?] at *
  exact Table.store_length _ _ _ h1

theorem Table.Dense.assign {α : Type} {t : Table α} (h : t.Dense) (v : α) :
    (t.assign (t.size : Int) v).Dense := by
  intro k
  rw [Table.at?_assign, h.size_assign]
  by_cases hk : (t.size : Int) = k
  · subst hk
    simp
  · simp only [hk, if_false, h k]
    push_cast
    omega

theorem Table.dense_empty {α : Type} : (Table.empty : Table α).Dense := by
  intro k
  simp [Table.empty, Table.at?, Table.lookup, Table.size]

theorem Table.Grows.keeps_dense {α : Type} {t t1 : Table α} (g : t.Grows t1) (h : t.Dense) :
    t1.Dense := by
  rcases g with rfl | ⟨v, rfl⟩
  · exact h
  · exact h.assign v

theorem Table.Grows.at?_eq {α : Type} {t t1 : Table α} (g : t.Grows t1) (h : t.Dense)
    {k : Int} {v : α} (hk : t.at? k = some v) : t1.at? k = some v := by
  rcases g with rfl | ⟨v1, rfl⟩
  · exact hk
  · rw [Table.at?_assign]
    by_cases e : (t.size : Int) = k
    · subst e
      rw [h.at?_size] at hk
      cases hk
    · simp [e, hk]

/-! ## The tables under each call -/

theorem BulletWorld.SameTables.refl (w : BulletWorld) : w.SameTables w := ⟨rfl, rfl, rfl, rfl⟩

theorem BulletWorld.SameTables.andThen {w w1 w2 : BulletWorld} (h : w.SameTables w1)
    (h1 : w1.SameTables w2) : w.SameTables w2 :=
  ⟨h1.1.trans h.1, h1.2.1.trans h.2.1, h1.2.2.1.trans h.2.2.1, h1.2.2.2.trans h.2.2.2⟩

theorem StepSimulation_tables (E : Engine) (w : BulletWorld) :
    w.SameTables (StepSimulation E w) := ⟨rfl, rfl, rfl, rfl⟩

theorem CommandVehicle_tables {E : Engine} {w w1 : BulletWorld} {id : Int} {s f : Scalar}
    (h : CommandVehicle E w id s f = .ok w1) : w.SameTables w1 := by
  unfold CommandVehicle at h
  split at h
  · cases h
  simp only at h
  split at h
  · cases h
  split at h
  · cases h
  split at h
  · cases h
  split at h
  · cases h
  split at h
  · cases h
  split at h
  · cases h
  simp only [Except.ok.injEq] at h
  subst h
  exact ⟨rfl, rfl, rfl, rfl⟩

theorem CommandRaycastVehicle_tables {w w1 : BulletWorld} {id : Int} {s f : Scalar}
    (h : CommandRaycastVehicle w id s f = .ok w1) : w.SameTables w1 := by
  unfold CommandRaycastVehicle at h
  split at h
  · cases h
  · simp only [Except.ok.injEq] at h; subst h; exact ⟨rfl, rfl, rfl, rfl⟩

theorem OnTheGround_tables {E : Engine} {w w1 : BulletWorld} {id : Int} {r : Int}
    (h : OnTheGround E w id = .ok (r, w1)) : w.SameTables w1 := by
  unfold OnTheGround at h
  split at h
  · cases h
  · simp only [Except.ok.injEq, Prod.mk.injEq] at h
    obtain ⟨-, rfl⟩ := h
    exact ⟨rfl, rfl, rfl, rfl⟩

theorem GetRaycastMotionState_tables {E : Engine} {w w1 : BulletWorld} {id : Int}
    {r : List Scalar} (h : GetRaycastMotionState E w id = .ok (r, w1)) : w.SameTables w1 := by
  unfold GetRaycastMotionState at h
  split at h
  · cases h
  · split at h
    · cases h
    · rename_i on_ w2 hg
      simp only [Except.ok.injEq, Prod.mk.injEq] at h
      obtain ⟨-, rfl⟩ := h
      exact OnTheGround_tables hg

theorem SetVehicleVels_tables {w w1 : BulletWorld} {id : Int} {l a : Nat → Scalar}
    (h : SetVehicleVels w id l a = .ok w1) : w.SameTables w1 := by
  unfold SetVehicleVels at h
  split at h
  · cases h
  · simp only [Except.ok.injEq] at h; subst h; exact ⟨rfl, rfl, rfl, rfl⟩

theorem ResetVehicle_tables {w w1 : BulletWorld} {id : Int} {p r : Nat → Scalar}
    (h : ResetVehicle w id p r = .ok w1) : w.SameTables w1 := by
  unfold ResetVehicle at h
  split at h
  · cases h
  · simp only [Except.ok.injEq] at h; subst h; exact ⟨rfl, rfl, rfl, rfl⟩

theorem RaycastToGround_settle_tables {E : Engine} {id : Int} {Vehicle : Nat} (fuel : Nat) :
    ∀ {on_ : Int} {p p1 : btVector3} {w w1 : BulletWorld},
      RaycastToGround_settle E id Vehicle fuel on_ p w = .ok (p1, w1) → w.SameTables w1 := by
  induction fuel with
  | zero =>
    intro on_ p p1 w w1 h
    unfold RaycastToGround_settle at h
    split at h
    · cases h
    · simp only [Except.ok.injEq, Prod.mk.injEq] at h
      obtain ⟨-, rfl⟩ := h
      exact BulletWorld.SameTables.refl _
  | succ n ih =>
    intro on_ p p1 w w1 h
    unfold RaycastToGround_settle at h
    split at h
    · split at h
      · cases h
      · rename_i on1 w2 hg
        exact ((OnTheGround_tables hg).andThen (StepSimulation_tables E w2)).andThen (ih h)
    · simp only [Except.ok.injEq, Prod.mk.injEq] at h
      obtain ⟨-, rfl⟩ := h
      exact BulletWorld.SameTables.refl _

theorem RaycastToGround_tables {E : Engine} {fuel : Nat} {w w1 : BulletWorld} {id : Int}
    {x y : Scalar} {r : List Scalar} (h : RaycastToGround E fuel w id x y = .ok (r, w1)) :
    w.SameTables w1 := by
  unfold RaycastToGround at h
  split at h
  · cases h
  · simp only at h
    split at h
    · cases h
    · split at h
      · cases h
      · rename_i hs
        simp only [Except.ok.injEq, Prod.mk.injEq] at h
        obtain ⟨-, rfl⟩ := h
        have h2 := RaycastToGround_settle_tables _ hs
        exact ⟨h2.1, h2.2.1, h2.2.2.1, h2.2.2.2⟩

theorem SpeedSim_advance_tables {E : Engine} {id : Int} {forces steering_angles : Nat → Scalar}
    {i : Nat} {w w1 : BulletWorld}
    (h : SpeedSim_advance E id forces steering_angles i w = .ok w1) : w.SameTables w1 := by
  unfold SpeedSim_advance at h
  split at h
  · cases h
  · rename_i w2 hc
    simp only [Except.ok.injEq] at h
    subst h
    exact (CommandRaycastVehicle_tables hc).andThen (StepSimulation_tables E w2)

theorem SpeedSim_body_tables {E : Engine} {id : Int} {Vehicle : Nat}
    {forces steering_angles : Nat → Scalar} {N i : Nat} {s s1 : BulletWorld × Buffer}
    (h : SpeedSim_body E id Vehicle forces steering_angles N i s = .ok s1) :
    s.1.SameTables s1.1 := by
  unfold SpeedSim_body at h
  split at h
  · cases h
  · rename_i w2 ha
    simp only at h
    split at h
    · cases h
    · split at h
      · split at h
        · cases h
        · split at h
          · cases h
          · rename_i hm
            split at h
            · cases h
            · simp only [Except.ok.injEq] at h
              subst h
              exact (SpeedSim_advance_tables ha).andThen (GetRaycastMotionState_tables hm)
      · simp only [Except.ok.injEq] at h
        subst h
        exact SpeedSim_advance_tables ha

theorem SpeedSim_loop_tables {E : Engine} {id : Int} {Vehicle : Nat}
    {forces steering_angles : Nat → Scalar} {N : Nat} (k : Nat) :
    ∀ {s s1 : BulletWorld × Buffer},
      SpeedSim_loop E id Vehicle forces steering_angles N k s = .ok s1 →
        s.1.SameTables s1.1 := by
  induction k with
  | zero =>
    intro s s1 h
    simp only [SpeedSim_loop, Except.ok.injEq] at h
    subst h
    exact BulletWorld.SameTables.refl _
  | succ n ih =>
    intro s s1 h
    unfold SpeedSim_loop at h
    split at h
    · cases h
    · rename_i s2 hl
      exact (ih hl).andThen (SpeedSim_body_tables h)

theorem SpeedSim_tables {E : Engine} {w w1 : BulletWorld} {id : Int}
    {start_pose start_rot start_lin_vel start_ang_vel forces steering_angles : Nat → Scalar}
    {N : Nat} {b : Buffer}
    (h : SpeedSim E w id start_pose start_rot start_lin_vel start_ang_vel forces steering_angles N
      = .ok (b, w1)) : w.SameTables w1 := by
  unfold SpeedSim at h
  simp only at h
  split at h
  · cases h
  · split at h
    · cases h
    · rename_i h1
      split at h
      · cases h
      · rename_i h2
        split at h
        · cases h
        · rename_i h3
          split at h
          · cases h
          · rename_i h4
            split at h
            · cases h
            · rename_i h5
              split at h
              · cases h
              · rename_i h6
                simp only [Except.ok.injEq, Prod.mk.injEq] at h
                obtain ⟨-, rfl⟩ := h
                exact (((((ResetVehicle_tables h1).andThen (SetVehicleVels_tables h2)).andThen
                  (SpeedSim_loop_tables _ h3)).andThen (ResetVehicle_tables h4)).andThen
                  (SetVehicleVels_tables h5)).andThen (CommandRaycastVehicle_tables h6)

/-! ## The tables along a run of calls -/

theorem BulletWorld.SameTables.tables_grow {w w1 : BulletWorld} (h : w.SameTables w1) :
    w.compounds_.Grows w1.compounds_ ∧ w.constraints_.Grows w1.constraints_ ∧
      w.shapes_.Grows w1.shapes_ ∧ w.vehicles_.Grows w1.vehicles_ :=
  ⟨Or.inl h.1, Or.inl h.2.1, Or.inl h.2.2.1, Or.inl h.2.2.2⟩

theorem AddShapeToWorld_grows (w : BulletWorld) (shape : bullet_shape) :
    w.compounds_.Grows (AddShapeToWorld w shape).2.compounds_ ∧
    w.constraints_.Grows (AddShapeToWorld w shape).2.constraints_ ∧
    w.shapes_.Grows (AddShapeToWorld w shape).2.shapes_ ∧
    w.vehicles_.Grows (AddShapeToWorld w shape).2.vehicles_ :=
  ⟨Or.inl rfl, Or.inl rfl, Or.inr ⟨_, rfl⟩, Or.inl rfl⟩

theorem AddConstraintToWorld_grows (w : BulletWorld) (c : Nat) :
    w.compounds_.Grows (AddConstraintToWorld w c).2.compounds_ ∧
    w.constraints_.Grows (AddConstraintToWorld w c).2.constraints_ ∧
    w.shapes_.Grows (AddConstraintToWorld w c).2.shapes_ ∧
    w.vehicles_.Grows (AddConstraintToWorld w c).2.vehicles_ :=
  ⟨Or.inl rfl, Or.inr ⟨_, rfl⟩, Or.inl rfl, Or.inl rfl⟩

theorem AddConstraintToWorld_heap_grows (w : BulletWorld) (c : btTypedConstraint) :
    w.compounds_.Grows (AddConstraintToWorld_heap w c).2.compounds_ ∧
    w.constraints_.Grows (AddConstraintToWorld_heap w c).2.constraints_ ∧
    w.shapes_.Grows (AddConstraintToWorld_heap w c).2.shapes_ ∧
    w.vehicles_.Grows (AddConstraintToWorld_heap w c).2.vehicles_ :=
  ⟨Or.inl rfl, Or.inr ⟨_, rfl⟩, Or.inl rfl, Or.inl rfl⟩

theorem AddConstraintToWorld_stack_grows (w : BulletWorld) (c : btTypedConstraint) :
    w.compounds_.Grows (leaveBuilder w.heap_top (AddConstraintToWorld_stack w c)).2.compounds_ ∧
    w.constraints_.Grows
      (leaveBuilder w.heap_top (AddConstraintToWorld_stack w c)).2.constraints_ ∧
    w.shapes_.Grows (leaveBuilder w.heap_top (AddConstraintToWorld_stack w c)).2.shapes_ ∧
    w.vehicles_.Grows (leaveBuilder w.heap_top (AddConstraintToWorld_stack w c)).2.vehicles_ :=
  ⟨Or.inl rfl, Or.inr ⟨_, rfl⟩, Or.inl rfl, Or.inl rfl⟩

theorem Except_map_snd_ok {ε α β : Type} {x : Except ε (α × β)} {b : β}
    (h : x.map Prod.snd = .ok b) : ∃ a, x = .ok (a, b) := by
  cases x with
  | error e => cases h
  | ok p =>
    obtain ⟨a, b1⟩ := p
    simp only [Except.map, Except.ok.injEq] at h
    exact ⟨a, by rw [h]⟩

theorem Except_map_ok {ε α β : Type} {f : α → β} {x : Except ε α} {b : β}
    (h : x.map f = .ok b) : ∃ a, x = .ok a ∧ f a = b := by
  cases x with
  | error e => cases h
  | ok a =>
    simp only [Except.map, Except.ok.injEq] at h
    exact ⟨a, rfl, h⟩

theorem Except_mapError_ok {ε ε1 α : Type} {f : ε → ε1} {x : Except ε α} {a : α}
    (h : x.mapError f = .ok a) : x = .ok a := by
  cases x with
  | error e => cases h
  | ok a1 =>
    simp only [Except.mapError, Except.ok.injEq] at h
    rw [h]

theorem PointToPoint_one_body_adds {w : BulletWorld} {id_A : Int} {p : Nat → Scalar}
    {r : Int × BulletWorld} (h : PointToPoint_one_body w id_A p = .ok r) :
    ∃ c, r = AddConstraintToWorld_stack w c := by
  unfold PointToPoint_one_body at h
  split at h
  · cases h
  · simp only [Except.ok.injEq] at h
    exact ⟨_, h.symm⟩

theorem PointToPoint_two_body_adds {w : BulletWorld} {id_A id_B : Int} {p q : Nat → Scalar}
    {r : Int × BulletWorld} (h : PointToPoint_two_body w id_A id_B p q = .ok r) :
    ∃ c, r = AddConstraintToWorld_stack w c := by
  unfold PointToPoint_two_body at h
  split at h
  · cases h
  · split at h
    · cases h
    · simp only [Except.ok.injEq] at h
      exact ⟨_, h.symm⟩

theorem Hinge_one_pivot_body_adds {w : BulletWorld} {id_A : Int} {p a l : Nat → Scalar}
    {r : Int × BulletWorld} (h : Hinge_one_pivot_body w id_A p a l = .ok r) :
    ∃ c, r = AddConstraintToWorld_stack w c := by
  unfold Hinge_one_pivot_body at h
  split at h
  · cases h
  · simp only [Except.ok.injEq] at h
    exact ⟨_, h.symm⟩

theorem Hinge_two_pivot_body_adds {w : BulletWorld} {id_A id_B : Int}
    {p q a b l : Nat → Scalar} {r : Int × BulletWorld}
    (h : Hinge_two_pivot_body w id_A id_B p q a b l = .ok r) :
    ∃ c, r = AddConstraintToWorld_stack w c := by
  unfold Hinge_two_pivot_body at h
  split at h
  · cases h
  · split at h
    · cases h
    · simp only [Except.ok.injEq] at h
      exact ⟨_, h.symm⟩

theorem Hinge2_body_adds {E : Engine} {w : BulletWorld} {id_A id_B : Int}
    {p a b : Nat → Scalar} {damping stiffness steering_angle : Scalar}
    {r : Int × BulletWorld}
    (h : Hinge2_body E w id_A id_B p a b damping stiffness steering_angle = .ok r) :
    ∃ c, r = AddConstraintToWorld_stack w c := by
  unfold Hinge2_body at h
  split at h
  · cases h
  · split at h
    · cases h
    · simp only [Except.ok.injEq] at h
      exact ⟨_, h.symm⟩

theorem SixDOF_one_body_adds {E : Engine} {w : BulletWorld} {id_A : Int} {t l : Nat → Scalar}
    {r : Int × BulletWorld} (h : SixDOF_one_body E w id_A t l = .ok r) :
    ∃ c, r = AddConstraintToWorld_stack w c := by
  unfold SixDOF_one_body at h
  split at h
  · cases h
  · simp only [Except.ok.injEq] at h
    exact ⟨_, h.symm⟩

theorem PointToPoint_one_adds {w : BulletWorld} {id_A : Int} {p : Nat → Scalar}
    {r : Int × BulletWorld} (h : PointToPoint_one w id_A p = .ok r) :
    ∃ c, r = leaveBuilder w.heap_top (AddConstraintToWorld_stack w c) := by
  obtain ⟨a, ha, rfl⟩ := Except_map_ok h
  obtain ⟨c, rfl⟩ := PointToPoint_one_body_adds ha
  exact ⟨c, rfl⟩

theorem PointToPoint_two_adds {w : BulletWorld} {id_A id_B : Int} {p q : Nat → Scalar}
    {r : Int × BulletWorld} (h : PointToPoint_two w id_A id_B p q = .ok r) :
    ∃ c, r = leaveBuilder w.heap_top (AddConstraintToWorld_stack w c) := by
  obtain ⟨a, ha, rfl⟩ := Except_map_ok h
  obtain ⟨c, rfl⟩ := PointToPoint_two_body_adds ha
  exact ⟨c, rfl⟩

theorem Hinge_one_pivot_adds {w : BulletWorld} {id_A : Int} {p a l : Nat → Scalar}
    {r : Int × BulletWorld} (h : Hinge_one_pivot w id_A p a l = .ok r) :
    ∃ c, r = leaveBuilder w.heap_top (AddConstraintToWorld_stack w c) := by
  obtain ⟨a, ha, rfl⟩ := Except_map_ok h
  obtain ⟨c, rfl⟩ := Hinge_one_pivot_body_adds ha
  exact ⟨c, rfl⟩

theorem Hinge_two_pivot_adds {w : BulletWorld} {id_A id_B : Int} {p q a b l : Nat → Scalar}
    {r : Int × BulletWorld} (h : Hinge_two_pivot w id_A id_B p q a b l = .ok r) :
    ∃ c, r = leaveBuilder w.heap_top (AddConstraintToWorld_stack w c) := by
  obtain ⟨a, ha, rfl⟩ := Except_map_ok h
  obtain ⟨c, rfl⟩ := Hinge_two_pivot_body_adds ha
  exact ⟨c, rfl⟩

theorem Hinge2_adds {E : Engine} {w : BulletWorld} {id_A id_B : Int} {p a b : Nat → Scalar}
    {damping stiffness steering_angle : Scalar}
    {r : Int × BulletWorld}
    (h : Hinge2 E w id_A id_B p a b damping stiffness steering_angle = .ok r) :
    ∃ c, r = leaveBuilder w.heap_top (AddConstraintToWorld_stack w c) := by
  obtain ⟨a, ha, rfl⟩ := Except_map_ok h
  obtain ⟨c, rfl⟩ := Hinge2_body_adds ha
  exact ⟨c, rfl⟩

theorem SixDOF_one_adds {E : Engine} {w : BulletWorld} {id_A : Int} {t l : Nat → Scalar}
    {r : Int × BulletWorld} (h : SixDOF_one E w id_A t l = .ok r) :
    ∃ c, r = leaveBuilder w.heap_top (AddConstraintToWorld_stack w c) := by
  obtain ⟨a, ha, rfl⟩ := Except_map_ok h
  obtain ⟨c, rfl⟩ := SixDOF_one_body_adds ha
  exact ⟨c, rfl⟩

theorem Hinge_one_transform_same {w : BulletWorld} {id_A : Int} {t l : Nat → Scalar}
    {r : Int × BulletWorld} (h : Hinge_one_transform w id_A t l = .ok r) : r = (0, w) := by
  unfold Hinge_one_transform at h
  split at h
  · cases h
  · simp only [Except.ok.injEq] at h
    exact h.symm

theorem Hinge_two_transform_same {w : BulletWorld} {id_A id_B : Int} {t u l : Nat → Scalar}
    {r : Int × BulletWorld} (h : Hinge_two_transform w id_A id_B t u l = .ok r) :
    r = (0, w) := by
  unfold Hinge_two_transform at h
  split at h
  · cases h
  · split at h
    · cases h
    · simp only [Except.ok.injEq] at h
      exact h.symm

theorem Call.run_grows {E : Engine} {fuel : Nat} {w w1 : BulletWorld} {c : Call}
    (h : Call.run E fuel w c = .ok w1) :
    w.compounds_.Grows w1.compounds_ ∧ w.constraints_.Grows w1.constraints_ ∧
      w.shapes_.Grows w1.shapes_ ∧ w.vehicles_.Grows w1.vehicles_ := by
  cases c with
  | AddShapeToWorld shape =>
    simp only [Call.run, Except.ok.injEq] at h; subst h; exact AddShapeToWorld_grows _ _
  | AddCube =>
    simp only [Call.run, Except.ok.injEq] at h; subst h; exact AddShapeToWorld_grows _ _
  | AddSphere =>
    simp only [Call.run, Except.ok.injEq] at h; subst h; exact AddShapeToWorld_grows _ _
  | AddCylinder =>
    simp only [Call.run, Except.ok.injEq] at h; subst h; exact AddShapeToWorld_grows _ _
  | AddTerrain =>
    simp only [Call.run, Except.ok.injEq] at h; subst h; exact AddShapeToWorld_grows _ _
  | AddCompound =>
    simp only [Call.run, Except.ok.injEq] at h; subst h
    exact ⟨Or.inr ⟨_, rfl⟩, Or.inl rfl, Or.inl rfl, Or.inl rfl⟩
  | AddRaycastVehicle =>
    simp only [Call.run, Except.ok.injEq] at h; subst h
    exact ⟨Or.inl rfl, Or.inl rfl, Or.inl rfl, Or.inr ⟨_, rfl⟩⟩
  | StepSimulation =>
    simp only [Call.run, Except.ok.injEq] at h; subst h
    exact (StepSimulation_tables E w).tables_grow
  | CommandVehicle => exact (CommandVehicle_tables h).tables_grow
  | CommandRaycastVehicle => exact (CommandRaycastVehicle_tables h).tables_grow
  | GetRaycastMotionState =>
    obtain ⟨a, ha⟩ := Except_map_snd_ok h
    exact (GetRaycastMotionState_tables ha).tables_grow
  | RaycastToGround =>
    obtain ⟨a, ha⟩ := Except_map_snd_ok h
    exact (RaycastToGround_tables ha).tables_grow
  | OnTheGround =>
    obtain ⟨a, ha⟩ := Except_map_snd_ok h
    exact (OnTheGround_tables ha).tables_grow
  | SetVehicleVels => exact (SetVehicleVels_tables h).tables_grow
  | ResetVehicle => exact (ResetVehicle_tables h).tables_grow
  | SpeedSim =>
    obtain ⟨a, ha⟩ := Except_map_snd_ok h
    exact (SpeedSim_tables ha).tables_grow
  | AddConstraintToWorld c =>
    simp only [Call.run, Except.ok.injEq] at h; subst h
    exact AddConstraintToWorld_heap_grows _ _
  | PointToPoint_one =>
    obtain ⟨a, ha⟩ := Except_map_snd_ok h
    obtain ⟨c, hc⟩ := PointToPoint_one_adds (Except_mapError_ok ha)
    have := AddConstraintToWorld_stack_grows w c
    rw [← hc] at this
    exact this
  | PointToPoint_two =>
    obtain ⟨a, ha⟩ := Except_map_snd_ok h
    obtain ⟨c, hc⟩ := PointToPoint_two_adds (Except_mapError_ok ha)
    have := AddConstraintToWorld_stack_grows w c
    rw [← hc] at this
    exact this
  | Hinge_one_transform =>
    obtain ⟨a, ha⟩ := Except_map_snd_ok h
    have := Hinge_one_transform_same (Except_mapError_ok ha)
    simp only [Prod.mk.injEq] at this
    rw [this.2]
    exact (BulletWorld.SameTables.refl w).tables_grow
  | Hinge_two_transform =>
    obtain ⟨a, ha⟩ := Except_map_snd_ok h
    have := Hinge_two_transform_same (Except_mapError_ok ha)
    simp only [Prod.mk.injEq] at this
    rw [this.2]
    exact (BulletWorld.SameTables.refl w).tables_grow
  | Hinge_one_pivot =>
    obtain ⟨a, ha⟩ := Except_map_snd_ok h
    obtain ⟨c, hc⟩ := Hinge_one_pivot_adds (Except_mapError_ok ha)
    have := AddConstraintToWorld_stack_grows w c
    rw [← hc] at this
    exact this
  | Hinge_two_pivot =>
    obtain ⟨a, ha⟩ := Except_map_snd_ok h
    obtain ⟨c, hc⟩ := Hinge_two_pivot_adds (Except_mapError_ok ha)
    have := AddConstraintToWorld_stack_grows w c
    rw [← hc] at this
    exact this
  | Hinge2 =>
    obtain ⟨a, ha⟩ := Except_map_snd_ok h
    obtain ⟨c, hc⟩ := Hinge2_adds (Except_mapError_ok ha)
    have := AddConstraintToWorld_stack_grows w c
    rw [← hc] at this
    exact this
  | SixDOF_one =>
    obtain ⟨a, ha⟩ := Except_map_snd_ok h
    obtain ⟨c, hc⟩ := SixDOF_one_adds (Except_mapError_ok ha)
    have := AddConstraintToWorld_stack_grows w c
    rw [← hc] at this
    exact this
  | GetShapeTransform =>
    simp only [Call.run] at h
    cases hg : SimLAB.GetShapeTransform w (by assumption) with
    | error e => rw [hg] at h; cases h
    | ok v =>
      rw [hg] at h
      simp only [Except.map, Except.ok.injEq] at h
      subst h
      exact (BulletWorld.SameTables.refl _).tables_grow
  | GetConstraintTransform =>
    simp only [Call.run] at h
    cases hg : SimLAB.GetConstraintTransform w (by assumption) with
    | error e => rw [hg] at h; cases h
    | ok v =>
      rw [hg] at h
      simp only [Except.map, Except.ok.injEq] at h
      subst h
      exact (BulletWorld.SameTables.refl _).tables_grow
  | GetVehiclePoses Vehicle =>
    simp only [Call.run] at h
    cases hg : SimLAB.GetVehiclePoses E fuel w.dynamics_world_ Vehicle with
    | error e => rw [hg] at h; cases h
    | ok v =>
      rw [hg] at h
      simp only [Except.map, Except.ok.injEq] at h
      subst h
      exact ⟨Or.inl rfl, Or.inl rfl, Or.inl rfl, Or.inl rfl⟩
  | GetVehicleTransform id =>
    obtain ⟨a, ha⟩ := Except_map_snd_ok h
    unfold SimLAB.GetVehicleTransform at ha
    split at ha
    · cases ha
    · split at ha
      · cases ha
      · split at ha
        · cases ha
        · simp only [Except.ok.injEq, Prod.mk.injEq] at ha
          obtain ⟨-, rfl⟩ := ha
          exact ⟨Or.inl rfl, Or.inl rfl, Or.inl rfl, Or.inl rfl⟩

theorem Steps.tables_grow_along {E : Engine} {w w1 : BulletWorld} (h : Steps E w w1)
    (hd : w.compounds_.Dense ∧ w.constraints_.Dense ∧ w.shapes_.Dense ∧ w.vehicles_.Dense) :
    (w1.compounds_.Dense ∧ w1.constraints_.Dense ∧ w1.shapes_.Dense ∧ w1.vehicles_.Dense) ∧
    (∀ k v, w.compounds_.at? k = some v → w1.compounds_.at? k = some v) ∧
    (∀ k v, w.constraints_.at? k = some v → w1.constraints_.at? k = some v) ∧
    (∀ k v, w.shapes_.at? k = some v → w1.shapes_.at? k = some v) ∧
    (∀ k v, w.vehicles_.at? k = some v → w1.vehicles_.at? k = some v) := by
  induction h with
  | refl => exact ⟨hd, fun _ _ h => h, fun _ _ h => h, fun _ _ h => h, fun _ _ h => h⟩
  | call c fuel _ hr ih =>
    obtain ⟨hd1, ha, hb, hc, he⟩ := ih
    obtain ⟨ga, gb, gc, ge⟩ := Call.run_grows hr
    exact ⟨⟨ga.keeps_dense hd1.1, gb.keeps_dense hd1.2.1, gc.keeps_dense hd1.2.2.1, ge.keeps_dense hd1.2.2.2⟩,
      fun k v h => ga.at?_eq hd1.1 (ha k v h), fun k v h => gb.at?_eq hd1.2.1 (hb k v h),
      fun k v h => gc.at?_eq hd1.2.2.1 (hc k v h), fun k v h => ge.at?_eq hd1.2.2.2 (he k v h)⟩

theorem Reachable.tables_dense {E : Engine} {w : BulletWorld} (h : Reachable E w) :
    w.compounds_.Dense ∧ w.constraints_.Dense ∧ w.shapes_.Dense ∧ w.vehicles_.Dense :=
  (Steps.tables_grow_along h ⟨Table.dense_empty, Table.dense_empty, Table.dense_empty,
    Table.dense_empty⟩).1

/-! ## Ids (C1, C2) -/

theorem demoScene_reachable : Reachable demoEngine demoScene :=
  Steps.call (Call.AddRaycastVehicle (demoParameters 0 0 0 0) (demoTriple 0 0 (1 / 2)) demoRotation)
    0 (Steps.call (Call.AddSphere 1 1 0 (demoTriple 0 0 10) demoRotation) 0 Steps.refl rfl) rfl

theorem AddShapes_ids (shapes : List bullet_shape) :
    ∀ w : BulletWorld, w.shapes_.Dense →
      (AddShapes w shapes).1 =
        (List.range shapes.length).map (fun i : Nat => (w.shapes_.size : Int) + (i : Int)) := by
  induction shapes with
  | nil => intro w _; simp [AddShapes]
  | cons shape rest ih =>
    intro w hd
    have h1 : (AddShapeToWorld w shape).2.shapes_.Dense := hd.assign _
    have h2 : (AddShapeToWorld w shape).2.shapes_.size = w.shapes_.size + 1 := hd.size_assign _
    have h3 := ih (AddShapeToWorld w shape).2 h1
    simp only [AddShapes, List.length_cons, List.range_succ_eq_map, List.map_cons, List.map_map]
    rw [h3, h2]
    refine congrArg₂ _ ?_ ?_
    · simp [AddShapeToWorld]
    · apply List.map_congr_left
      intro i _
      simp only [Function.comp, Nat.succ_eq_add_one]
      push_cast
      ring

/-- C1: in a world reached through the public interface, successive shape
additions (`AddCube`, `AddSphere`, `AddCylinder`, `AddTerrain`, each a call of
`AddShapeToWorld`) return the ids `s, s + 1, ..., s + N - 1`, where `s` is the
size of the shape table before the first of them; the ids are strictly
increasing and pairwise distinct. -/
theorem C1_successive_shape_ids (E : Engine) (w : BulletWorld) (hw : Reachable E w)
    (shapes : List bullet_shape) :
    (AddShapes w shapes).1 =
        (List.range shapes.length).map (fun i : Nat => (w.shapes_.size : Int) + (i : Int)) ∧
      (AddShapes w shapes).1.Pairwise (fun a b => a < b) ∧
      (AddShapes w shapes).1.Nodup := by
  have h := AddShapes_ids shapes w hw.tables_dense.2.2.1
  have hp : (AddShapes w shapes).1.Pairwise (fun a b => a < b) := by
    rw [h, List.pairwise_map]
    refine (List.pairwise_lt_range shapes.length).imp ?_
    intro a b hab
    have : (a : Int) < (b : Int) := by exact_mod_cast hab
    omega
  refine ⟨h, hp, ?_⟩
  exact hp.imp (fun hab => ne_of_lt hab)

/-- C1 at the example scene, which holds one shape: three further additions
return the ids 1, 2 and 3. -/
theorem C1_successive_shape_ids_witness :
    Reachable demoEngine demoScene ∧
      (AddShapes demoScene
        [demoEngine.bullet_cube 1 1 1 1 0 demoZeros demoRotation,
         demoEngine.bullet_sphere 1 1 0 demoZeros demoRotation,
         demoEngine.bullet_cylinder 1 2 1 0 demoZeros demoRotation]).1 = [1, 2, 3] :=
  ⟨demoScene_reachable,
    (C1_successive_shape_ids demoEngine demoScene demoScene_reachable
      [demoEngine.bullet_cube 1 1 1 1 0 demoZeros demoRotation,
       demoEngine.bullet_sphere 1 1 0 demoZeros demoRotation,
       demoEngine.bullet_cylinder 1 2 1 0 demoZeros demoRotation]).1.trans (by decide)⟩

/-- C2: in every world reached from a fresh `BulletWorld` by public calls, the
keys of each table are exactly `0, ..., size - 1`; each adder returns the key
`size`, which is free, and stores its entity under it; and along any further
run of public calls every entry stays under its id with the same entity, and
no adder returns an id that was already in use. -/
theorem C2_ids_identify_permanently (E : Engine) (w : BulletWorld) (hw : Reachable E w) :
    (w.shapes_.Dense ∧ w.constraints_.Dense ∧ w.vehicles_.Dense ∧ w.compounds_.Dense) ∧
    (∀ shape, (AddShapeToWorld w shape).1 = (w.shapes_.size : Int) ∧
        w.shapes_.at? (AddShapeToWorld w shape).1 = none ∧
        ((AddShapeToWorld w shape).2.shapes_.at? (AddShapeToWorld w shape).1).isSome) ∧
    (∀ c, (AddConstraintToWorld w c).1 = (w.constraints_.size : Int) ∧
        w.constraints_.at? (AddConstraintToWorld w c).1 = none ∧
        ((AddConstraintToWorld w c).2.constraints_.at? (AddConstraintToWorld w c).1).isSome) ∧
    (∀ p q r, (AddRaycastVehicle E w p q r).1 = (w.vehicles_.size : Int) ∧
        w.vehicles_.at? (AddRaycastVehicle E w p q r).1 = none ∧
        ((AddRaycastVehicle E w p q r).2.vehicles_.at? (AddRaycastVehicle E w p q r).1).isSome) ∧
    (∀ p q t, (AddCompound w p q t).1 = (w.compounds_.size : Int) ∧
        w.compounds_.at? (AddCompound w p q t).1 = none ∧
        ((AddCompound w p q t).2.compounds_.at? (AddCompound w p q t).1).isSome) ∧
    (∀ w1, Steps E w w1 →
      (∀ k v, w.shapes_.at? k = some v →
        w1.shapes_.at? k = some v ∧ ∀ shape, (AddShapeToWorld w1 shape).1 ≠ k) ∧
      (∀ k v, w.constraints_.at? k = some v →
        w1.constraints_.at? k = some v ∧ ∀ c, (AddConstraintToWorld w1 c).1 ≠ k) ∧
      (∀ k v, w.vehicles_.at? k = some v →
        w1.vehicles_.at? k = some v ∧ ∀ p q r, (AddRaycastVehicle E w1 p q r).1 ≠ k) ∧
      (∀ k v, w.compounds_.at? k = some v →
        w1.compounds_.at? k = some v ∧ ∀ p q t, (AddCompound w1 p q t).1 ≠ k)) := by
  obtain ⟨dc, dj, ds, dv⟩ := hw.tables_dense
  refine ⟨⟨ds, dj, dv, dc⟩, ?_, ?_, ?_, ?_, ?_⟩
  · intro shape
    refine ⟨rfl, ds.at?_size, ?_⟩
    simp [AddShapeToWorld, Table.at?_assign]
  · intro c
    refine ⟨rfl, dj.at?_size, ?_⟩
    simp [AddConstraintToWorld, Table.at?_assign]
  · intro p q r
    refine ⟨rfl, dv.at?_size, ?_⟩
    simp [AddRaycastVehicle, Table.at?_assign]
  · intro p q t
    refine ⟨rfl, dc.at?_size, ?_⟩
    simp [AddCompound, Table.at?_assign]
  · intro w1 hs
    obtain ⟨⟨dc1, dj1, ds1, dv1⟩, pc, pj, ps, pv⟩ := Steps.tables_grow_along hs ⟨dc, dj, ds, dv⟩
    refine ⟨?_, ?_, ?_, ?_⟩
    · intro k v hk
      refine ⟨ps k v hk, ?_⟩
      intro shape e
      have h1 : w1.shapes_.at? (w1.shapes_.size : Int) = some v := by
        have h2 : (AddShapeToWorld w1 shape).1 = (w1.shapes_.size : Int) := rfl
        rw [← h2, e]
        exact ps k v hk
      rw [ds1.at?_size] at h1
      cases h1
    · intro k v hk
      refine ⟨pj k v hk, ?_⟩
      intro c e
      have h1 : w1.constraints_.at? (w1.constraints_.size : Int) = some v := by
        have h2 : (AddConstraintToWorld w1 c).1 = (w1.constraints_.size : Int) := rfl
        rw [← h2, e]
        exact pj k v hk
      rw [dj1.at?_size] at h1
      cases h1
    · intro k v hk
      refine ⟨pv k v hk, ?_⟩
      intro p q r e
      have h1 : w1.vehicles_.at? (w1.vehicles_.size : Int) = some v := by
        have h2 : (AddRaycastVehicle E w1 p q r).1 = (w1.vehicles_.size : Int) := rfl
        rw [← h2, e]
        exact pv k v hk
      rw [dv1.at?_size] at h1
      cases h1
    · intro k v hk
      refine ⟨pc k v hk, ?_⟩
      intro p q t e
      have h1 : w1.compounds_.at? (w1.compounds_.size : Int) = some v := by
        have h2 : (AddCompound w1 p q t).1 = (w1.compounds_.size : Int) := rfl
        rw [← h2, e]
        exact pc k v hk
      rw [dc1.at?_size] at h1
      cases h1

/-- C2 at the example scene: after a simulation step and a further sphere,
shape 0 and vehicle 0 are still the entities entered under those ids, and the
sphere got an id other than 0. -/
theorem C2_ids_identify_permanently_witness :
    Reachable demoEngine demoScene ∧
      (AddSphere demoEngine (StepSimulation demoEngine demoScene) 1 1 0 demoZeros
        demoRotation).2.shapes_.at? 0 = demoScene.shapes_.at? 0 ∧
      (AddSphere demoEngine (StepSimulation demoEngine demoScene) 1 1 0 demoZeros
        demoRotation).2.vehicles_.at? 0 = demoScene.vehicles_.at? 0 ∧
      (AddSphere demoEngine (StepSimulation demoEngine demoScene) 1 1 0 demoZeros
        demoRotation).1 ≠ 0 := by
  have h := (C2_ids_identify_permanently demoEngine demoScene demoScene_reachable).2.2.2.2.2
    (AddSphere demoEngine (StepSimulation demoEngine demoScene) 1 1 0 demoZeros demoRotation).2
    (Steps.call (Call.AddSphere 1 1 0 demoZeros demoRotation) 0
      (Steps.call Call.StepSimulation 0 Steps.refl rfl) rfl)
  have hs : demoScene.shapes_.at? 0 = some ⟨2, 0, 1⟩ := by decide
  have hv : demoScene.vehicles_.at? 0 = some ⟨5, 3, 4, 6⟩ := by decide
  refine ⟨demoScene_reachable, ?_, ?_, ?_⟩
  · rw [hs]; exact (h.1 0 _ hs).1
  · rw [hv]; exact (h.2.2.1 0 _ hv).1
  · exact (C2_ids_identify_permanently demoEngine demoScene demoScene_reachable).2.2.2.2.2
      (StepSimulation demoEngine demoScene) (Steps.call Call.StepSimulation 0 Steps.refl rfl)
      |>.1 0 _ hs |>.2 _

/-! ## Arrays -/

theorem Buffer.puts_size (l : List (Nat × Scalar)) :
    ∀ b : Buffer, (b.puts l).size = b.size := by
  induction l with
  | nil => intro b; rfl
  | cons p rest ih => intro b; obtain ⟨k, v⟩ := p; simp only [Buffer.puts, ih]; rfl

theorem Buffer.puts_written (l : List (Nat × Scalar)) :
    ∀ b : Buffer, (b.puts l).written = b.written ++ l.map Prod.fst := by
  induction l with
  | nil => intro b; simp [Buffer.puts]
  | cons p rest ih =>
    intro b
    obtain ⟨k, v⟩ := p
    simp [Buffer.puts, ih, Buffer.put]

theorem Buffer.puts_cells_frame (l : List (Nat × Scalar)) :
    ∀ (b : Buffer) (idx : Nat), (∀ kv ∈ l, kv.1 ≠ idx) → (b.puts l).cells idx = b.cells idx := by
  induction l with
  | nil => intro b idx _; rfl
  | cons p rest ih =>
    intro b idx h
    obtain ⟨k, v⟩ := p
    have h1 : k ≠ idx := h (k, v) (List.mem_cons_self _ _)
    have h2 : ∀ kv ∈ rest, kv.1 ≠ idx := fun kv hkv => h kv (List.mem_cons_of_mem _ hkv)
    simp only [Buffer.puts]
    rw [ih _ _ h2]
    simp [Buffer.put, Function.update, h1.symm]

theorem Buffer.writes_ok (l : List (Nat × Scalar)) :
    ∀ b : Buffer, (∀ kv ∈ l, kv.1 < b.size) → b.writes l = .ok (b.puts l) := by
  induction l with
  | nil => intro b _; rfl
  | cons p rest ih =>
    intro b h
    obtain ⟨k, v⟩ := p
    have h1 : k < b.size := h (k, v) (List.mem_cons_self _ _)
    have h2 : ∀ kv ∈ rest, kv.1 < (b.put k v).size :=
      fun kv hkv => h kv (List.mem_cons_of_mem _ hkv)
    simp only [Buffer.writes, Buffer.write, h1, if_true, Buffer.puts]
    exact ih _ h2

/-! ## The vehicle calls on a registered vehicle -/

theorem ResetVehicle_ok {w : BulletWorld} {id : Int} {e : Vehicle_Entity}
    (hv : w.vehicles_.at? id = some e) (p r : Nat → Scalar) :
    ResetVehicle w id p r = .ok { w with
      dynamics_world_ := w.dynamics_world_.setBody e.rigidbody_
        ((w.dynamics_world_.body e.rigidbody_).setCenterOfMassTransform
          ⟨btMatrix3x3.ofRows (r 0) (r 3) (r 6) (r 1) (r 4) (r 7) (r 2) (r 5) (r 8),
            ⟨p 0, p 1, p 2⟩⟩) } := by
  simp only [ResetVehicle, hv]

theorem SetVehicleVels_ok {w : BulletWorld} {id : Int} {e : Vehicle_Entity}
    (hv : w.vehicles_.at? id = some e) (l a : Nat → Scalar) :
    SetVehicleVels w id l a = .ok { w with
      dynamics_world_ :=
        (w.dynamics_world_.setBody e.rigidbody_
          (((w.dynamics_world_.body e.rigidbody_).setLinearVelocity ⟨l 0, l 1, l 2⟩).setAngularVelocity
            ⟨a 0, a 1, a 2⟩)).setVehicle e.vehicle_
          ((w.dynamics_world_.setBody e.rigidbody_
            (((w.dynamics_world_.body e.rigidbody_).setLinearVelocity
              ⟨l 0, l 1, l 2⟩).setAngularVelocity ⟨a 0, a 1, a 2⟩)).vehicle
            e.vehicle_).resetSuspension } := by
  simp only [SetVehicleVels, hv]

theorem CommandRaycastVehicle_ok {w : BulletWorld} {id : Int} {e : Vehicle_Entity}
    (hv : w.vehicles_.at? id = some e) (s f : Scalar) :
    CommandRaycastVehicle w id s f = .ok { w with
      dynamics_world_ := w.dynamics_world_.setVehicle e.vehicle_
        (((((w.dynamics_world_.vehicle e.vehicle_).setSteeringValue s 0).setSteeringValue
          s 1).applyEngineForce f 2).applyEngineForce f 3) } := by
  simp only [CommandRaycastVehicle, hv]

theorem OnTheGround_ok {E : Engine} {w : BulletWorld} {id : Int} {e : Vehicle_Entity}
    (hv : w.vehicles_.at? id = some e) :
    OnTheGround E w id = .ok
      ((if ((List.range 4).foldl (OnTheGround_step E e.vehicle_) (0, w.dynamics_world_)).1 = 0
          then 1 else 0),
        { w with dynamics_world_ :=
            ((List.range 4).foldl (OnTheGround_step E e.vehicle_) (0, w.dynamics_world_)).2 }) := by
  simp only [OnTheGround, hv]

theorem GetRaycastMotionState_ok (E : Engine) {w : BulletWorld} {id : Int} {e : Vehicle_Entity}
    (hv : w.vehicles_.at? id = some e) :
    ∃ (on_ : Int) (w1 : BulletWorld), OnTheGround E w id = .ok (on_, w1) ∧
      GetRaycastMotionState E w id = .ok
        ([(w.dynamics_world_.vehicle e.vehicle_).getSteeringValue 0,
          ((w.dynamics_world_.vehicle e.vehicle_).m_wheelInfo 2).m_engineForce,
          (w.dynamics_world_.body e.rigidbody_).m_linearVelocity.get 0,
          (w.dynamics_world_.body e.rigidbody_).m_linearVelocity.get 1,
          (w.dynamics_world_.body e.rigidbody_).m_linearVelocity.get 2,
          (w.dynamics_world_.body e.rigidbody_).m_angularVelocity.get 0,
          (w.dynamics_world_.body e.rigidbody_).m_angularVelocity.get 1,
          (w.dynamics_world_.body e.rigidbody_).m_angularVelocity.get 2,
          (on_ : Scalar)], w1) := by
  refine ⟨_, _, OnTheGround_ok hv, ?_⟩
  simp only [GetRaycastMotionState, hv, OnTheGround_ok hv]

theorem SpeedSim_advance_ok (E : Engine) {w : BulletWorld} {id : Int} {e : Vehicle_Entity}
    (hv : w.vehicles_.at? id = some e) (forces steering_angles : Nat → Scalar) (i : Nat) :
    ∃ wa, SpeedSim_advance E id forces steering_angles i w = .ok wa ∧
      wa.vehicles_.at? id = some e ∧ wa.step_count = w.step_count + 1 := by
  simp only [SpeedSim_advance, CommandRaycastVehicle_ok hv]
  exact ⟨_, rfl, hv, rfl⟩

theorem OnTheGround_step_count {E : Engine} {w w1 : BulletWorld} {id : Int} {r : Int}
    (h : OnTheGround E w id = .ok (r, w1)) : w1.step_count = w.step_count := by
  unfold OnTheGround at h
  split at h
  · cases h
  · simp only [Except.ok.injEq, Prod.mk.injEq] at h
    obtain ⟨-, rfl⟩ := h
    rfl

/-! ## The rollout loop -/

theorem SpeedSim_position_lt {N i : Nat} (hi : i < N) (p : btVector3) :
    ∀ kv ∈ SpeedSim_position i p, kv.1 < N * 3 + 22 := by
  intro kv hkv
  simp only [SpeedSim_position, List.mem_cons, List.mem_singleton, List.not_mem_nil,
    or_false] at hkv
  rcases hkv with rfl | rfl | rfl <;> simp only <;> omega

theorem SpeedSim_pose_lt {N i : Nat} (hi : i < N) (p : btVector3) (r : btMatrix3x3) :
    ∀ kv ∈ SpeedSim_pose i p r, kv.1 < N * 3 + 22 := by
  intro kv hkv
  simp only [SpeedSim_pose, List.mem_cons, List.mem_singleton, List.not_mem_nil,
    or_false] at hkv
  rcases hkv with rfl | rfl | rfl | rfl | rfl | rfl | rfl | rfl | rfl | rfl | rfl | rfl <;>
    simp only <;> omega

theorem SpeedSim_motion_lt {N i : Nat} (hi : i < N) (m : List Scalar) :
    ∀ kv ∈ SpeedSim_motion i m, kv.1 < N * 3 + 22 := by
  intro kv hkv
  simp only [SpeedSim_motion, List.mem_cons, List.mem_singleton, List.not_mem_nil,
    or_false] at hkv
  rcases hkv with rfl | rfl | rfl | rfl | rfl | rfl | rfl <;> simp only <;> omega

theorem SpeedSim_body_plain (E : Engine) {id : Int} {e : Vehicle_Entity}
    (forces steering_angles : Nat → Scalar) (N i : Nat) {w : BulletWorld} {b : Buffer}
    (hv : w.vehicles_.at? id = some e) (hi : i + 1 < N) (hb : b.size = N * 3 + 22) :
    ∃ wa, SpeedSim_advance E id forces steering_angles i w = .ok wa ∧
      wa.vehicles_.at? id = some e ∧ wa.step_count = w.step_count + 1 ∧
      SpeedSim_body E id e.vehicle_ forces steering_angles N i (w, b) = .ok (wa,
        b.puts (SpeedSim_position i
          (wa.dynamics_world_.getChassisWorldTransform e.vehicle_).m_origin)) := by
  obtain ⟨wa, ha, hva, hsa⟩ := SpeedSim_advance_ok E hv forces steering_angles i
  refine ⟨wa, ha, hva, hsa, ?_⟩
  have hne : ¬ ((i : Int) = (N : Int) - 1) := by omega
  unfold SpeedSim_body
  simp only [ha]
  rw [Buffer.writes_ok _ _ (by rw [hb]; exact SpeedSim_position_lt (by omega) _)]
  simp only [hne, if_false]

theorem SpeedSim_body_last (E : Engine) {id : Int} {e : Vehicle_Entity}
    (forces steering_angles : Nat → Scalar) (N i : Nat) {w : BulletWorld} {b : Buffer}
    (hv : w.vehicles_.at? id = some e) (hi : i + 1 = N) (hb : b.size = N * 3 + 22) :
    ∃ wa ms w3, SpeedSim_advance E id forces steering_angles i w = .ok wa ∧
      wa.vehicles_.at? id = some e ∧ wa.step_count = w.step_count + 1 ∧
      GetRaycastMotionState E wa id = .ok (ms, w3) ∧
      w3.vehicles_.at? id = some e ∧ w3.step_count = wa.step_count ∧
      SpeedSim_body E id e.vehicle_ forces steering_angles N i (w, b) = .ok (w3,
        ((b.puts (SpeedSim_position i
          (wa.dynamics_world_.getChassisWorldTransform e.vehicle_).m_origin)).puts
          (SpeedSim_pose i (wa.dynamics_world_.getChassisWorldTransform e.vehicle_).m_origin
            (wa.dynamics_world_.getChassisWorldTransform e.vehicle_).m_basis)).puts
          (SpeedSim_motion i ms)) := by
  obtain ⟨wa, ha, hva, hsa⟩ := SpeedSim_advance_ok E hv forces steering_angles i
  obtain ⟨on_, w3, hon, hms⟩ := GetRaycastMotionState_ok E hva
  have hv3 : w3.vehicles_.at? id = some e := by
    rw [(OnTheGround_tables hon).2.2.2]; exact hva
  refine ⟨wa, _, w3, ha, hva, hsa, hms, hv3, OnTheGround_step_count hon, ?_⟩
  have heq : (i : Int) = (N : Int) - 1 := by omega
  have hlt : i < N := by omega
  unfold SpeedSim_body
  simp only [ha]
  rw [Buffer.writes_ok _ _ (by rw [hb]; exact SpeedSim_position_lt hlt _)]
  simp only [heq, if_true]
  rw [Buffer.writes_ok _ _ (by rw [Buffer.puts_size, hb]; exact SpeedSim_pose_lt hlt _ _)]
  simp only [hms]
  rw [Buffer.writes_ok _ _
    (by rw [Buffer.puts_size, Buffer.puts_size, hb]; exact SpeedSim_motion_lt hlt _)]

theorem SpeedSim_position_cells (b : Buffer) (i : Nat) (p : btVector3) :
    (b.puts (SpeedSim_position i p)).cells (3 * i) = some p.x ∧
      (b.puts (SpeedSim_position i p)).cells (3 * i + 1) = some p.y ∧
      (b.puts (SpeedSim_position i p)).cells (3 * i + 2) = some p.z := by
  simp [SpeedSim_position, Buffer.puts, Buffer.put, Function.update, btVector3.get]

theorem SpeedSim_position_frame (b : Buffer) (i : Nat) (p : btVector3) (idx : Nat)
    (h : idx < 3 * i ∨ 3 * i + 3 ≤ idx) :
    (b.puts (SpeedSim_position i p)).cells idx = b.cells idx := by
  apply Buffer.puts_cells_frame
  intro kv hkv
  simp only [SpeedSim_position, List.mem_cons, List.mem_singleton, List.not_mem_nil,
    or_false] at hkv
  rcases hkv with rfl | rfl | rfl <;> simp only <;> omega

theorem range_add_three (n : Nat) : List.range (n + 3) = List.range n ++ [n, n + 1, n + 2] := by
  simp [List.range_succ]

/-- The state of the rollout after `k` passes none of which is the last. -/
theorem SpeedSim_loop_plain (E : Engine) {id : Int} {e : Vehicle_Entity}
    (forces steering_angles : Nat → Scalar) (N : Nat) {w0 : BulletWorld}
    (hv0 : w0.vehicles_.at? id = some e) :
    ∀ k, k < N → ∃ wk bk,
      SpeedSim_loop E id e.vehicle_ forces steering_angles N k (w0, Buffer.new (N * 3 + 22)) =
        .ok (wk, bk) ∧
      wk.vehicles_.at? id = some e ∧ wk.step_count = w0.step_count + k ∧
      bk.size = N * 3 + 22 ∧ bk.written = List.range (3 * k) ∧
      (∀ idx, 3 * k ≤ idx → bk.cells idx = none) ∧
      (∀ i, i < k → ∃ s wa,
        SpeedSim_loop E id e.vehicle_ forces steering_angles N i
          (w0, Buffer.new (N * 3 + 22)) = .ok s ∧
        SpeedSim_advance E id forces steering_angles i s.1 = .ok wa ∧
        bk.cells (3 * i) = some (wa.dynamics_world_.getChassisWorldTransform e.vehicle_).m_origin.x ∧
        bk.cells (3 * i + 1) =
          some (wa.dynamics_world_.getChassisWorldTransform e.vehicle_).m_origin.y ∧
        bk.cells (3 * i + 2) =
          some (wa.dynamics_world_.getChassisWorldTransform e.vehicle_).m_origin.z) := by
  intro k
  induction k with
  | zero =>
    intro _
    refine ⟨w0, Buffer.new (N * 3 + 22), rfl, hv0, rfl, rfl, rfl, fun _ _ => rfl, ?_⟩
    intro i hi
    omega
  | succ k ih =>
    intro hk
    obtain ⟨wk, bk, hl, hvk, hsk, hbk, hwk, hnk, hck⟩ := ih (by omega)
    obtain ⟨wa, ha, hva, hsa, hbody⟩ :=
      SpeedSim_body_plain E forces steering_angles N k hvk hk hbk
    refine ⟨wa, bk.puts (SpeedSim_position k
      (wa.dynamics_world_.getChassisWorldTransform e.vehicle_).m_origin),
      ?_, hva, by omega, ?_, ?_, ?_, ?_⟩
    · simp only [SpeedSim_loop, hl, hbody]
    · rw [Buffer.puts_size, hbk]
    · rw [Buffer.puts_written, hwk]
      have : 3 * (k + 1) = 3 * k + 3 := by ring
      rw [this, range_add_three]
      rfl
    · intro idx hidx
      rw [SpeedSim_position_frame _ _ _ _ (by omega)]
      exact hnk idx (by omega)
    · intro i hi
      by_cases hik : i < k
      · obtain ⟨s, wb, hs, hb, h0, h1, h2⟩ := hck i hik
        refine ⟨s, wb, hs, hb, ?_, ?_, ?_⟩
        · rw [SpeedSim_position_frame _ _ _ _ (by omega)]; exact h0
        · rw [SpeedSim_position_frame _ _ _ _ (by omega)]; exact h1
        · rw [SpeedSim_position_frame _ _ _ _ (by omega)]; exact h2
      · have hik1 : i = k := by omega
        subst hik1
        obtain ⟨c0, c1, c2⟩ := SpeedSim_position_cells bk i
          (wa.dynamics_world_.getChassisWorldTransform e.vehicle_).m_origin
        exact ⟨(wk, bk), wa, hl, ha, c0, c1, c2⟩

theorem SpeedSim_last_frame (b : Buffer) (i : Nat) (p : btVector3) (r : btMatrix3x3)
    (m : List Scalar) (idx : Nat) (h : idx < 3 * i ∨ 3 * i + 22 ≤ idx) :
    (((b.puts (SpeedSim_position i p)).puts (SpeedSim_pose i p r)).puts
      (SpeedSim_motion i m)).cells idx = b.cells idx := by
  rw [Buffer.puts_cells_frame, Buffer.puts_cells_frame, Buffer.puts_cells_frame]
  · intro kv hkv
    simp only [SpeedSim_position, List.mem_cons, List.mem_singleton, List.not_mem_nil,
      or_false] at hkv
    rcases hkv with rfl | rfl | rfl <;> simp only <;> omega
  · intro kv hkv
    simp only [SpeedSim_pose, List.mem_cons, List.mem_singleton, List.not_mem_nil,
      or_false] at hkv
    rcases hkv with rfl | rfl | rfl | rfl | rfl | rfl | rfl | rfl | rfl | rfl | rfl | rfl <;>
      simp only <;> omega
  · intro kv hkv
    simp only [SpeedSim_motion, List.mem_cons, List.mem_singleton, List.not_mem_nil,
      or_false] at hkv
    rcases hkv with rfl | rfl | rfl | rfl | rfl | rfl | rfl <;> simp only <;> omega

theorem SpeedSim_last_written (b : Buffer) (i : Nat) (p : btVector3) (r : btMatrix3x3)
    (m : List Scalar) :
    (((b.puts (SpeedSim_position i p)).puts (SpeedSim_pose i p r)).puts
      (SpeedSim_motion i m)).written = b.written ++ List.range' (3 * i) 22 := by
  simp [Buffer.puts_written, SpeedSim_position, SpeedSim_pose, SpeedSim_motion, List.range']

/-! ## The rollout as a whole -/

theorem SpeedSim_reset_state {w : BulletWorld} {id : Int} {e : Vehicle_Entity}
    (hv : w.vehicles_.at? id = some e) (p r l a : Nat → Scalar) :
    ∃ w1 w2, ResetVehicle w id p r = .ok w1 ∧ SetVehicleVels w1 id l a = .ok w2 ∧
      w2.vehicles_.at? id = some e ∧ w2.ChassisAt e p r l a ∧ w.SameOutside w2 e ∧
      ∃ w3, CommandRaycastVehicle w2 id 0 0 = .ok w3 ∧ w3.vehicles_.at? id = some e ∧
        w3.ChassisAt e p r l a ∧ w3.Neutral e ∧ w.SameOutside w3 e := by
  refine ⟨_, _, ResetVehicle_ok hv p r, SetVehicleVels_ok (by exact hv) l a, hv, ?_, ?_,
    _, CommandRaycastVehicle_ok (by exact hv) 0 0, hv, ?_, ?_, ?_⟩
  · simp [BulletWorld.ChassisAt, btDiscreteDynamicsWorld.setBody,
      btDiscreteDynamicsWorld.setVehicle, btRigidBody.setCenterOfMassTransform,
      btRigidBody.setLinearVelocity, btRigidBody.setAngularVelocity, poseValues,
      btMatrix3x3.ofRows, btMatrix3x3.el, btMatrix3x3.row, btVector3.get]
  · refine ⟨⟨rfl, rfl, rfl, rfl⟩, rfl, rfl, rfl, rfl, rfl, ?_, ?_, rfl, rfl, rfl, rfl⟩
    · intro x hx
      simp [btDiscreteDynamicsWorld.setBody, btDiscreteDynamicsWorld.setVehicle,
        Function.update, hx]
    · intro x hx
      simp [btDiscreteDynamicsWorld.setBody, btDiscreteDynamicsWorld.setVehicle,
        Function.update, hx]
  · simp [BulletWorld.ChassisAt, btDiscreteDynamicsWorld.setBody,
      btDiscreteDynamicsWorld.setVehicle, btRigidBody.setCenterOfMassTransform,
      btRigidBody.setLinearVelocity, btRigidBody.setAngularVelocity, poseValues,
      btMatrix3x3.ofRows, btMatrix3x3.el, btMatrix3x3.row, btVector3.get]
  · simp [BulletWorld.Neutral, btDiscreteDynamicsWorld.setBody,
      btDiscreteDynamicsWorld.setVehicle, btRaycastVehicle.setSteeringValue,
      btRaycastVehicle.applyEngineForce, Function.update]
  · refine ⟨⟨rfl, rfl, rfl, rfl⟩, rfl, rfl, rfl, rfl, rfl, ?_, ?_, rfl, rfl, rfl, rfl⟩
    · intro x hx
      simp [btDiscreteDynamicsWorld.setBody, btDiscreteDynamicsWorld.setVehicle,
        Function.update, hx]
    · intro x hx
      simp [btDiscreteDynamicsWorld.setBody, btDiscreteDynamicsWorld.setVehicle,
        Function.update, hx]

theorem SpeedSim_run (E : Engine) {w : BulletWorld} {id : Int} {e : Vehicle_Entity}
    (hv : w.vehicles_.at? id = some e)
    (start_pose start_rot start_lin_vel start_ang_vel forces steering_angles : Nat → Scalar)
    (N : Nat) :
    ∃ w2, w2.vehicles_.at? id = some e ∧
      w2.ChassisAt e start_pose start_rot start_lin_vel start_ang_vel ∧ w.SameOutside w2 e ∧
      (∀ k, SpeedSim_after E w id start_pose start_rot start_lin_vel start_ang_vel forces
          steering_angles N k =
        SpeedSim_loop E id e.vehicle_ forces steering_angles N k
          (w2, Buffer.new (N * 3 + 22))) ∧
      (∀ w3 states, SpeedSim_loop E id e.vehicle_ forces steering_angles N N
          (w2, Buffer.new (N * 3 + 22)) = .ok (w3, states) →
        ∃ w6, SpeedSim E w id start_pose start_rot start_lin_vel start_ang_vel forces
            steering_angles N = .ok (states, w6) ∧
          w6.ChassisAt e start_pose start_rot start_lin_vel start_ang_vel ∧ w6.Neutral e ∧
          w3.SameOutside w6 e) := by
  obtain ⟨w1, w2, h1, h2, hv2, hc2, ho2, -⟩ :=
    SpeedSim_reset_state hv start_pose start_rot start_lin_vel start_ang_vel
  refine ⟨w2, hv2, hc2, ho2, ?_, ?_⟩
  · intro k
    simp only [SpeedSim_after, hv, h1, h2]
  · intro w3 states hl
    have hv3 : w3.vehicles_.at? id = some e := by
      have := (SpeedSim_loop_tables _ hl).2.2.2
      simp only at this
      rw [this]; exact hv2
    obtain ⟨w4, w5, h4, h5, -, -, -, w6, h6, -, hc6, hn6, ho6⟩ :=
      SpeedSim_reset_state hv3 start_pose start_rot start_lin_vel start_ang_vel
    refine ⟨w6, ?_, hc6, hn6, ho6⟩
    simp only [SpeedSim, hv, h1, h2, hl, h4, h5, h6]

/-- The loop of `SpeedSim` runs to its end on a registered vehicle. -/
theorem SpeedSim_loop_ok (E : Engine) {id : Int} {e : Vehicle_Entity}
    (forces steering_angles : Nat → Scalar) (N : Nat) {w0 : BulletWorld}
    (hv0 : w0.vehicles_.at? id = some e) :
    ∃ w3 states, SpeedSim_loop E id e.vehicle_ forces steering_angles N N
        (w0, Buffer.new (N * 3 + 22)) = .ok (w3, states) ∧
      w3.step_count = w0.step_count + N ∧ states.size = N * 3 + 22 ∧
      states.written = (if N = 0 then [] else List.range (3 * N + 19)) := by
  cases N with
  | zero => exact ⟨w0, _, rfl, rfl, rfl, rfl⟩
  | succ n =>
    obtain ⟨wp, bp, hl, hvp, hsp, hbp, hwp, -, -⟩ :=
      SpeedSim_loop_plain E forces steering_angles (n + 1) hv0 n (by omega)
    obtain ⟨wa, ms, w3, ha, hva, hsa, hms, hv3, hs3, hbody⟩ :=
      SpeedSim_body_last E forces steering_angles (n + 1) n hvp rfl hbp
    have hloop := (show SpeedSim_loop E id e.vehicle_ forces steering_angles (n + 1) (n + 1)
        (w0, Buffer.new ((n + 1) * 3 + 22)) =
        SpeedSim_body E id e.vehicle_ forces steering_angles (n + 1) n (wp, bp) from by
          simp only [SpeedSim_loop, hl]).trans hbody
    refine ⟨w3, _, hloop, ?_, ?_, ?_⟩
    · omega
    · rw [Buffer.puts_size, Buffer.puts_size, Buffer.puts_size, hbp]
    · rw [SpeedSim_last_written, hwp]
      simp only [Nat.succ_ne_zero, if_false, Nat.add_one_ne_zero]
      have : 3 * (n + 1) + 19 = 3 * n + 22 := by ring
      rw [this, List.range_eq_range', List.range_eq_range']
      have h := List.range'_append_1 0 (3 * n) 22
      simp only [Nat.zero_add] at h
      rw [h, Nat.add_comm]

theorem SpeedSim_last_cell (b : Buffer) (i : Nat) (p : btVector3) (r : btMatrix3x3)
    (m : List Scalar) (c : Nat) (hc : c < 22) :
    (((b.puts (SpeedSim_position i p)).puts (SpeedSim_pose i p r)).puts
        (SpeedSim_motion i m)).cells (3 * i + c) =
      ([p.x, p.y, p.z, p.x, p.y, p.z,
        r.el 0 0, r.el 1 0, r.el 2 0, r.el 0 1, r.el 1 1, r.el 2 1,
        r.el 0 2, r.el 1 2, r.el 2 2,
        m.getD 2 0, m.getD 3 0, m.getD 4 0, m.getD 5 0, m.getD 6 0, m.getD 7 0,
        m.getD 8 0] : List Scalar).get? c := by
  interval_cases c <;>
    simp [SpeedSim_position, SpeedSim_pose, SpeedSim_motion, Buffer.puts, Buffer.put,
      Function.update, btVector3.get]

/-- What a rollout of at least one command does, pass by pass. -/
theorem SpeedSim_trace (E : Engine) {w : BulletWorld} {id : Int} {e : Vehicle_Entity}
    (hv : w.vehicles_.at? id = some e)
    (start_pose start_rot start_lin_vel start_ang_vel forces steering_angles : Nat → Scalar)
    (n : Nat) :
    ∃ wp bp wa ms w3 states w6,
      SpeedSim_after E w id start_pose start_rot start_lin_vel start_ang_vel forces
        steering_angles (n + 1) n = .ok (wp, bp) ∧
      bp.written = List.range (3 * n) ∧ (∀ idx, 3 * n ≤ idx → bp.cells idx = none) ∧
      (∀ i, i < n → ∃ wb, SpeedSim_stepped E w id start_pose start_rot start_lin_vel
          start_ang_vel forces steering_angles (n + 1) i = .ok wb ∧
        bp.cells (3 * i) =
          some (wb.dynamics_world_.getChassisWorldTransform e.vehicle_).m_origin.x ∧
        bp.cells (3 * i + 1) =
          some (wb.dynamics_world_.getChassisWorldTransform e.vehicle_).m_origin.y ∧
        bp.cells (3 * i + 2) =
          some (wb.dynamics_world_.getChassisWorldTransform e.vehicle_).m_origin.z) ∧
      SpeedSim_stepped E w id start_pose start_rot start_lin_vel start_ang_vel forces
        steering_angles (n + 1) n = .ok wa ∧
      wa.vehicles_.at? id = some e ∧
      GetRaycastMotionState E wa id = .ok (ms, w3) ∧
      states = ((bp.puts (SpeedSim_position n
          (wa.dynamics_world_.getChassisWorldTransform e.vehicle_).m_origin)).puts
        (SpeedSim_pose n (wa.dynamics_world_.getChassisWorldTransform e.vehicle_).m_origin
          (wa.dynamics_world_.getChassisWorldTransform e.vehicle_).m_basis)).puts
        (SpeedSim_motion n ms) ∧
      SpeedSim E w id start_pose start_rot start_lin_vel start_ang_vel forces steering_angles
        (n + 1) = .ok (states, w6) := by
  obtain ⟨w2, hv2, -, -, hafter, hfinal⟩ := SpeedSim_run E hv start_pose start_rot start_lin_vel
    start_ang_vel forces steering_angles (n + 1)
  obtain ⟨wp, bp, hl, hvp, -, hbp, hwp, hnone, hcells⟩ :=
    SpeedSim_loop_plain E forces steering_angles (n + 1) hv2 n (by omega)
  obtain ⟨wa, ms, w3, ha, hva, -, hms, -, -, hbody⟩ :=
    SpeedSim_body_last E forces steering_angles (n + 1) n hvp rfl hbp
  have hloop := (show SpeedSim_loop E id e.vehicle_ forces steering_angles (n + 1) (n + 1)
      (w2, Buffer.new ((n + 1) * 3 + 22)) =
      SpeedSim_body E id e.vehicle_ forces steering_angles (n + 1) n (wp, bp) from by
        simp only [SpeedSim_loop, hl]).trans hbody
  obtain ⟨w6, h6, -, -, -⟩ := hfinal _ _ hloop
  refine ⟨wp, bp, wa, ms, w3, _, w6, ?_, hwp, hnone, ?_, ?_, hva, hms, rfl, h6⟩
  · rw [hafter]; exact hl
  · intro i hi
    obtain ⟨s, wb, hs, hb, h0, h1, h2⟩ := hcells i hi
    refine ⟨wb, ?_, h0, h1, h2⟩
    simp only [SpeedSim_stepped, hafter, hs, hb]
  · simp only [SpeedSim_stepped, hafter, hl, ha]

theorem SpeedSim_last_motion_cell (b : Buffer) (i : Nat) (p : btVector3) (r : btMatrix3x3)
    (m : List Scalar) (c : Nat) (hc : c < 7) :
    (((b.puts (SpeedSim_position i p)).puts (SpeedSim_pose i p r)).puts
        (SpeedSim_motion i m)).cells (3 * i + 15 + c) = some (m.getD (2 + c) 0) := by
  interval_cases c <;>
    simp [SpeedSim_position, SpeedSim_pose, SpeedSim_motion, Buffer.puts, Buffer.put,
      Function.update]

theorem BulletWorld.SameOutside.then_outside {w w1 w2 : BulletWorld} {e : Vehicle_Entity}
    (h : w.SameOutside w1 e) (h1 : w1.SameOutside w2 e) : w.SameOutside w2 e := by
  obtain ⟨a1, a2, a3, a4, a5, a6, a7, a8, a9, a10, a11, a12⟩ := h
  obtain ⟨b1, b2, b3, b4, b5, b6, b7, b8, b9, b10, b11, b12⟩ := h1
  exact ⟨a1.andThen b1, b2.trans a2, b3.trans a3, b4.trans a4, b5.trans a5, b6.trans a6,
    fun x hx => (b7 x hx).trans (a7 x hx), fun x hx => (b8 x hx).trans (a8 x hx),
    b9.trans a9, b10.trans a10, b11.trans a11, b12.trans a12⟩

theorem demoScene_vehicle : demoScene.vehicles_.at? 0 = some ⟨5, 3, 4, 6⟩ := by decide

/-! ## Ground contact (C3) -/

/-- C3, the code at the failing input: in the ledge scene the raycast of wheel
0 misses (`-1`) and those of wheels 1, 2 and 3 hit at depth `1/2`, yet
`OnTheGround` returns 1.  In the scene of the tall vehicle all four raycasts
hit, at depth `3/2`, yet `OnTheGround` returns 0. -/
theorem C3_OnTheGround_one_wheel_off :
    ledgeScene.vehicles_.at? 0 = some ⟨5, 3, 4, 6⟩ ∧
      (List.range 4).map (fun i => (demoEngine.rayCast ledgeScene.dynamics_world_ 6 i).1) =
        [-1, 1 / 2, 1 / 2, 1 / 2] ∧
      (OnTheGround demoEngine ledgeScene 0).toOption.map Prod.fst = some 1 ∧
      tallScene.vehicles_.at? 0 = some ⟨2, 0, 1, 3⟩ ∧
      (List.range 4).map (fun i => (demoEngine.rayCast tallScene.dynamics_world_ 3 i).1) =
        [3 / 2, 3 / 2, 3 / 2, 3 / 2] ∧
      (OnTheGround demoEngine tallScene 0).toOption.map Prod.fst = some 0 := by
  decide!

/-! ## The rollout buffer (C4 to C9) -/

/-- C4: for a registered vehicle and `N ≥ 1` commands, `SpeedSim` returns an
array that holds at `3i`, `3i+1`, `3i+2` the chassis position right after the
simulation step of pass `i`, for every `i < N`; from index `3N` on exactly the
19 slots `3N, ..., 3N+18` hold a value, none of them written before the last
pass; and the slots `3N+3, ..., 3N+11` hold the chassis rotation `R` after the
last step column by column. -/
theorem C4_SpeedSim_layout (E : Engine) (w : BulletWorld) (id : Int) (e : Vehicle_Entity)
    (hv : w.vehicles_.at? id = some e)
    (start_pose start_rot start_lin_vel start_ang_vel forces steering_angles : Nat → Scalar)
    (N : Nat) (hN : 1 ≤ N) :
    ∃ states w1,
      SpeedSim E w id start_pose start_rot start_lin_vel start_ang_vel forces steering_angles N =
        .ok (states, w1) ∧
      (∀ i, i < N → ∃ wa,
        SpeedSim_stepped E w id start_pose start_rot start_lin_vel start_ang_vel forces
          steering_angles N i = .ok wa ∧
        states.cells (3 * i) =
          some (wa.dynamics_world_.getChassisWorldTransform e.vehicle_).m_origin.x ∧
        states.cells (3 * i + 1) =
          some (wa.dynamics_world_.getChassisWorldTransform e.vehicle_).m_origin.y ∧
        states.cells (3 * i + 2) =
          some (wa.dynamics_world_.getChassisWorldTransform e.vehicle_).m_origin.z) ∧
      (∃ wa,
        SpeedSim_stepped E w id start_pose start_rot start_lin_vel start_ang_vel forces
          steering_angles N (N - 1) = .ok wa ∧
        (List.range 9).map (fun c => states.cells (3 * N + 3 + c)) =
          [some ((wa.dynamics_world_.getChassisWorldTransform e.vehicle_).m_basis.el 0 0),
           some ((wa.dynamics_world_.getChassisWorldTransform e.vehicle_).m_basis.el 1 0),
           some ((wa.dynamics_world_.getChassisWorldTransform e.vehicle_).m_basis.el 2 0),
           some ((wa.dynamics_world_.getChassisWorldTransform e.vehicle_).m_basis.el 0 1),
           some ((wa.dynamics_world_.getChassisWorldTransform e.vehicle_).m_basis.el 1 1),
           some ((wa.dynamics_world_.getChassisWorldTransform e.vehicle_).m_basis.el 2 1),
           some ((wa.dynamics_world_.getChassisWorldTransform e.vehicle_).m_basis.el 0 2),
           some ((wa.dynamics_world_.getChassisWorldTransform e.vehicle_).m_basis.el 1 2),
           some ((wa.dynamics_world_.getChassisWorldTransform e.vehicle_).m_basis.el 2 2)]) ∧
      (∀ k, 3 * N ≤ k → ((states.cells k).isSome ↔ k < 3 * N + 19)) ∧
      (∃ s, SpeedSim_after E w id start_pose start_rot start_lin_vel start_ang_vel forces
          steering_angles N (N - 1) = .ok s ∧ ∀ k, 3 * N ≤ k → s.2.cells k = none) := by
  obtain ⟨n, rfl⟩ : ∃ n, N = n + 1 := ⟨N - 1, by omega⟩
  obtain ⟨wp, bp, wa, ms, w3, states, w6, hafter, -, hnone, hcells, hstep, -, -, hst, h6⟩ :=
    SpeedSim_trace E hv start_pose start_rot start_lin_vel start_ang_vel forces
      steering_angles n
  have key : ∀ c, c < 22 → states.cells (3 * n + c) =
      ([(wa.dynamics_world_.getChassisWorldTransform e.vehicle_).m_origin.x,
        (wa.dynamics_world_.getChassisWorldTransform e.vehicle_).m_origin.y,
        (wa.dynamics_world_.getChassisWorldTransform e.vehicle_).m_origin.z,
        (wa.dynamics_world_.getChassisWorldTransform e.vehicle_).m_origin.x,
        (wa.dynamics_world_.getChassisWorldTransform e.vehicle_).m_origin.y,
        (wa.dynamics_world_.getChassisWorldTransform e.vehicle_).m_origin.z,
        (wa.dynamics_world_.getChassisWorldTransform e.vehicle_).m_basis.el 0 0,
        (wa.dynamics_world_.getChassisWorldTransform e.vehicle_).m_basis.el 1 0,
        (wa.dynamics_world_.getChassisWorldTransform e.vehicle_).m_basis.el 2 0,
        (wa.dynamics_world_.getChassisWorldTransform e.vehicle_).m_basis.el 0 1,
        (wa.dynamics_world_.getChassisWorldTransform e.vehicle_).m_basis.el 1 1,
        (wa.dynamics_world_.getChassisWorldTransform e.vehicle_).m_basis.el 2 1,
        (wa.dynamics_world_.getChassisWorldTransform e.vehicle_).m_basis.el 0 2,
        (wa.dynamics_world_.getChassisWorldTransform e.vehicle_).m_basis.el 1 2,
        (wa.dynamics_world_.getChassisWorldTransform e.vehicle_).m_basis.el 2 2,
        ms.getD 2 0, ms.getD 3 0, ms.getD 4 0, ms.getD 5 0, ms.getD 6 0, ms.getD 7 0,
        ms.getD 8 0] : List Scalar).get? c := fun c hc => by
    rw [hst]; exact SpeedSim_last_cell bp n _ _ ms c hc
  have frame : ∀ idx, idx < 3 * n ∨ 3 * n + 22 ≤ idx → states.cells idx = bp.cells idx :=
    fun idx h => by rw [hst]; exact SpeedSim_last_frame bp n _ _ ms idx h
  refine ⟨states, w6, h6, ?_, ⟨wa, hstep, ?_⟩, ?_, ⟨(wp, bp), hafter, ?_⟩⟩
  · intro i hi
    by_cases hin : i < n
    · obtain ⟨wb, hb, h0, h1, h2⟩ := hcells i hin
      refine ⟨wb, hb, ?_, ?_, ?_⟩
      · rw [frame _ (by omega)]; exact h0
      · rw [frame _ (by omega)]; exact h1
      · rw [frame _ (by omega)]; exact h2
    · have : i = n := by omega
      subst this
      refine ⟨wa, hstep, ?_, ?_, ?_⟩
      · have := key 0 (by omega); simpa using this
      · have := key 1 (by omega); simpa using this
      · have := key 2 (by omega); simpa using this
  · have hidx : ∀ c, 3 * (n + 1) + 3 + c = 3 * n + (6 + c) := fun c => by ring
    simp only [List.range, List.range.loop, List.map, hidx]
    rw [key _ (by norm_num), key _ (by norm_num), key _ (by norm_num), key _ (by norm_num),
      key _ (by norm_num), key _ (by norm_num), key _ (by norm_num), key _ (by norm_num),
      key _ (by norm_num)]
    rfl
  · intro k hk
    by_cases hlt : k < 3 * (n + 1) + 19
    · obtain ⟨c, rfl⟩ : ∃ c, k = 3 * n + c := ⟨k - 3 * n, by omega⟩
      have hc : c < 22 := by omega
      rw [key c hc]
      simp only [hlt, iff_true]
      interval_cases c <;> rfl
    · rw [frame _ (by omega), hnone _ (by omega)]
      simp [hlt]
  · intro k hk
    exact hnone k (by omega)

/-- C4 at the example scene with two commands: the rollout returns, and from
index 6 on exactly the slots 6 to 24 of its array hold a value. -/
theorem C4_SpeedSim_layout_witness :
    demoScene.vehicles_.at? 0 = some ⟨5, 3, 4, 6⟩ ∧ 1 ≤ 2 ∧
      ∃ states w1, demoRollout 2 = .ok (states, w1) ∧
        ∀ k, 3 * 2 ≤ k → ((states.cells k).isSome ↔ k < 3 * 2 + 19) := by
  obtain ⟨states, w1, h, -, -, hk, -⟩ :=
    C4_SpeedSim_layout demoEngine demoScene 0 ⟨5, 3, 4, 6⟩ demoScene_vehicle
      (demoTriple 0 0 (1 / 2)) demoRotation (demoTriple 1 2 3) demoZeros (fun _ => 7)
      (fun _ => 5) 2 (by decide)
  exact ⟨demoScene_vehicle, by decide, states, w1, h, hk⟩

/-- C5, counterexample: in the rollout of one command in the example scene the
two values written right after the rotation matrix (slots 15 and 16) are 1
and 2, the first two components of the linear velocity, while the motion-state
readout at that moment has the steering value 5 and the engine force 7 in its
entries 0 and 1. -/
theorem C5_SpeedSim_motion_counterexample :
    (demoRollout 1).toOption.map (fun r => (r.1.cells (3 * 1 + 12), r.1.cells (3 * 1 + 13))) =
        some (some 1, some 2) ∧
      (demoMotionState 1 0).toOption.map (fun m => (m.getD 0 0, m.getD 1 0)) = some (5, 7) := by
  decide!

/-- C5, amended: for a registered vehicle and `N ≥ 1` commands, the seven
values `SpeedSim` writes after the rotation matrix (slots `3N+12` to `3N+18`)
are entries 2 to 8 of the motion-state readout taken after the last step: the
linear velocity, the angular velocity and the result of `OnTheGround`.  The
steering value and the engine force (entries 0 and 1) are not written. -/
theorem C5_SpeedSim_motion_values (E : Engine) (w : BulletWorld) (id : Int) (e : Vehicle_Entity)
    (hv : w.vehicles_.at? id = some e)
    (start_pose start_rot start_lin_vel start_ang_vel forces steering_angles : Nat → Scalar)
    (N : Nat) (hN : 1 ≤ N) :
    ∃ states w1 wa ms on_ w3,
      SpeedSim E w id start_pose start_rot start_lin_vel start_ang_vel forces steering_angles N =
        .ok (states, w1) ∧
      SpeedSim_stepped E w id start_pose start_rot start_lin_vel start_ang_vel forces
        steering_angles N (N - 1) = .ok wa ∧
      GetRaycastMotionState E wa id = .ok (ms, w3) ∧
      OnTheGround E wa id = .ok (on_, w3) ∧
      (List.range 7).map (fun c => states.cells (3 * N + 12 + c)) =
        (List.range 7).map (fun c => some (ms.getD (2 + c) 0)) ∧
      (List.range 7).map (fun c => states.cells (3 * N + 12 + c)) =
        [some (wa.dynamics_world_.body e.rigidbody_).m_linearVelocity.x,
         some (wa.dynamics_world_.body e.rigidbody_).m_linearVelocity.y,
         some (wa.dynamics_world_.body e.rigidbody_).m_linearVelocity.z,
         some (wa.dynamics_world_.body e.rigidbody_).m_angularVelocity.x,
         some (wa.dynamics_world_.body e.rigidbody_).m_angularVelocity.y,
         some (wa.dynamics_world_.body e.rigidbody_).m_angularVelocity.z,
         some (on_ : Scalar)] := by
  obtain ⟨n, rfl⟩ : ∃ n, N = n + 1 := ⟨N - 1, by omega⟩
  obtain ⟨wp, bp, wa, ms, w3, states, w6, -, -, -, -, hstep, hva, hms, hst, h6⟩ :=
    SpeedSim_trace E hv start_pose start_rot start_lin_vel start_ang_vel forces
      steering_angles n
  obtain ⟨on_, w4, hon, hms1⟩ := GetRaycastMotionState_ok E hva
  rw [hms] at hms1
  simp only [Except.ok.injEq, Prod.mk.injEq] at hms1
  obtain ⟨hm, rfl⟩ := hms1
  have key : ∀ c, c < 7 → states.cells (3 * n + 15 + c) = some (ms.getD (2 + c) 0) :=
    fun c hc => by rw [hst]; exact SpeedSim_last_motion_cell bp n _ _ ms c hc
  have hidx : ∀ c, 3 * (n + 1) + 12 + c = 3 * n + 15 + c := fun c => by ring
  have h1 : (List.range 7).map (fun c => states.cells (3 * (n + 1) + 12 + c)) =
      (List.range 7).map (fun c => some (ms.getD (2 + c) 0)) := by
    apply List.map_congr_left
    intro c hc
    rw [hidx, key c (List.mem_range.mp hc)]
  refine ⟨states, w6, wa, ms, on_, w3, h6, hstep, hms, hon, h1, ?_⟩
  rw [h1, hm]
  rfl

/-- C5 (amended) at the example scene with one command. -/
theorem C5_SpeedSim_motion_values_witness :
    demoScene.vehicles_.at? 0 = some ⟨5, 3, 4, 6⟩ ∧ 1 ≤ 1 ∧
      ∃ (states : Buffer) (w1 : BulletWorld) (ms : List Scalar),
        demoRollout 1 = .ok (states, w1) ∧
        (List.range 7).map (fun c => states.cells (3 * 1 + 12 + c)) =
          (List.range 7).map (fun c => some (ms.getD (2 + c) 0)) := by
  obtain ⟨states, w1, wa, ms, on_, w3, h, -, -, -, hk, -⟩ :=
    C5_SpeedSim_motion_values demoEngine demoScene 0 ⟨5, 3, 4, 6⟩ demoScene_vehicle
      (demoTriple 0 0 (1 / 2)) demoRotation (demoTriple 1 2 3) demoZeros (fun _ => 7)
      (fun _ => 5) 1 (by decide)
  exact ⟨demoScene_vehicle, by decide, states, w1, ms, h, hk⟩

/-- C6: for a registered vehicle and every `N ≥ 0`, `SpeedSim` completes
without writing outside its array of `3N + 22` slots.  The slots it writes
are, in the order of the writes, `0, ..., 3N-1` (the positions) and then, when
`N ≥ 1`, `3N, ..., 3N+18` (the terminal block); no slot is written twice.
Every position assignment of a pass `i < N` targets an index below `3N` and
every terminal assignment of the last pass an index from `3N` to `3N+18`. -/
theorem C6_SpeedSim_writes_in_bounds (E : Engine) (w : BulletWorld) (id : Int)
    (e : Vehicle_Entity) (hv : w.vehicles_.at? id = some e)
    (start_pose start_rot start_lin_vel start_ang_vel forces steering_angles : Nat → Scalar)
    (N : Nat) :
    ∃ states w1,
      SpeedSim E w id start_pose start_rot start_lin_vel start_ang_vel forces steering_angles N =
        .ok (states, w1) ∧
      states.size = 3 * N + 22 ∧
      (∀ k ∈ states.written, k < states.size) ∧
      states.written =
        List.range (3 * N) ++ (if N = 0 then [] else List.range' (3 * N) 19) ∧
      states.written.Nodup ∧
      (∀ i, i < N → ∀ p, ∀ kv ∈ SpeedSim_position i p, kv.1 < 3 * N) ∧
      (∀ p r m, ∀ kv ∈ SpeedSim_pose (N - 1) p r ++ SpeedSim_motion (N - 1) m,
        1 ≤ N → 3 * N ≤ kv.1 ∧ kv.1 < 3 * N + 19) := by
  obtain ⟨w2, hv2, -, -, -, hfinal⟩ := SpeedSim_run E hv start_pose start_rot start_lin_vel
    start_ang_vel forces steering_angles N
  obtain ⟨w3, states, hl, -, hsize, hwr⟩ :=
    SpeedSim_loop_ok E forces steering_angles N hv2
  obtain ⟨w6, h6, -, -, -⟩ := hfinal _ _ hl
  have hwr1 : states.written = List.range (3 * N) ++
      (if N = 0 then [] else List.range' (3 * N) 19) := by
    rw [hwr]
    by_cases h0 : N = 0
    · subst h0; rfl
    · simp only [h0, if_false]
      rw [List.range_eq_range', List.range_eq_range']
      have h := List.range'_append_1 0 (3 * N) 19
      simp only [Nat.zero_add] at h
      rw [h, Nat.add_comm]
  refine ⟨states, w6, h6, by rw [hsize]; ring, ?_, hwr1, ?_, ?_, ?_⟩
  · intro k hk
    rw [hwr] at hk
    rw [hsize]
    by_cases h0 : N = 0
    · simp [h0] at hk
    · simp only [h0, if_false, List.mem_range] at hk
      omega
  · rw [hwr]
    by_cases h0 : N = 0
    · simp [h0]
    · simp only [h0, if_false]
      exact List.nodup_range _
  · intro i hi p kv hkv
    simp only [SpeedSim_position, List.mem_cons, List.mem_singleton, List.not_mem_nil,
      or_false] at hkv
    rcases hkv with rfl | rfl | rfl <;> simp only <;> omega
  · intro p r m kv hkv hN
    simp only [SpeedSim_pose, SpeedSim_motion, List.mem_append, List.mem_cons,
      List.mem_singleton, List.not_mem_nil, or_false] at hkv
    rcases hkv with (rfl | rfl | rfl | rfl | rfl | rfl | rfl | rfl | rfl | rfl | rfl | rfl) |
      (rfl | rfl | rfl | rfl | rfl | rfl | rfl) <;> simp only <;> omega

/-- C6 at the example scene with two commands: the array has 28 slots and the
writes go to the slots 0 to 24, in this order. -/
theorem C6_SpeedSim_writes_in_bounds_witness :
    demoScene.vehicles_.at? 0 = some ⟨5, 3, 4, 6⟩ ∧
      ∃ (states : Buffer) (w1 : BulletWorld), demoRollout 2 = .ok (states, w1) ∧
        states.size = 3 * 2 + 22 ∧ states.written = List.range 25 := by
  obtain ⟨states, w1, h, hs, -, hw, -⟩ :=
    C6_SpeedSim_writes_in_bounds demoEngine demoScene 0 ⟨5, 3, 4, 6⟩ demoScene_vehicle
      (demoTriple 0 0 (1 / 2)) demoRotation (demoTriple 1 2 3) demoZeros (fun _ => 7)
      (fun _ => 5) 2
  exact ⟨demoScene_vehicle, states, w1, h, hs, hw.trans (by decide)⟩

/-- C7, counterexample: with `command_length = 0` in the example scene the
returned array has 22 slots, not 19, and none of them holds a value: there is
no terminal block in it. -/
theorem C7_SpeedSim_zero_counterexample :
    (demoRollout 0).toOption.map (fun r => (r.1.size, (List.range 22).map r.1.cells)) =
      some (22, List.replicate 22 none) := by
  decide!

/-- C7, amended: for a registered vehicle, `SpeedSim` with
`command_length = 0` makes no `StepSimulation` call, leaves the chassis at the
given start pose with the given velocities, and returns an array of
`3 * 0 + 22 = 22` slots none of which has been written. -/
theorem C7_SpeedSim_zero (E : Engine) (w : BulletWorld) (id : Int) (e : Vehicle_Entity)
    (hv : w.vehicles_.at? id = some e)
    (start_pose start_rot start_lin_vel start_ang_vel forces steering_angles : Nat → Scalar) :
    ∃ states w1,
      SpeedSim E w id start_pose start_rot start_lin_vel start_ang_vel forces steering_angles 0 =
        .ok (states, w1) ∧
      w1.step_count = w.step_count ∧
      w1.ChassisAt e start_pose start_rot start_lin_vel start_ang_vel ∧
      states.size = 22 ∧ states.written = [] ∧ ∀ k, states.cells k = none := by
  obtain ⟨w2, hv2, -, ho2, -, hfinal⟩ := SpeedSim_run E hv start_pose start_rot start_lin_vel
    start_ang_vel forces steering_angles 0
  obtain ⟨w6, h6, hc6, -, ho6⟩ := hfinal w2 (Buffer.new (0 * 3 + 22)) rfl
  exact ⟨_, w6, h6, ho6.2.1.trans ho2.2.1, hc6, rfl, rfl, fun _ => rfl⟩

/-- C7 (amended) at the example scene. -/
theorem C7_SpeedSim_zero_witness :
    demoScene.vehicles_.at? 0 = some ⟨5, 3, 4, 6⟩ ∧
      ∃ (states : Buffer) (w1 : BulletWorld), demoRollout 0 = .ok (states, w1) ∧
        w1.step_count = demoScene.step_count ∧ states.size = 22 := by
  obtain ⟨states, w1, h, hs, -, hz, -⟩ :=
    C7_SpeedSim_zero demoEngine demoScene 0 ⟨5, 3, 4, 6⟩ demoScene_vehicle
      (demoTriple 0 0 (1 / 2)) demoRotation (demoTriple 1 2 3) demoZeros (fun _ => 7)
      (fun _ => 5)
  exact ⟨demoScene_vehicle, states, w1, h, hs, hz⟩

/-- C8: for a registered vehicle, every start state and every command
sequence of length `N ≥ 0`, `SpeedSim` returns with the chassis body of the
vehicle at the given start pose and rotation and with the given linear and
angular velocities, the steering value of wheels 0 and 1 at 0 and the engine
force of wheels 2 and 3 at 0. -/
theorem C8_SpeedSim_restores_vehicle (E : Engine) (w : BulletWorld) (id : Int)
    (e : Vehicle_Entity) (hv : w.vehicles_.at? id = some e)
    (start_pose start_rot start_lin_vel start_ang_vel forces steering_angles : Nat → Scalar)
    (N : Nat) :
    ∃ states w1,
      SpeedSim E w id start_pose start_rot start_lin_vel start_ang_vel forces steering_angles N =
        .ok (states, w1) ∧
      w1.ChassisAt e start_pose start_rot start_lin_vel start_ang_vel ∧ w1.Neutral e := by
  obtain ⟨w2, hv2, -, -, -, hfinal⟩ := SpeedSim_run E hv start_pose start_rot start_lin_vel
    start_ang_vel forces steering_angles N
  obtain ⟨w3, states, hl, -, -, -⟩ :=
    SpeedSim_loop_ok E forces steering_angles N hv2
  obtain ⟨w6, h6, hc6, hn6, -⟩ := hfinal _ _ hl
  exact ⟨states, w6, h6, hc6, hn6⟩

/-- C8 at the example scene with two commands. -/
theorem C8_SpeedSim_restores_vehicle_witness :
    demoScene.vehicles_.at? 0 = some ⟨5, 3, 4, 6⟩ ∧
      ∃ (states : Buffer) (w1 : BulletWorld), demoRollout 2 = .ok (states, w1) ∧
        w1.ChassisAt ⟨5, 3, 4, 6⟩ (demoTriple 0 0 (1 / 2)) demoRotation (demoTriple 1 2 3)
          demoZeros ∧
        w1.Neutral ⟨5, 3, 4, 6⟩ :=
  ⟨demoScene_vehicle,
    C8_SpeedSim_restores_vehicle demoEngine demoScene 0 ⟨5, 3, 4, 6⟩ demoScene_vehicle
      (demoTriple 0 0 (1 / 2)) demoRotation (demoTriple 1 2 3) demoZeros (fun _ => 7)
      (fun _ => 5) 2⟩

/-- C9, counterexample: in the example scene the sphere (shape 0, whose body
is at address 2) is at height 10 before a rollout of vehicle 0 over one
command and at height `44951/4500` after it: the rollout has stepped the
whole world and put back only the vehicle. -/
theorem C9_SpeedSim_side_effect_counterexample :
    demoScene.shapes_.at? 0 = some ⟨2, 0, 1⟩ ∧
      (demoScene.dynamics_world_.body 2).m_worldTransform.m_origin.z = 10 ∧
      (demoRollout 1).toOption.map
        (fun r => (r.2.dynamics_world_.body 2).m_worldTransform.m_origin.z) =
          some (44951 / 4500) := by
  decide!

/-- C9, amended: for a registered vehicle, `SpeedSim` leaves the four entity
tables as they were and makes `N` simulation steps, whose effect on the rest
of the scene it does not undo; with `command_length = 0` everything apart
from the rolled-out vehicle (every other rigid body, every other vehicle,
every joint, the registration lists, gravity and the settings) is in the
state it was in before the call. -/
theorem C9_SpeedSim_side_effects (E : Engine) (w : BulletWorld) (id : Int)
    (e : Vehicle_Entity) (hv : w.vehicles_.at? id = some e)
    (start_pose start_rot start_lin_vel start_ang_vel forces steering_angles : Nat → Scalar) :
    (∀ N, ∃ states w1,
      SpeedSim E w id start_pose start_rot start_lin_vel start_ang_vel forces steering_angles N =
        .ok (states, w1) ∧
      w.SameTables w1 ∧ w1.step_count = w.step_count + N) ∧
    (∃ states w1,
      SpeedSim E w id start_pose start_rot start_lin_vel start_ang_vel forces steering_angles 0 =
        .ok (states, w1) ∧
      w.SameOutside w1 e) := by
  constructor
  · intro N
    obtain ⟨w2, hv2, -, ho2, -, hfinal⟩ := SpeedSim_run E hv start_pose start_rot start_lin_vel
      start_ang_vel forces steering_angles N
    obtain ⟨w3, states, hl, hs3, -, -⟩ :=
      SpeedSim_loop_ok E forces steering_angles N hv2
    obtain ⟨w6, h6, -, -, ho6⟩ := hfinal _ _ hl
    refine ⟨states, w6, h6, SpeedSim_tables h6, ?_⟩
    rw [ho6.2.1, hs3, ho2.2.1]
  · obtain ⟨w2, hv2, -, ho2, -, hfinal⟩ := SpeedSim_run E hv start_pose start_rot start_lin_vel
      start_ang_vel forces steering_angles 0
    obtain ⟨w6, h6, -, -, ho6⟩ := hfinal w2 (Buffer.new (0 * 3 + 22)) rfl
    exact ⟨_, w6, h6, ho2.then_outside ho6⟩

/-- C9 (amended) at the example scene: after a rollout over no command the
sphere is where it was. -/
theorem C9_SpeedSim_side_effects_witness :
    demoScene.vehicles_.at? 0 = some ⟨5, 3, 4, 6⟩ ∧
      ∃ (states : Buffer) (w1 : BulletWorld), demoRollout 0 = .ok (states, w1) ∧
        w1.dynamics_world_.body 2 = demoScene.dynamics_world_.body 2 := by
  obtain ⟨states, w1, h, ho⟩ :=
    (C9_SpeedSim_side_effects demoEngine demoScene 0 ⟨5, 3, 4, 6⟩ demoScene_vehicle
      (demoTriple 0 0 (1 / 2)) demoRotation (demoTriple 1 2 3) demoZeros (fun _ => 7)
      (fun _ => 5)).2
  exact ⟨demoScene_vehicle, states, w1, h, ho.2.2.2.2.2.2.1 2 (by decide)⟩

/-! ## Joint builders (C10, C11, C12, C15) -/

theorem jointScene_reachable : Reachable demoEngine jointScene :=
  Steps.call (Call.AddCube 1 1 1 1 0 (demoTriple 2 0 10) demoRotation) 0 demoScene_reachable rfl

theorem AddConstraintToWorld_stack_enters {w : BulletWorld} (hd : w.constraints_.Dense)
    (c : btTypedConstraint) :
    w.EntersJoint (leaveBuilder w.heap_top (AddConstraintToWorld_stack w c)) := by
  refine ⟨rfl, hd.size_assign _, ?_, ?_, rfl, w.heap_top, ?_, rfl⟩
  · intro k v hk
    exact Table.Grows.at?_eq (Or.inr ⟨_, rfl⟩) hd hk
  · intro k hk
    simp only [leaveBuilder, AddConstraintToWorld_stack, AddConstraintToWorld,
      Table.at?_assign] at hk
    by_cases e : (w.constraints_.size : Int) = k
    · exact Or.inl e.symm
    · simp only [e, if_false] at hk
      exact Or.inr hk
  · simp [leaveBuilder, AddConstraintToWorld_stack, AddConstraintToWorld, Table.at?_assign]

theorem AddConstraintToWorld_stack_joint (w : BulletWorld) (c : btTypedConstraint) :
    (AddConstraintToWorld_stack w c).2.jointOf (AddConstraintToWorld_stack w c).1 = some c ∧
    (leaveBuilder w.heap_top (AddConstraintToWorld_stack w c)).2.jointOf
      (leaveBuilder w.heap_top (AddConstraintToWorld_stack w c)).1 = none ∧
    (AddConstraintToWorld_stack w c).2.constraints_.at? (AddConstraintToWorld_stack w c).1 =
      some w.heap_top ∧
    w.heap_top ∈ (AddConstraintToWorld_stack w c).2.dynamics_world_.m_constraints := by
  refine ⟨?_, ?_, ?_, ?_⟩
  · simp [BulletWorld.jointOf, AddConstraintToWorld_stack, AddConstraintToWorld,
      Table.at?_assign, btDiscreteDynamicsWorld.addConstraint, btDiscreteDynamicsWorld.setJoint]
  · simp [BulletWorld.jointOf, leaveBuilder, AddConstraintToWorld_stack, AddConstraintToWorld,
      Table.at?_assign, btDiscreteDynamicsWorld.addConstraint, btDiscreteDynamicsWorld.setJoint]
  · simp [AddConstraintToWorld_stack, AddConstraintToWorld, Table.at?_assign]
  · simp [AddConstraintToWorld_stack, AddConstraintToWorld,
      btDiscreteDynamicsWorld.addConstraint, btDiscreteDynamicsWorld.setJoint]

/-! ### Bullet's normalisation within a half turn -/

theorem truncToInt_small {q : Scalar} (h1 : -1 < q) (h2 : q < 1) : truncToInt q = 0 := by
  unfold truncToInt
  have hd : (0 : Int) < (q.den : Int) := by exact_mod_cast q.den_pos
  have hq : q = (q.num : ℚ) / (q.den : ℚ) := (Rat.num_div_den q).symm
  have hdq : (0 : ℚ) < (q.den : ℚ) := by exact_mod_cast q.den_pos
  have hu : q.num < (q.den : Int) := by
    have : (q.num : ℚ) < (q.den : ℚ) := by
      rw [hq, div_lt_one hdq] at h2; exact h2
    exact_mod_cast this
  have hl : -(q.den : Int) < q.num := by
    have : -(q.den : ℚ) < (q.num : ℚ) := by
      rw [hq, lt_div_iff₀ hdq] at h1; linarith
    exact_mod_cast this
  rcases le_or_lt 0 q.num with h | h
  · exact Int.tdiv_eq_zero_of_lt h hu
  · have : (-q.num).tdiv (q.den : Int) = 0 := Int.tdiv_eq_zero_of_lt (by omega) (by omega)
    rw [Int.neg_tdiv] at this
    omega

theorem demoNormalizeAngle_half_turn {a : Scalar} (h1 : -SIMD_PI ≤ a) (h2 : a ≤ SIMD_PI) :
    demoNormalizeAngle a = a := by
  have hp : (0 : Scalar) < SIMD_PI := by decide!
  have ht : truncToInt (a / (2 * SIMD_PI)) = 0 := by
    apply truncToInt_small
    · rw [lt_div_iff₀ (by linarith)]; linarith
    · rw [div_lt_one (by linarith)]; linarith
  unfold demoNormalizeAngle
  simp only [ht, Int.cast_zero, zero_mul, sub_zero]
  rw [if_neg (by linarith), if_neg (by linarith)]

/-- C10 fails on the code for an angle outside a half turn: `Hinge2` called
on shapes 0 and 1 of the scene with two shapes and `steering_angle = 4`
registers a joint whose upper and lower steering limits are both `4 - 2π`,
the angle as Bullet's setters store it, and not 4. -/
theorem C10_Hinge2_limits_counterexample :
    jointScene.shapes_.at? 0 = some ⟨2, 0, 1⟩ ∧ jointScene.shapes_.at? 1 = some ⟨9, 7, 8⟩ ∧
      ((Hinge2_body demoEngine jointScene 0 1 demoZeros (demoTriple 0 0 1) (demoTriple 1 0 0)
          2 3 4).toOption.bind
        fun r => (r.2.jointOf r.1).bind btTypedConstraint.steeringLimits) =
        some (some (4 - 2 * SIMD_PI), some (4 - 2 * SIMD_PI)) ∧
      (4 - 2 * SIMD_PI : Scalar) ≠ 4 := by
  decide!

/-- C10, amended: `Hinge2` called on two registered shapes with
`steering_angle = θ` completes, and the joint it has built stands registered,
under the id returned and in the constraint list of the dynamics world, with
its upper and lower steering limits both equal to `btNormalizeAngle(θ)`, the
angle as Bullet stores it, hence both equal to `θ` when the normalisation
leaves `θ` as it is; its spring on degree of freedom 3 is enabled with the
caller's stiffness and damping. -/
theorem C10_Hinge2_limits (E : Engine) (w : BulletWorld) (id_A id_B : Int)
    (Shape_A Shape_B : Shape_Entity)
    (hA : w.shapes_.at? id_A = some Shape_A) (hB : w.shapes_.at? id_B = some Shape_B)
    (Anchor Axis_1 Axis_2 : Nat → Scalar) (damping stiffness steering_angle : Scalar) :
    ∃ id wr w1 addr c,
      Hinge2_body E w id_A id_B Anchor Axis_1 Axis_2 damping stiffness steering_angle =
        .ok (id, wr) ∧
      Hinge2 E w id_A id_B Anchor Axis_1 Axis_2 damping stiffness steering_angle =
        .ok (id, w1) ∧
      wr.constraints_.at? id = some addr ∧
      addr ∈ wr.dynamics_world_.m_constraints ∧
      wr.jointOf id = some (btTypedConstraint.hinge2 c) ∧
      c.m_rbA = Shape_A.rigidbody_ ∧ c.m_rbB = Shape_B.rigidbody_ ∧
      c.m_upperLimit = some (E.btNormalizeAngle steering_angle) ∧
      c.m_lowerLimit = some (E.btNormalizeAngle steering_angle) ∧
      (E.btNormalizeAngle steering_angle = steering_angle →
        c.m_upperLimit = some steering_angle ∧ c.m_lowerLimit = some steering_angle) ∧
      c.m_springEnabled 3 = true ∧ c.m_springStiffness 3 = some stiffness ∧
      c.m_springDamping 3 = some damping := by
  have hb : ∃ c : btHinge2Constraint,
      Hinge2_body E w id_A id_B Anchor Axis_1 Axis_2 damping stiffness steering_angle =
        .ok (AddConstraintToWorld_stack w (btTypedConstraint.hinge2 c)) ∧
      c.m_rbA = Shape_A.rigidbody_ ∧ c.m_rbB = Shape_B.rigidbody_ ∧
      c.m_upperLimit = some (E.btNormalizeAngle steering_angle) ∧
      c.m_lowerLimit = some (E.btNormalizeAngle steering_angle) ∧
      c.m_springEnabled 3 = true ∧ c.m_springStiffness 3 = some stiffness ∧
      c.m_springDamping 3 = some damping := by
    simp only [Hinge2_body, hA, hB]
    refine ⟨_, rfl, rfl, rfl, rfl, rfl, ?_, ?_, ?_⟩ <;>
      simp [btHinge2Constraint.new, btHinge2Constraint.setUpperLimit,
        btHinge2Constraint.setLowerLimit, btHinge2Constraint.enableSpring,
        btHinge2Constraint.setStiffness, btHinge2Constraint.setDamping]
  obtain ⟨c, hc, h1, h2, h3, h4, h5, h6, h7⟩ := hb
  obtain ⟨j1, -, j3, j4⟩ := AddConstraintToWorld_stack_joint w (btTypedConstraint.hinge2 c)
  refine ⟨(AddConstraintToWorld_stack w (btTypedConstraint.hinge2 c)).1,
    (AddConstraintToWorld_stack w (btTypedConstraint.hinge2 c)).2,
    (leaveBuilder w.heap_top (AddConstraintToWorld_stack w (btTypedConstraint.hinge2 c))).2,
    w.heap_top, c, hc, ?_, j3, j4, j1, h1, h2, h3, h4, ?_, h5, h6, h7⟩
  · simp only [Hinge2, hc]
    rfl
  · intro hn
    rw [h3, h4, hn]
    exact ⟨rfl, rfl⟩

/-- C10, amended, at the scene with two shapes: a Hinge2 joint between shapes
0 and 1 with steering angle `1/4`, which lies within a half turn, is
registered with both limits at `1/4`. -/
theorem C10_Hinge2_limits_witness :
    jointScene.shapes_.at? 0 = some ⟨2, 0, 1⟩ ∧ jointScene.shapes_.at? 1 = some ⟨9, 7, 8⟩ ∧
      ∃ (id : Int) (wr : BulletWorld) (c : btHinge2Constraint),
        Hinge2_body demoEngine jointScene 0 1 demoZeros (demoTriple 0 0 1) (demoTriple 1 0 0)
          2 3 (1 / 4) = .ok (id, wr) ∧
        wr.jointOf id = some (btTypedConstraint.hinge2 c) ∧
        c.m_upperLimit = some (1 / 4) ∧ c.m_lowerLimit = some (1 / 4) := by
  have h0 : jointScene.shapes_.at? 0 = some ⟨2, 0, 1⟩ := by decide
  have h1 : jointScene.shapes_.at? 1 = some ⟨9, 7, 8⟩ := by decide
  have hn : demoEngine.btNormalizeAngle (1 / 4) = 1 / 4 := by decide!
  obtain ⟨id, wr, w1, addr, c, h, -, -, -, hj, -, -, -, -, hl, -⟩ :=
    C10_Hinge2_limits demoEngine jointScene 0 1 ⟨2, 0, 1⟩ ⟨9, 7, 8⟩ h0 h1 demoZeros
      (demoTriple 0 0 1) (demoTriple 1 0 0) 2 3 (1 / 4)
  exact ⟨h0, h1, id, wr, c, h, hj, (hl hn).1, (hl hn).2⟩

/-- C11: in a world reached through the public interface, every call of a
joint builder that completes (`PointToPoint_one`, `PointToPoint_two`,
`Hinge_one_pivot`, `Hinge_two_pivot`, `Hinge2`, `SixDOF_one`) enters exactly
one entry into the constraint table, appends exactly that constraint to the
constraint list of the dynamics world and returns the entry's id; a call of
`Hinge_one_transform` or `Hinge_two_transform` that completes returns 0 and
leaves the world as it was; and on registered shapes all eight complete. -/
theorem C11_joint_builders_register_once (E : Engine) (w : BulletWorld) (hw : Reachable E w) :
    (∀ id_A p r, PointToPoint_one w id_A p = .ok r → w.EntersJoint r) ∧
    (∀ id_A id_B p q r, PointToPoint_two w id_A id_B p q = .ok r → w.EntersJoint r) ∧
    (∀ id_A p a l r, Hinge_one_pivot w id_A p a l = .ok r → w.EntersJoint r) ∧
    (∀ id_A id_B p q a b l r,
      Hinge_two_pivot w id_A id_B p q a b l = .ok r → w.EntersJoint r) ∧
    (∀ id_A id_B p a b damping stiffness steering_angle r,
      Hinge2 E w id_A id_B p a b damping stiffness steering_angle = .ok r → w.EntersJoint r) ∧
    (∀ id_A t l r, SixDOF_one E w id_A t l = .ok r → w.EntersJoint r) ∧
    (∀ id_A t l r, Hinge_one_transform w id_A t l = .ok r → r = (0, w)) ∧
    (∀ id_A id_B t u l r, Hinge_two_transform w id_A id_B t u l = .ok r → r = (0, w)) ∧
    (∀ id_A id_B Shape_A Shape_B, w.shapes_.at? id_A = some Shape_A →
      w.shapes_.at? id_B = some Shape_B →
      (∀ p, ∃ r, PointToPoint_one w id_A p = .ok r) ∧
      (∀ p q, ∃ r, PointToPoint_two w id_A id_B p q = .ok r) ∧
      (∀ p a l, ∃ r, Hinge_one_pivot w id_A p a l = .ok r) ∧
      (∀ p q a b l, ∃ r, Hinge_two_pivot w id_A id_B p q a b l = .ok r) ∧
      (∀ p a b damping stiffness steering_angle,
        ∃ r, Hinge2 E w id_A id_B p a b damping stiffness steering_angle = .ok r) ∧
      (∀ t l, ∃ r, SixDOF_one E w id_A t l = .ok r) ∧
      (∀ t l, Hinge_one_transform w id_A t l = .ok (0, w)) ∧
      (∀ t u l, Hinge_two_transform w id_A id_B t u l = .ok (0, w))) := by
  have hd := hw.tables_dense.2.1
  refine ⟨?_, ?_, ?_, ?_, ?_, ?_, ?_, ?_, ?_⟩
  · intro id_A p r h
    obtain ⟨c, rfl⟩ := PointToPoint_one_adds h
    exact AddConstraintToWorld_stack_enters hd c
  · intro id_A id_B p q r h
    obtain ⟨c, rfl⟩ := PointToPoint_two_adds h
    exact AddConstraintToWorld_stack_enters hd c
  · intro id_A p a l r h
    obtain ⟨c, rfl⟩ := Hinge_one_pivot_adds h
    exact AddConstraintToWorld_stack_enters hd c
  · intro id_A id_B p q a b l r h
    obtain ⟨c, rfl⟩ := Hinge_two_pivot_adds h
    exact AddConstraintToWorld_stack_enters hd c
  · intro id_A id_B p a b damping stiffness steering_angle r h
    obtain ⟨c, rfl⟩ := Hinge2_adds h
    exact AddConstraintToWorld_stack_enters hd c
  · intro id_A t l r h
    obtain ⟨c, rfl⟩ := SixDOF_one_adds h
    exact AddConstraintToWorld_stack_enters hd c
  · intro id_A t l r h
    exact Hinge_one_transform_same h
  · intro id_A id_B t u l r h
    exact Hinge_two_transform_same h
  · intro id_A id_B Shape_A Shape_B hA hB
    refine ⟨?_, ?_, ?_, ?_, ?_, ?_, ?_, ?_⟩
    · intro p; simp only [PointToPoint_one, PointToPoint_one_body, hA]; exact ⟨_, rfl⟩
    · intro p q; simp only [PointToPoint_two, PointToPoint_two_body, hA, hB]; exact ⟨_, rfl⟩
    · intro p a l; simp only [Hinge_one_pivot, Hinge_one_pivot_body, hA]; exact ⟨_, rfl⟩
    · intro p q a b l; simp only [Hinge_two_pivot, Hinge_two_pivot_body, hA, hB]
      exact ⟨_, rfl⟩
    · intro p a b damping stiffness steering_angle
      simp only [Hinge2, Hinge2_body, hA, hB]
      exact ⟨_, rfl⟩
    · intro t l; simp only [SixDOF_one, SixDOF_one_body, hA]; exact ⟨_, rfl⟩
    · intro t l; simp only [Hinge_one_transform, hA]
    · intro t u l; simp only [Hinge_two_transform, hA, hB]

/-- C11 at the scene with two shapes: a Hinge2 joint between shapes 0 and 1
is entered once, under the id 0, and `Hinge_one_transform` returns 0 and
changes nothing. -/
theorem C11_joint_builders_register_once_witness :
    Reachable demoEngine jointScene ∧
      (∃ r, Hinge2 demoEngine jointScene 0 1 demoZeros (demoTriple 0 0 1) (demoTriple 1 0 0)
          2 3 (1 / 4) = .ok r ∧ jointScene.EntersJoint r ∧ r.1 = 0) ∧
      Hinge_one_transform jointScene 0 demoZeros demoZeros = .ok (0, jointScene) := by
  have h := C11_joint_builders_register_once demoEngine jointScene jointScene_reachable
  have h0 : jointScene.shapes_.at? 0 = some ⟨2, 0, 1⟩ := by decide
  have h1 : jointScene.shapes_.at? 1 = some ⟨9, 7, 8⟩ := by decide
  obtain ⟨-, -, -, -, hH, -, -, -, hok⟩ := h
  obtain ⟨-, -, -, -, hH2, -, hT, -⟩ := hok 0 1 _ _ h0 h1
  obtain ⟨r, hr⟩ := hH2 demoZeros (demoTriple 0 0 1) (demoTriple 1 0 0) 2 3 (1 / 4)
  have he := hH _ _ _ _ _ _ _ _ r hr
  exact ⟨jointScene_reachable, ⟨r, hr, he, he.1.trans (by decide)⟩, hT demoZeros demoZeros⟩

/-- C15 fails on the code: `SixDOF_one` called on shape 0 of the scene with
two shapes with the limits `0, 1, ..., 11`.  The joint it registers reports
the linear limits as given but the angular limits `6, ..., 11` less one or two
whole turns, as Bullet's setters store them, so the twelve values read back
are not the original ones; and once `SixDOF_one` has returned, the handle
entered under the id it returned leads to no joint object at all, the builder's
local being gone. -/
theorem C15_SixDOF_round_trip_counterexample :
    jointScene.shapes_.at? 0 = some ⟨2, 0, 1⟩ ∧
      ((SixDOF_one_body demoEngine jointScene 0 demoZeros (fun i => (i : Scalar))).toOption.bind
        fun r => (r.2.jointOf r.1).bind btTypedConstraint.sixDofLimits) =
        some [0, 1, 2, 3, 4, 5, 6 - 2 * SIMD_PI, 7 - 2 * SIMD_PI, 8 - 2 * SIMD_PI,
          9 - 2 * SIMD_PI, 10 - 4 * SIMD_PI, 11 - 4 * SIMD_PI] ∧
      ([0, 1, 2, 3, 4, 5, 6 - 2 * SIMD_PI, 7 - 2 * SIMD_PI, 8 - 2 * SIMD_PI,
          9 - 2 * SIMD_PI, 10 - 4 * SIMD_PI, 11 - 4 * SIMD_PI] : List Scalar) ≠
        (List.range 12).map (fun i => (i : Scalar)) ∧
      ((SixDOF_one demoEngine jointScene 0 demoZeros (fun i => (i : Scalar))).toOption.map
        fun r => (r.2.jointOf r.1).isSome) = some false := by
  decide!

/-- C15, amended: `SixDOF_one` on a registered shape completes, and the
six-DOF joint it has built stands registered under the id returned with
linear upper limit `limits[0..2]` and linear lower limit `limits[3..5]`, stored
as given, and with angular upper limit `limits[6..8]` and angular lower limit
`limits[9..11]`, each component as Bullet stores it, `btNormalizeAngle` of the
value; so the twelve values the registered joint reports are the original
ones whenever the normalisation leaves the six angular values as they are. -/
theorem C15_SixDOF_limits_registered (E : Engine) (w : BulletWorld) (id_A : Int)
    (Shape_A : Shape_Entity) (hA : w.shapes_.at? id_A = some Shape_A)
    (transform_A limits : Nat → Scalar) :
    ∃ id wr w1 c,
      SixDOF_one_body E w id_A transform_A limits = .ok (id, wr) ∧
      SixDOF_one E w id_A transform_A limits = .ok (id, w1) ∧
      wr.jointOf id = some (btTypedConstraint.generic6Dof c) ∧
      c.m_rbA = Shape_A.rigidbody_ ∧
      c.m_linearUpperLimit = some ⟨limits 0, limits 1, limits 2⟩ ∧
      c.m_linearLowerLimit = some ⟨limits 3, limits 4, limits 5⟩ ∧
      c.m_angularUpperLimit = some ⟨E.btNormalizeAngle (limits 6),
        E.btNormalizeAngle (limits 7), E.btNormalizeAngle (limits 8)⟩ ∧
      c.m_angularLowerLimit = some ⟨E.btNormalizeAngle (limits 9),
        E.btNormalizeAngle (limits 10), E.btNormalizeAngle (limits 11)⟩ ∧
      ((∀ i, 6 ≤ i → i < 12 → E.btNormalizeAngle (limits i) = limits i) →
        c.limits = some ((List.range 12).map limits)) := by
  have hb : ∃ c : btGeneric6DofConstraint,
      SixDOF_one_body E w id_A transform_A limits =
        .ok (AddConstraintToWorld_stack w (btTypedConstraint.generic6Dof c)) ∧
      c.m_rbA = Shape_A.rigidbody_ ∧
      c.m_linearUpperLimit = some ⟨limits 0, limits 1, limits 2⟩ ∧
      c.m_linearLowerLimit = some ⟨limits 3, limits 4, limits 5⟩ ∧
      c.m_angularUpperLimit = some ⟨E.btNormalizeAngle (limits 6),
        E.btNormalizeAngle (limits 7), E.btNormalizeAngle (limits 8)⟩ ∧
      c.m_angularLowerLimit = some ⟨E.btNormalizeAngle (limits 9),
        E.btNormalizeAngle (limits 10), E.btNormalizeAngle (limits 11)⟩ := by
    simp only [SixDOF_one_body, hA]
    exact ⟨_, rfl, rfl, rfl, rfl, rfl, rfl⟩
  obtain ⟨c, hc, h1, h2, h3, h4, h5⟩ := hb
  obtain ⟨j1, -, -, -⟩ := AddConstraintToWorld_stack_joint w (btTypedConstraint.generic6Dof c)
  refine ⟨(AddConstraintToWorld_stack w (btTypedConstraint.generic6Dof c)).1,
    (AddConstraintToWorld_stack w (btTypedConstraint.generic6Dof c)).2,
    (leaveBuilder w.heap_top
      (AddConstraintToWorld_stack w (btTypedConstraint.generic6Dof c))).2,
    c, hc, ?_, j1, h1, h2, h3, h4, h5, ?_⟩
  · simp only [SixDOF_one, hc]
    rfl
  · intro hn
    simp only [btGeneric6DofConstraint.limits, h2, h3, h4, h5]
    rw [hn 6 (by omega) (by omega), hn 7 (by omega) (by omega), hn 8 (by omega) (by omega),
      hn 9 (by omega) (by omega), hn 10 (by omega) (by omega), hn 11 (by omega) (by omega)]
    rfl

/-- C15, amended, at the scene with two shapes: a six-DOF joint on shape 0
with the limits `0, 1/12, ..., 11/12`, all within a half turn, reports these
twelve values when it is registered. -/
theorem C15_SixDOF_limits_registered_witness :
    jointScene.shapes_.at? 0 = some ⟨2, 0, 1⟩ ∧
      ∃ (id : Int) (wr : BulletWorld) (c : btGeneric6DofConstraint),
        SixDOF_one_body demoEngine jointScene 0 demoZeros (fun i => (i : Scalar) / 12) =
          .ok (id, wr) ∧
        wr.jointOf id = some (btTypedConstraint.generic6Dof c) ∧
        c.limits = some ((List.range 12).map (fun i => (i : Scalar) / 12)) := by
  have h0 : jointScene.shapes_.at? 0 = some ⟨2, 0, 1⟩ := by decide
  have hn : ∀ i : Nat, 6 ≤ i → i < 12 →
      demoEngine.btNormalizeAngle ((i : Scalar) / 12) = (i : Scalar) / 12 := by
    intro i h6 h12
    interval_cases i <;> decide!
  obtain ⟨id, wr, w1, c, h, -, hj, -, -, -, -, -, hl⟩ :=
    C15_SixDOF_limits_registered demoEngine jointScene 0 ⟨2, 0, 1⟩ h0 demoZeros
      (fun i => (i : Scalar) / 12)
  exact ⟨h0, id, wr, c, h, hj, hl hn⟩

/-! ## Commands and poses of a raycast vehicle (C16 to C18) -/

/-- C16: for a vehicle id in the vehicle table, `CommandRaycastVehicle(id, s,
f)` completes; afterwards the steering value of wheels 0 and 1 is `s` and the
engine force of wheels 2 and 3 is `f`, the steering value of wheels 2 and 3
and the engine force of wheels 0 and 1 are what they were, and
`GetRaycastMotionState(id)` called next returns nine values, `s` in entry 0
and `f` in entry 1. -/
theorem C16_CommandRaycastVehicle_wheels (E : Engine) (w : BulletWorld) (id : Int)
    (e : Vehicle_Entity) (hv : w.vehicles_.at? id = some e) (s f : Scalar) :
    ∃ w1, CommandRaycastVehicle w id s f = .ok w1 ∧
      ((w1.dynamics_world_.vehicle e.vehicle_).m_wheelInfo 0).m_steering = s ∧
      ((w1.dynamics_world_.vehicle e.vehicle_).m_wheelInfo 1).m_steering = s ∧
      ((w1.dynamics_world_.vehicle e.vehicle_).m_wheelInfo 2).m_engineForce = f ∧
      ((w1.dynamics_world_.vehicle e.vehicle_).m_wheelInfo 3).m_engineForce = f ∧
      ((w1.dynamics_world_.vehicle e.vehicle_).m_wheelInfo 2).m_steering =
        ((w.dynamics_world_.vehicle e.vehicle_).m_wheelInfo 2).m_steering ∧
      ((w1.dynamics_world_.vehicle e.vehicle_).m_wheelInfo 3).m_steering =
        ((w.dynamics_world_.vehicle e.vehicle_).m_wheelInfo 3).m_steering ∧
      ((w1.dynamics_world_.vehicle e.vehicle_).m_wheelInfo 0).m_engineForce =
        ((w.dynamics_world_.vehicle e.vehicle_).m_wheelInfo 0).m_engineForce ∧
      ((w1.dynamics_world_.vehicle e.vehicle_).m_wheelInfo 1).m_engineForce =
        ((w.dynamics_world_.vehicle e.vehicle_).m_wheelInfo 1).m_engineForce ∧
      ∃ pose w2, GetRaycastMotionState E w1 id = .ok (pose, w2) ∧ pose.length = 9 ∧
        pose.get? 0 = some s ∧ pose.get? 1 = some f := by
  have hv1 : ({ w with
      dynamics_world_ := w.dynamics_world_.setVehicle e.vehicle_
        (((((w.dynamics_world_.vehicle e.vehicle_).setSteeringValue s 0).setSteeringValue
          s 1).applyEngineForce f 2).applyEngineForce f 3) } : BulletWorld).vehicles_.at? id =
      some e := hv
  obtain ⟨on_, w2, -, hm⟩ := GetRaycastMotionState_ok E hv1
  refine ⟨_, CommandRaycastVehicle_ok hv s f, ?_, ?_, ?_, ?_, ?_, ?_, ?_, ?_, _, w2, hm, rfl, ?_, ?_⟩
  all_goals
    simp [btDiscreteDynamicsWorld.setVehicle, btRaycastVehicle.setSteeringValue,
      btRaycastVehicle.applyEngineForce, btRaycastVehicle.getSteeringValue, Function.update]

/-- C16 at the example scene: vehicle 0 commanded with steering value 5 and
engine force 7 reports 5 and 7 in entries 0 and 1 of its motion state. -/
theorem C16_CommandRaycastVehicle_wheels_witness :
    demoScene.vehicles_.at? 0 = some ⟨5, 3, 4, 6⟩ ∧
      ∃ w1, CommandRaycastVehicle demoScene 0 5 7 = .ok w1 ∧
        ∃ pose w2, GetRaycastMotionState demoEngine w1 0 = .ok (pose, w2) ∧
          pose.get? 0 = some 5 ∧ pose.get? 1 = some 7 := by
  obtain ⟨w1, h, -, -, -, -, -, -, -, -, pose, w2, hp, -, h0, h1⟩ :=
    C16_CommandRaycastVehicle_wheels demoEngine demoScene 0 ⟨5, 3, 4, 6⟩ demoScene_vehicle 5 7
  exact ⟨demoScene_vehicle, w1, h, pose, w2, hp, h0, h1⟩

/-! ## Reading a vehicle's transforms -/

theorem poseValues_length (t : btTransform) : (poseValues t).length = 12 := rfl

theorem GetVehiclePoses_refreshed_wheels (E : Engine) (Vehicle : Nat) (hE : E.KeepsWheels Vehicle)
    (d : btDiscreteDynamicsWorld) (i : Nat) :
    ((GetVehiclePoses_refreshed E Vehicle d i).vehicle Vehicle).numWheels =
      (d.vehicle Vehicle).numWheels := by
  induction i with
  | zero => rfl
  | succ i ih => exact (hE _ i).trans ih

theorem GetVehicleTransform_run (E : Engine) {w : BulletWorld} {id : Int} {e : Vehicle_Entity}
    (hv : w.vehicles_.at? id = some e) (hE : E.KeepsWheels e.vehicle_)
    (h4 : (w.dynamics_world_.vehicle e.vehicle_).numWheels = 4) {fuel : Nat} (hf : 4 ≤ fuel) :
    GetVehicleTransform E fuel w id = .ok
      (poseValues (w.dynamics_world_.getChassisWorldTransform e.vehicle_) ++
        (poseValues (((GetVehiclePoses_refreshed E e.vehicle_ w.dynamics_world_ 1).vehicle
            e.vehicle_).m_wheelInfo 0).m_worldTransform ++
        (poseValues (((GetVehiclePoses_refreshed E e.vehicle_ w.dynamics_world_ 2).vehicle
            e.vehicle_).m_wheelInfo 1).m_worldTransform ++
        (poseValues (((GetVehiclePoses_refreshed E e.vehicle_ w.dynamics_world_ 3).vehicle
            e.vehicle_).m_wheelInfo 2).m_worldTransform ++
        (poseValues (((GetVehiclePoses_refreshed E e.vehicle_ w.dynamics_world_ 4).vehicle
            e.vehicle_).m_wheelInfo 3).m_worldTransform ++ [])))),
       { w with dynamics_world_ := GetVehiclePoses_refreshed E e.vehicle_ w.dynamics_world_ 4 }) := by
  obtain ⟨k, rfl⟩ : ∃ k, fuel = k + 4 := ⟨fuel - 4, by omega⟩
  have n0 := GetVehiclePoses_refreshed_wheels E e.vehicle_ hE w.dynamics_world_ 0
  have n1 := GetVehiclePoses_refreshed_wheels E e.vehicle_ hE w.dynamics_world_ 1
  have n2 := GetVehiclePoses_refreshed_wheels E e.vehicle_ hE w.dynamics_world_ 2
  have n3 := GetVehiclePoses_refreshed_wheels E e.vehicle_ hE w.dynamics_world_ 3
  have n4 := GetVehiclePoses_refreshed_wheels E e.vehicle_ hE w.dynamics_world_ 4
  rw [h4] at n0 n1 n2 n3 n4
  simp only [GetVehiclePoses_refreshed] at n0 n1 n2 n3 n4 ⊢
  have hw : ∀ (l : List btTransform),
      GetVehiclePoses_wheels E e.vehicle_ k 4 l
        (E.updateWheelTransform (E.updateWheelTransform (E.updateWheelTransform
          (E.updateWheelTransform w.dynamics_world_ e.vehicle_ 0 false) e.vehicle_ 1 false)
          e.vehicle_ 2 false) e.vehicle_ 3 false) =
      .ok (l, E.updateWheelTransform (E.updateWheelTransform (E.updateWheelTransform
          (E.updateWheelTransform w.dynamics_world_ e.vehicle_ 0 false) e.vehicle_ 1 false)
          e.vehicle_ 2 false) e.vehicle_ 3 false) := by
    intro l
    cases k <;> simp [GetVehiclePoses_wheels, n4]
  simp only [GetVehicleTransform, hv, GetVehiclePoses, GetVehiclePoses_wheels, n0, n1, n2, n3,
    hw, Nat.lt_irrefl, if_true, if_false, Nat.reduceLT, Nat.reduceAdd, List.nil_append,
    List.cons_append, GetVehicleTransform_pack, List.get?]

/-- C17: for a vehicle with exactly 4 wheels (a number the engine keeps when
it refreshes a wheel), `GetVehicleTransform` completes, with no access out of
range, and returns 60 values: the 12 values of the chassis transform, then
those of wheels 0, 1, 2, 3 in this order, wheel `i` being read in the world
in which the transforms of wheels `0, ..., i` have just been refreshed; the 12
values of a transform are its position and then its rotation column by
column. -/
theorem C17_GetVehicleTransform_layout (E : Engine) (w : BulletWorld) (id : Int)
    (e : Vehicle_Entity) (hv : w.vehicles_.at? id = some e) (hE : E.KeepsWheels e.vehicle_)
    (h4 : (w.dynamics_world_.vehicle e.vehicle_).numWheels = 4) (fuel : Nat) (hf : 4 ≤ fuel) :
    ∃ pose,
      GetVehicleTransform E fuel w id = .ok (pose,
        { w with dynamics_world_ := GetVehiclePoses_refreshed E e.vehicle_ w.dynamics_world_ 4 }) ∧
      pose.length = 60 ∧
      pose.take 12 = poseValues (w.dynamics_world_.getChassisWorldTransform e.vehicle_) ∧
      (∀ i, i < 4 → (pose.drop (12 * (i + 1))).take 12 =
        poseValues (((GetVehiclePoses_refreshed E e.vehicle_ w.dynamics_world_ (i + 1)).vehicle
          e.vehicle_).m_wheelInfo i).m_worldTransform) ∧
      (∀ i, GetVehiclePoses_refreshed E e.vehicle_ w.dynamics_world_ (i + 1) =
        E.updateWheelTransform (GetVehiclePoses_refreshed E e.vehicle_ w.dynamics_world_ i)
          e.vehicle_ i false) ∧
      ∀ t : btTransform, poseValues t =
        [t.m_origin.x, t.m_origin.y, t.m_origin.z,
         t.m_basis.row0.x, t.m_basis.row1.x, t.m_basis.row2.x,
         t.m_basis.row0.y, t.m_basis.row1.y, t.m_basis.row2.y,
         t.m_basis.row0.z, t.m_basis.row1.z, t.m_basis.row2.z] := by
  refine ⟨_, GetVehicleTransform_run E hv hE h4 hf, ?_, ?_, ?_, fun _ => rfl, fun _ => rfl⟩
  · simp [poseValues_length]
  · simp [poseValues_length]
  · intro i hi
    have h12 : ∀ t : btTransform, 12 ≤ (poseValues t).length := fun _ => Nat.le_refl _
    rcases i with _ | _ | _ | _ | i
    · rw [List.drop_left' (poseValues_length _), List.take_left' (poseValues_length _)]
    · rw [← List.append_assoc, List.drop_left' (by simp [poseValues_length]),
        List.take_left' (poseValues_length _)]
    · rw [← List.append_assoc, ← List.append_assoc, List.drop_left' (by simp [poseValues_length]),
        List.take_left' (poseValues_length _)]
    · rw [← List.append_assoc, ← List.append_assoc, ← List.append_assoc,
        List.drop_left' (by simp [poseValues_length]), List.take_left' (poseValues_length _)]
    · omega

theorem demoEngine_keepsWheels (Vehicle : Nat) : demoEngine.KeepsWheels Vehicle :=
  fun _ _ => rfl

/-- C17 at the example scene: vehicle 0 has four wheels and its transform
array holds 60 values. -/
theorem C17_GetVehicleTransform_layout_witness :
    demoScene.vehicles_.at? 0 = some ⟨5, 3, 4, 6⟩ ∧
      (demoScene.dynamics_world_.vehicle 6).numWheels = 4 ∧
      ∃ pose w1, GetVehicleTransform demoEngine 4 demoScene 0 = .ok (pose, w1) ∧
        pose.length = 60 := by
  have h4 : (demoScene.dynamics_world_.vehicle 6).numWheels = 4 := by decide
  obtain ⟨pose, h, hl, -⟩ := C17_GetVehicleTransform_layout demoEngine demoScene 0 ⟨5, 3, 4, 6⟩
    demoScene_vehicle (demoEngine_keepsWheels 6) h4 4 (Nat.le_refl 4)
  exact ⟨demoScene_vehicle, h4, pose, _, h, hl⟩

/-- C18: for a vehicle id in the vehicle table whose vehicle rides on the
entry's rigid body and has 4 wheels, and for every position `p` and rotation
array `r`, `ResetVehicle(id, p, r)` completes and `GetVehicleTransform(id)`
called next returns an array whose first 12 values are `p[0..2]` followed by
`r[0..8]`. -/
theorem C18_ResetVehicle_round_trip (E : Engine) (w : BulletWorld) (id : Int)
    (e : Vehicle_Entity) (hv : w.vehicles_.at? id = some e)
    (hc : (w.dynamics_world_.vehicle e.vehicle_).m_chassisBody = e.rigidbody_)
    (hE : E.KeepsWheels e.vehicle_)
    (h4 : (w.dynamics_world_.vehicle e.vehicle_).numWheels = 4) (fuel : Nat) (hf : 4 ≤ fuel)
    (p r : Nat → Scalar) :
    ∃ w1 pose w2, ResetVehicle w id p r = .ok w1 ∧
      GetVehicleTransform E fuel w1 id = .ok (pose, w2) ∧
      pose.take 12 = [p 0, p 1, p 2, r 0, r 1, r 2, r 3, r 4, r 5, r 6, r 7, r 8] := by
  have hv1 : ({ w with
      dynamics_world_ := w.dynamics_world_.setBody e.rigidbody_
        ((w.dynamics_world_.body e.rigidbody_).setCenterOfMassTransform
          ⟨btMatrix3x3.ofRows (r 0) (r 3) (r 6) (r 1) (r 4) (r 7) (r 2) (r 5) (r 8),
            ⟨p 0, p 1, p 2⟩⟩) } : BulletWorld).vehicles_.at? id = some e := hv
  refine ⟨_, _, _, ResetVehicle_ok hv p r, GetVehicleTransform_run E hv1 hE h4 hf, ?_⟩
  rw [List.take_left' (poseValues_length _)]
  simp [poseValues, btDiscreteDynamicsWorld.getChassisWorldTransform,
    btDiscreteDynamicsWorld.setBody, hc, btRigidBody.setCenterOfMassTransform,
    btMatrix3x3.ofRows, btMatrix3x3.el, btMatrix3x3.row, btVector3.get]

/-- C18 at the example scene: vehicle 0 reset to the position `(1, 2, 3)` and
the identity rotation reports this pose as its chassis entry. -/
theorem C18_ResetVehicle_round_trip_witness :
    demoScene.vehicles_.at? 0 = some ⟨5, 3, 4, 6⟩ ∧
      (demoScene.dynamics_world_.vehicle 6).m_chassisBody = 5 ∧
      (demoScene.dynamics_world_.vehicle 6).numWheels = 4 ∧
      ∃ w1 pose w2, ResetVehicle demoScene 0 (demoTriple 1 2 3) demoRotation = .ok w1 ∧
        GetVehicleTransform demoEngine 4 w1 0 = .ok (pose, w2) ∧
        pose.take 12 = [1, 2, 3, 1, 0, 0, 0, 1, 0, 0, 0, 1] := by
  have hc : (demoScene.dynamics_world_.vehicle 6).m_chassisBody = 5 := by decide
  have h4 : (demoScene.dynamics_world_.vehicle 6).numWheels = 4 := by decide
  obtain ⟨w1, pose, w2, h1, h2, h3⟩ := C18_ResetVehicle_round_trip demoEngine demoScene 0
    ⟨5, 3, 4, 6⟩ demoScene_vehicle hc (demoEngine_keepsWheels 6) h4 4 (Nat.le_refl 4)
    (demoTriple 1 2 3) demoRotation
  refine ⟨demoScene_vehicle, hc, h4, w1, pose, w2, h1, h2, h3.trans ?_⟩
  simp [demoTriple, demoRotation]

/-! ## Placing a vehicle on the ground (C13, C14, C19) -/

/-! ## The phases of `RaycastToGround` -/

theorem RaycastToGround_settle_on (E : Engine) (id : Int) (Vehicle : Nat) (fuel : Nat)
    {on_ : Int} (hne : on_ ≠ 0) (p : btVector3) (w : BulletWorld) :
    RaycastToGround_settle E id Vehicle fuel on_ p w = .ok (p, w) := by
  cases fuel <;> simp [RaycastToGround_settle, hne]

theorem StepSimulation_step_count (E : Engine) (w : BulletWorld) :
    (StepSimulation E w).step_count = w.step_count + 1 := rfl

theorem RaycastToGround_contact_zero {E : Engine} {id : Int} {w : BulletWorld} {on_ : Int}
    (h : RaycastToGround_contact E id 0 w = some on_) :
    ∃ w1, OnTheGround E w id = .ok (on_, w1) := by
  simp only [RaycastToGround_contact, RaycastToGround_passes] at h
  cases hg : OnTheGround E w id with
  | error f => rw [hg] at h; cases h
  | ok r =>
    rw [hg] at h
    simp only [Except.toOption, Option.map_some', Option.some.injEq] at h
    exact ⟨r.2, by rw [← h]⟩

theorem RaycastToGround_contact_succ {E : Engine} {id : Int} {w w1 : BulletWorld} {on_ : Int}
    (h : OnTheGround E w id = .ok (on_, w1)) (k : Nat) :
    RaycastToGround_contact E id (k + 1) w = RaycastToGround_contact E id k (StepSimulation E w1) ∧
    RaycastToGround_passes E id (k + 1) w = RaycastToGround_passes E id k (StepSimulation E w1) := by
  simp only [RaycastToGround_contact, RaycastToGround_passes, RaycastToGround_pass, h, and_self]

theorem RaycastToGround_settle_run (E : Engine) (id : Int) (Vehicle : Nat) (k : Nat) :
    ∀ (w : BulletWorld) (p : btVector3),
      (∀ j, j < k → RaycastToGround_contact E id j w = some 0) →
      ∀ on_ : Int, RaycastToGround_contact E id k w = some on_ → on_ ≠ 0 →
      ∃ wk, RaycastToGround_passes E id (k + 1) w = .ok wk ∧
        wk.step_count = w.step_count + (k + 1) ∧
        ∀ fuel, k + 1 ≤ fuel →
          RaycastToGround_settle E id Vehicle fuel 0 p w =
            .ok ((wk.dynamics_world_.getChassisWorldTransform Vehicle).m_origin, wk) := by
  induction k with
  | zero =>
    intro w p _ on_ hon hne
    obtain ⟨w1, h1⟩ := RaycastToGround_contact_zero hon
    refine ⟨StepSimulation E w1, ?_, ?_, ?_⟩
    · simp only [RaycastToGround_passes, RaycastToGround_pass, h1]
    · rw [StepSimulation_step_count, OnTheGround_step_count h1]
    · intro fuel hf
      obtain ⟨f, rfl⟩ : ∃ f, fuel = f + 1 := ⟨fuel - 1, by omega⟩
      simp only [RaycastToGround_settle, h1, if_true]
      exact RaycastToGround_settle_on E id Vehicle f hne _ _
  | succ k ih =>
    intro w p hfirst on_ hon hne
    obtain ⟨w1, h1⟩ := RaycastToGround_contact_zero (hfirst 0 (Nat.succ_pos k))
    have hs := RaycastToGround_contact_succ h1
    obtain ⟨wk, hp, hc, hrun⟩ := ih (StepSimulation E w1)
      ((StepSimulation E w1).dynamics_world_.getChassisWorldTransform Vehicle).m_origin
      (fun j hj => (hs j).1 ▸ hfirst (j + 1) (Nat.succ_lt_succ hj)) on_ ((hs k).1 ▸ hon) hne
    refine ⟨wk, ?_, ?_, ?_⟩
    · rw [(hs (k + 1)).2]; exact hp
    · rw [hc, StepSimulation_step_count, OnTheGround_step_count h1]; omega
    · intro fuel hf
      obtain ⟨f, rfl⟩ : ∃ f, fuel = f + 1 := ⟨fuel - 1, by omega⟩
      simp only [RaycastToGround_settle, h1, if_true]
      exact hrun f (by omega)

/-- C19: the settle loop of `RaycastToGround` asks `OnTheGround` first and
steps afterwards.  If `OnTheGround` returns 0 in the worlds reached after
`0, ..., k - 1` passes from loop entry and a nonzero value in the world
reached after `k` passes, the loop (given at least `k + 1` passes) ends
after exactly `k + 1` passes, having called `StepSimulation` `k + 1` times,
and the position it yields is the chassis origin in the world after pass
`k + 1`; for `k = 0` the vehicle is on the ground at entry and one step is
still taken. -/
theorem C19_settle_steps_after_contact (E : Engine) (id : Int) (Vehicle : Nat) (k : Nat)
    (w : BulletWorld) (p : btVector3)
    (hfirst : ∀ j, j < k → RaycastToGround_contact E id j w = some 0)
    (on_ : Int) (hon : RaycastToGround_contact E id k w = some on_) (hne : on_ ≠ 0) :
    ∃ wk, RaycastToGround_passes E id (k + 1) w = .ok wk ∧
      wk.step_count = w.step_count + (k + 1) ∧
      ∀ fuel, k + 1 ≤ fuel →
        RaycastToGround_settle E id Vehicle fuel 0 p w =
          .ok ((wk.dynamics_world_.getChassisWorldTransform Vehicle).m_origin, wk) :=
  RaycastToGround_settle_run E id Vehicle k w p hfirst on_ hon hne

/-- C19 on a vehicle released just out of reach of the ground, which it
reaches after one step (`k = 1`): the loop takes two steps and yields the
chassis origin after the second step, `(0, 0, 4417/3000)`, whereas contact was
found with the chassis at `(0, 0, 13447/9000)`. -/
theorem C19_settle_steps_after_contact_witness :
    RaycastToGround_contact demoEngine 0 0 (lowScene (-1 / 2) (301 / 200)) = some 0 ∧
      RaycastToGround_contact demoEngine 0 1 (lowScene (-1 / 2) (301 / 200)) = some 1 ∧
      ((RaycastToGround_passes demoEngine 0 1 (lowScene (-1 / 2) (301 / 200))).toOption.map
        fun w1 => (w1.dynamics_world_.getChassisWorldTransform 6).m_origin) =
        some ⟨0, 0, 13447 / 9000⟩ ∧
      ∃ wk, RaycastToGround_settle demoEngine 0 6 2 0 ⟨0, 0, 0⟩
            (lowScene (-1 / 2) (301 / 200)) =
          .ok ((wk.dynamics_world_.getChassisWorldTransform 6).m_origin, wk) ∧
        wk.step_count = (lowScene (-1 / 2) (301 / 200)).step_count + 2 ∧
        (wk.dynamics_world_.getChassisWorldTransform 6).m_origin = ⟨0, 0, 4417 / 3000⟩ := by
  have h0 : RaycastToGround_contact demoEngine 0 0 (lowScene (-1 / 2) (301 / 200)) = some 0 := by
    decide!
  have h1 : RaycastToGround_contact demoEngine 0 1 (lowScene (-1 / 2) (301 / 200)) = some 1 := by
    decide!
  have h2 : ((RaycastToGround_passes demoEngine 0 1 (lowScene (-1 / 2) (301 / 200))).toOption.map
      fun w1 => (w1.dynamics_world_.getChassisWorldTransform 6).m_origin) =
      some ⟨0, 0, 13447 / 9000⟩ := by
    decide!
  have h3 : ((RaycastToGround_passes demoEngine 0 2 (lowScene (-1 / 2) (301 / 200))).toOption.map
      fun w1 => (w1.dynamics_world_.getChassisWorldTransform 6).m_origin) =
      some ⟨0, 0, 4417 / 3000⟩ := by
    decide!
  obtain ⟨wk, hp, hc, hrun⟩ := C19_settle_steps_after_contact demoEngine 0 6 1
    (lowScene (-1 / 2) (301 / 200)) ⟨0, 0, 0⟩
    (fun j hj => by obtain rfl : j = 0 := by omega
                    exact h0) 1 h1 (by decide)
  refine ⟨h0, h1, h2, wk, hrun 2 (Nat.le_refl 2), hc, ?_⟩
  rw [hp] at h3
  simpa [Except.toOption] using h3

/-- C13, the code at the failing input: `RaycastToGround(0, 0, 0)` for a
vehicle whose wheels hang half a unit below the chassis, over flat ground.
The lift loop is entered with the candidate point at height `3/2`; the wheel
raycasts of its first pass register contact (`hit = 1`, not `-1`), so that no
pass goes without contact, yet the point leaves the loop at height `8/5`,
`0.1` above the height at entry: the point is raised before the loop tests
`hit != -1`. -/
theorem C13_lift_raises_on_contact :
    (lowScene (-1 / 2) (1 / 2)).vehicles_.at? 0 = some ⟨5, 3, 4, 6⟩ ∧
      (RaycastToGround_candidate demoEngine (lowScene (-1 / 2) (1 / 2)) ⟨5, 3, 4, 6⟩ 0 0).2.1 =
        ⟨0, 0, 3 / 2⟩ ∧
      (RaycastToGround_wheels demoEngine 6 [0, 1, 2, 3] (-1)
        (RaycastToGround_candidate demoEngine (lowScene (-1 / 2) (1 / 2))
          ⟨5, 3, 4, 6⟩ 0 0).2.2).1 = 1 ∧
      (RaycastToGround_lift demoEngine ⟨5, 3, 4, 6⟩
        (RaycastToGround_candidate demoEngine (lowScene (-1 / 2) (1 / 2)) ⟨5, 3, 4, 6⟩ 0 0).1
        20 (-1) 0
        (RaycastToGround_candidate demoEngine (lowScene (-1 / 2) (1 / 2)) ⟨5, 3, 4, 6⟩ 0 0).2.1
        (RaycastToGround_candidate demoEngine (lowScene (-1 / 2) (1 / 2))
          ⟨5, 3, 4, 6⟩ 0 0).2.2).toOption.map Prod.fst = some ⟨0, 0, 8 / 5⟩ := by
  decide!

/-! ## `RaycastToGround` where no ray hits -/

end SimLAB
